import Mathlib

/-!
PhotoGrabber: the PTP transaction engine and object cache of `libptp/ptp.c`.

A shallow embedding of the parts of `src/plugins/ptp/libptp/ptp.c` that drive one
request / data / response exchange and that keep the object cache, followed by
theorems about them.

Conventions of the embedding

* `uint16_t` and `uint32_t` values are natural numbers; where the C arithmetic can
  wrap (`transaction_id++`, `transaction_id-1`, `handles.n++`) the reduction modulo
  `2^32` is written out.
* A C array is a list; a pointer that the source compares with `NULL` is an `Option`.
* The transport callbacks are function pointers stored in `PTPParams`; here they are
  the fields of `PTPTransport`.  Every callback receives the session by pointer, so
  in the embedding it returns the session it leaves behind.
* Each model function returns, next to the C return value, the state it leaves and
  the list of transport calls it made (`Call`), in call order.
* `ptp_debug` and `ptp_error` only emit diagnostic text and are left out.
-/

namespace PhotoGrabber

/-! ## Constants -/

/-- Numeric constants that `ptp.c` takes from the header `ptp.h`: response and error
codes, operation codes and datatype codes.  They are parameters of the embedding. -/
structure PTPCodes where
  PTP_RC_Undefined : Nat
  PTP_RC_OK : Nat
  PTP_RC_GeneralError : Nat
  PTP_ERROR_CANCEL : Nat
  PTP_ERROR_BADPARAM : Nat
  PTP_ERROR_IO : Nat
  PTP_OC_OpenSession : Nat
  PTP_OC_GetObjectHandles : Nat
  PTP_OC_GetObjectInfo : Nat
  PTP_OC_DeleteObject : Nat
  PTP_OC_MTP_GetObjPropList : Nat
  PTP_OC_CANON_GetTreeSize : Nat
  PTP_OC_NIKON_GetProfileAllData : Nat
  PTP_OC_CANON_CheckEvent : Nat
  PTP_OC_CANON_EOS_SetDevicePropValueEx : Nat
  PTP_DTC_UINT8 : Nat
  PTP_DTC_UINT16 : Nat
  PTP_DTC_UINT32 : Nat
  PTP_DTC_STR : Nat
deriving DecidableEq

/-- The constant `PTP_DP_NODATA`, `0x0000` (ptp.c:103): no data phase. -/
def PTP_DP_NODATA : Nat := 0x0000

/-- The constant `PTP_DP_SENDDATA`, `0x0001` (ptp.c:104): sending data. -/
def PTP_DP_SENDDATA : Nat := 0x0001

/-- The constant `PTP_DP_GETDATA`, `0x0002` (ptp.c:105): receiving data. -/
def PTP_DP_GETDATA : Nat := 0x0002

/-- The constant `PTP_DP_DATA_MASK`, `0x00ff` (ptp.c:106): data phase mask. -/
def PTP_DP_DATA_MASK : Nat := 0x00ff

/-- Width of `transaction_id`, `session_id`, handles and container parameters. -/
def UINT32_MOD : Nat := 2 ^ 32

/-! ## Data model -/

/-- The wire container `PTPContainer`: code, session id, transaction id, up to five
parameters and their count. -/
structure PTPContainer where
  Code : Nat
  SessionID : Nat
  Transaction_ID : Nat
  Param1 : Nat
  Param2 : Nat
  Param3 : Nat
  Param4 : Nat
  Param5 : Nat
  Nparam : Nat
deriving DecidableEq

/-- The initialiser `PTP_CNT_INIT(cnt)`, `memset(&cnt,0,sizeof(cnt))` (ptp.c:55). -/
def PTP_CNT_INIT : PTPContainer :=
  { Code := 0, SessionID := 0, Transaction_ID := 0,
    Param1 := 0, Param2 := 0, Param3 := 0, Param4 := 0, Param5 := 0, Nparam := 0 }

/-- The struct `PTPMemHandlerPrivate` (ptp.c:202-205): buffer pointer, size and cursor. -/
structure PTPMemHandlerPrivate where
  data : Option (List Nat)
  size : Nat
  curoff : Nat
deriving DecidableEq

/-- The struct `PTPFDHandlerPrivate` (ptp.c:299-301). -/
structure PTPFDHandlerPrivate where
  fd : Int
deriving DecidableEq

/-- A `PTPDataHandler`.  The source sets `getfunc`/`putfunc` to the memory pair or to
the descriptor pair together with the matching private struct, so a handler is
one of the two variants. -/
inductive PTPDataHandler where
  | memory (priv : PTPMemHandlerPrivate)
  | fd (priv : PTPFDHandlerPrivate)
deriving DecidableEq

/-- The struct `PTPObjectHandles`: the count `n` and the array `Handler`. -/
structure PTPObjectHandles where
  n : Nat
  Handler : Option (List Nat)
deriving DecidableEq

/-- Modelled from the spec: the struct `PTPObjectInfo` is declared in the absent
`ptp.h`; the fields are the per-object metadata section 3 lists (filename, size,
parent handle, storage id, capture date, thumbnail descriptor). -/
structure PTPObjectInfo where
  StorageID : Nat
  ObjectCompressedSize : Nat
  ParentObject : Nat
  ThumbFormat : Nat
  Filename : List Nat
  CaptureDate : Nat
deriving DecidableEq

/-- The object info left by `memset(&params->objectinfo[n-1], 0, sizeof(PTPObjectInfo))`. -/
def PTPObjectInfo.zero : PTPObjectInfo :=
  { StorageID := 0, ObjectCompressedSize := 0, ParentObject := 0, ThumbFormat := 0,
    Filename := [], CaptureDate := 0 }

/-- One property-cache entry `MTPProperties`: the fields `ptp.c` reads are
`ObjectHandle` and `property`; `datatype` and `propval` travel with them. -/
structure MTPProperties where
  property : Nat
  datatype : Nat
  ObjectHandle : Nat
  propval : List Nat
deriving DecidableEq

/-- One entry of the Canon property table: `proptype` and the cached current value
of its descriptor (`dpd.CurrentValue`). -/
structure PTPCanon_Property where
  proptype : Nat
  CurrentValue : Nat
deriving DecidableEq

/-- The part of `PTPDeviceInfo` that `ptp.c` reads. -/
structure PTPDeviceInfo where
  VendorExtensionID : Nat
  OperationsSupported : List Nat
  EventsSupported : List Nat
  DevicePropertiesSupported : List Nat
deriving DecidableEq

/-- One Wi-Fi profile record `PTPNIKONWifiProfile`, with the fields that
`ptp_nikon_getwifiprofilelist` fills (ptp.c:2527-2557). -/
structure PTPNIKONWifiProfile where
  id : Nat
  valid : Nat
  profile_name : List Nat
  display_order : Nat
  device_type : Nat
  icon_type : Nat
  creation_date : List Nat
  lastusage_date : List Nat
  essid : List Nat
deriving DecidableEq

/-- The session state `PTPParams`, without its function pointers (see
`PTPTransport`).  `data` is the transport's private pointer `params->data`. -/
structure PTPParams (W : Type) where
  data : W
  transaction_id : Nat
  session_id : Nat
  response_packet : Option (List Nat)
  response_packet_size : Nat
  split_header_data : Nat
  handles : PTPObjectHandles
  objectinfo : Option (List PTPObjectInfo)
  props : Option (List MTPProperties)
  nrofprops : Nat
  canon_props : List PTPCanon_Property
  nrofcanon_props : Nat
  deviceinfo : PTPDeviceInfo
  wifi_profiles_version : Nat := 0
  wifi_profiles_number : Nat := 0
  wifi_profiles : Option (List PTPNIKONWifiProfile) := none
deriving DecidableEq

/-- What a `sendreq_func` or `getresp_func` call leaves: its return code, the
session and the container (both passed by pointer). -/
structure ReqResult (W : Type) where
  ret : Nat
  params : PTPParams W
  ptp : PTPContainer

/-- What a `senddata_func` or `getdata_func` call leaves: as `ReqResult`, and the
data handler it was given. -/
structure DataResult (W : Type) where
  ret : Nat
  params : PTPParams W
  ptp : PTPContainer
  handler : Option PTPDataHandler

/-- What a `cancelreq_func` call leaves: its return code and the session. -/
structure CancelResult (W : Type) where
  ret : Nat
  params : PTPParams W

/-- The transport contract: the five function pointers of `PTPParams`. -/
structure PTPTransport (W : Type) where
  sendreq_func : PTPParams W → PTPContainer → ReqResult W
  senddata_func : PTPParams W → PTPContainer → Nat → Option PTPDataHandler → DataResult W
  getdata_func : PTPParams W → PTPContainer → Option PTPDataHandler → DataResult W
  getresp_func : PTPParams W → PTPContainer → ReqResult W
  cancelreq_func : PTPParams W → Nat → CancelResult W

/-- One transport call as the engine made it: the arguments passed and the code the
callback returned. -/
inductive Call where
  | sendreq (ptp : PTPContainer) (ret : Nat)
  | senddata (ptp : PTPContainer) (sendlen : Nat) (handler : Option PTPDataHandler) (ret : Nat)
  | getdata (ptp : PTPContainer) (handler : Option PTPDataHandler) (ret : Nat)
  | getresp (ptp : PTPContainer) (ret : Nat)
  | cancelreq (transaction_id : Nat) (ret : Nat)
deriving DecidableEq

/-- Which callback a `Call` went to. -/
inductive CallKind where
  | sendreq
  | senddata
  | getdata
  | getresp
  | cancelreq
deriving DecidableEq

/-- The callback a call went to. -/
def Call.kind : Call → CallKind
  | .sendreq _ _ => .sendreq
  | .senddata _ _ _ _ => .senddata
  | .getdata _ _ _ => .getdata
  | .getresp _ _ => .getresp
  | .cancelreq _ _ => .cancelreq

/-- The `return` statement through which `ptp_transaction_new` left. -/
inductive TxExit where
  | nullParam
  | sendreqFailed
  | dataFailed
  | badFlags
  | getrespFailed
  | seqMismatch
  | done
deriving DecidableEq

/-- Outcome of `ptp_transaction_new`: return value, the `return` taken, the session,
the container and the handler as left, and the transport calls made. -/
structure TxResult (W : Type) where
  ret : Nat
  exit : TxExit
  params : PTPParams W
  ptp : Option PTPContainer
  handler : Option PTPDataHandler
  calls : List Call

/-! ## The transaction engine (ptp.c:136-199) -/

/-- The value of `params->transaction_id-1` in 32-bit unsigned arithmetic. -/
def prev_transaction_id (transaction_id : Nat) : Nat :=
  (transaction_id + UINT32_MOD - 1) % UINT32_MOD

/-- The cancellation handling shared by both data cases (ptp.c:158-163 and
ptp.c:172-179): when the data callback returned `PTP_ERROR_CANCEL`, call
`cancelreq_func (params, params->transaction_id-1)` and turn its `PTP_RC_OK` into
`PTP_ERROR_CANCEL`. -/
def cancel_on_cancel {W : Type} (c : PTPCodes) (t : PTPTransport W) (ret : Nat)
    (params : PTPParams W) : Nat × PTPParams W × List Call :=
  if ret = c.PTP_ERROR_CANCEL then
    let tid := prev_transaction_id params.transaction_id
    let r := t.cancelreq_func params tid
    (if r.ret = c.PTP_RC_OK then c.PTP_ERROR_CANCEL else r.ret, r.params, [Call.cancelreq tid r.ret])
  else
    (ret, params, [])

/-- The response phase (ptp.c:189-198): `getresp_func`, then the sequence-number
check against `params->transaction_id-1`, then `return ptp->Code`.  `calls` are the
calls made so far. -/
def ptp_transaction_new_response {W : Type} (c : PTPCodes) (t : PTPTransport W)
    (params : PTPParams W) (ptp : PTPContainer) (handler : Option PTPDataHandler)
    (calls : List Call) : TxResult W :=
  let r := t.getresp_func params ptp
  let calls := calls ++ [Call.getresp ptp r.ret]
  if r.ret ≠ c.PTP_RC_OK then
    { ret := r.ret, exit := .getrespFailed, params := r.params, ptp := some r.ptp,
      handler := handler, calls := calls }
  else if r.ptp.Transaction_ID ≠ prev_transaction_id r.params.transaction_id then
    { ret := c.PTP_ERROR_BADPARAM, exit := .seqMismatch, params := r.params, ptp := some r.ptp,
      handler := handler, calls := calls }
  else
    { ret := r.ptp.Code, exit := .done, params := r.params, ptp := some r.ptp,
      handler := handler, calls := calls }

/-- What follows a data callback (ptp.c:158-166 and ptp.c:172-182): cancellation
handling, `if (ret != PTP_RC_OK) return ret;`, else on to the response phase. -/
def ptp_transaction_new_afterdata {W : Type} (c : PTPCodes) (t : PTPTransport W)
    (d : DataResult W) (calls : List Call) : TxResult W :=
  let k := cancel_on_cancel c t d.ret d.params
  if k.1 ≠ c.PTP_RC_OK then
    { ret := k.1, exit := .dataFailed, params := k.2.1, ptp := some d.ptp,
      handler := d.handler, calls := calls ++ k.2.2 }
  else
    ptp_transaction_new_response c t k.2.1 d.ptp d.handler (calls ++ k.2.2)

/-- The function `ptp_transaction_new` (ptp.c:136-199).  The session pointer is
dereferenced by the diagnostic call before the null test, so only the container
can be null here. -/
def ptp_transaction_new {W : Type} (c : PTPCodes) (t : PTPTransport W)
    (params : PTPParams W) (ptp : Option PTPContainer) (flags sendlen : Nat)
    (handler : Option PTPDataHandler) : TxResult W :=
  match ptp with
  | none =>
    { ret := c.PTP_ERROR_BADPARAM, exit := .nullParam, params := params, ptp := none,
      handler := handler, calls := [] }
  | some ptp0 =>
    -- ptp->Transaction_ID=params->transaction_id++; ptp->SessionID=params->session_id;
    let ptp1 := { ptp0 with Transaction_ID := params.transaction_id,
                            SessionID := params.session_id }
    let params1 := { params with transaction_id := (params.transaction_id + 1) % UINT32_MOD }
    -- CHECK_PTP_RC(params->sendreq_func (params, ptp));
    let r := t.sendreq_func params1 ptp1
    let calls := [Call.sendreq ptp1 r.ret]
    if r.ret ≠ c.PTP_RC_OK then
      { ret := r.ret, exit := .sendreqFailed, params := r.params, ptp := some r.ptp,
        handler := handler, calls := calls }
    else if flags &&& PTP_DP_DATA_MASK = PTP_DP_SENDDATA then
      let d := t.senddata_func r.params r.ptp sendlen handler
      ptp_transaction_new_afterdata c t d (calls ++ [Call.senddata r.ptp sendlen handler d.ret])
    else if flags &&& PTP_DP_DATA_MASK = PTP_DP_GETDATA then
      let d := t.getdata_func r.params r.ptp handler
      ptp_transaction_new_afterdata c t d (calls ++ [Call.getdata r.ptp handler d.ret])
    else if flags &&& PTP_DP_DATA_MASK = PTP_DP_NODATA then
      ptp_transaction_new_response c t r.params r.ptp handler calls
    else
      { ret := c.PTP_ERROR_BADPARAM, exit := .badFlags, params := r.params, ptp := some r.ptp,
        handler := handler, calls := calls }

/-! ## The memory data handler as used by `ptp_transaction` (ptp.c:245-296) -/

/-- The function `ptp_init_recv_memory_handler` (ptp.c:246-257): empty buffer. -/
def ptp_init_recv_memory_handler : PTPDataHandler :=
  .memory { data := none, size := 0, curoff := 0 }

/-- The function `ptp_init_send_memory_handler` (ptp.c:260-275): the caller's
buffer, its length, cursor at zero. -/
def ptp_init_send_memory_handler (data : Option (List Nat)) (len : Nat) : PTPDataHandler :=
  .memory { data := data, size := len, curoff := 0 }

/-- The function `ptp_exit_recv_memory_handler` (ptp.c:287-296): hands out
`priv->data` and `priv->size`.  The handler it is given was initialised as a memory
handler; for any other value nothing is handed out. -/
def ptp_exit_recv_memory_handler (handler : Option PTPDataHandler) : Option (List Nat) × Nat :=
  match handler with
  | some (.memory priv) => (priv.data, priv.size)
  | _ => (none, 0)

/-- Outcome of `ptp_transaction`: return value, session, container, the buffer left
in `*data`, the value stored through `recvlen` (if any), and the transport calls. -/
structure TransactionResult (W : Type) where
  ret : Nat
  params : PTPParams W
  ptp : Option PTPContainer
  data : Option (List Nat)
  recvlen : Option Nat
  calls : List Call

/-- The function `ptp_transaction` (ptp.c:356-396), the memory-based wrapper of
`ptp_transaction_new`.  `data` is the buffer `*data` points to on entry.  Outside
the two data cases the local handler stays uninitialised and no callback sees it. -/
def ptp_transaction {W : Type} (c : PTPCodes) (t : PTPTransport W)
    (params : PTPParams W) (ptp : Option PTPContainer) (flags sendlen : Nat)
    (data : Option (List Nat)) : TransactionResult W :=
  let handler : Option PTPDataHandler :=
    if flags &&& PTP_DP_DATA_MASK = PTP_DP_SENDDATA then
      some (ptp_init_send_memory_handler data sendlen)
    else if flags &&& PTP_DP_DATA_MASK = PTP_DP_GETDATA then
      some ptp_init_recv_memory_handler
    else none
  let r := ptp_transaction_new c t params ptp flags sendlen handler
  if flags &&& PTP_DP_DATA_MASK = PTP_DP_GETDATA then
    let out := ptp_exit_recv_memory_handler r.handler
    { ret := r.ret, params := r.params, ptp := r.ptp, data := out.1,
      recvlen := some (out.2 % UINT32_MOD), calls := r.calls }
  else
    { ret := r.ret, params := r.params, ptp := r.ptp, data := data,
      recvlen := none, calls := r.calls }

/-! ## Operations -/

/-- Outcome of an operation that returns only a code: code, session, transport calls. -/
structure OpResult (W : Type) where
  ret : Nat
  params : PTPParams W
  calls : List Call

/-- The function `ptp_opensession` (ptp.c:445-473). -/
def ptp_opensession {W : Type} (c : PTPCodes) (t : PTPTransport W)
    (params : PTPParams W) (session : Nat) : OpResult W :=
  let params1 := { params with session_id := 0x00000000, transaction_id := 0x0000000,
                               response_packet := none, response_packet_size := 0,
                               split_header_data := 0 }
  let ptp := { PTP_CNT_INIT with Code := c.PTP_OC_OpenSession, Param1 := session, Nparam := 1 }
  let r := ptp_transaction_new c t params1 (some ptp) PTP_DP_NODATA 0 none
  { ret := r.ret, params := { r.params with session_id := session }, calls := r.calls }

/-- The decoders of `ptp-pack.c` that the operations below call.  That file is
included by `ptp.c` but absent, so the decoders are parameters.  Each gets the
received buffer and its length; `ptp_unpack_OH` and `ptp_unpack_OI` also get the
struct they fill, `ptp_unpack_OPL` returns the array and its entry count. -/
structure PTPPack (W : Type) where
  ptp_unpack_OH : PTPParams W → Option (List Nat) → PTPObjectHandles → Nat → PTPObjectHandles
  ptp_unpack_OI : PTPParams W → Option (List Nat) → PTPObjectInfo → Nat → PTPObjectInfo
  ptp_unpack_OPL : PTPParams W → Option (List Nat) → Nat → Option (List MTPProperties) × Nat

/-- Outcome of `ptp_getobjecthandles`: code, session, the caller's `objecthandles`
struct as left, transport calls. -/
structure ObjectHandlesResult (W : Type) where
  ret : Nat
  params : PTPParams W
  objecthandles : PTPObjectHandles
  calls : List Call

/-- The function `ptp_getobjecthandles` (ptp.c:657-694). -/
def ptp_getobjecthandles {W : Type} (c : PTPCodes) (t : PTPTransport W) (pk : PTPPack W)
    (params : PTPParams W) (storage objectformatcode associationOH : Nat)
    (objecthandles : PTPObjectHandles) : ObjectHandlesResult W :=
  let ptp := { PTP_CNT_INIT with Code := c.PTP_OC_GetObjectHandles, Param1 := storage,
                                 Param2 := objectformatcode, Param3 := associationOH,
                                 Nparam := 3 }
  let r := ptp_transaction c t params (some ptp) PTP_DP_GETDATA 0 none
  if r.ret = c.PTP_RC_OK then
    { ret := r.ret, params := r.params,
      objecthandles := pk.ptp_unpack_OH r.params r.data objecthandles (r.recvlen.getD 0),
      calls := r.calls }
  else if storage = 0xffffffff ∧ objectformatcode = 0 ∧ associationOH = 0 then
    { ret := c.PTP_RC_OK, params := r.params,
      objecthandles := { n := 0, Handler := none }, calls := r.calls }
  else
    { ret := r.ret, params := r.params, objecthandles := objecthandles, calls := r.calls }

/-- Outcome of `ptp_getobjectinfo`: code, session, the `objectinfo` struct as left,
transport calls. -/
structure ObjectInfoResult (W : Type) where
  ret : Nat
  params : PTPParams W
  objectinfo : PTPObjectInfo
  calls : List Call

/-- The function `ptp_getobjectinfo` (ptp.c:747-767). -/
def ptp_getobjectinfo {W : Type} (c : PTPCodes) (t : PTPTransport W) (pk : PTPPack W)
    (params : PTPParams W) (handle : Nat) (objectinfo : PTPObjectInfo) : ObjectInfoResult W :=
  let ptp := { PTP_CNT_INIT with Code := c.PTP_OC_GetObjectInfo, Param1 := handle, Nparam := 1 }
  let r := ptp_transaction c t params (some ptp) PTP_DP_GETDATA 0 none
  if r.ret = c.PTP_RC_OK then
    { ret := r.ret, params := r.params,
      objectinfo := pk.ptp_unpack_OI r.params r.data objectinfo (r.recvlen.getD 0),
      calls := r.calls }
  else
    { ret := r.ret, params := r.params, objectinfo := objectinfo, calls := r.calls }

/-- Outcome of `ptp_mtp_getobjectproplist`: code, session, `*props` and
`*nrofprops` as left, transport calls. -/
structure ObjectPropListResult (W : Type) where
  ret : Nat
  params : PTPParams W
  props : Option (List MTPProperties)
  nrofprops : Nat
  calls : List Call

/-- The function `ptp_mtp_getobjectproplist` (ptp.c:2884-2905).  `props` and
`nrofprops` are the values behind the two out-pointers on entry. -/
def ptp_mtp_getobjectproplist {W : Type} (c : PTPCodes) (t : PTPTransport W) (pk : PTPPack W)
    (params : PTPParams W) (handle : Nat) (props : Option (List MTPProperties))
    (nrofprops : Nat) : ObjectPropListResult W :=
  let ptp := { PTP_CNT_INIT with Code := c.PTP_OC_MTP_GetObjPropList, Param1 := handle,
                                 Param2 := 0x00000000, Param3 := 0xFFFFFFFF,
                                 Param4 := 0x00000000, Param5 := 0x00000000, Nparam := 5 }
  let r := ptp_transaction c t params (some ptp) PTP_DP_GETDATA 0 none
  if r.ret = c.PTP_RC_OK then
    let u := pk.ptp_unpack_OPL r.params r.data (r.recvlen.getD 0)
    { ret := r.ret, params := r.params, props := u.1, nrofprops := u.2, calls := r.calls }
  else
    { ret := r.ret, params := r.params, props := props, nrofprops := nrofprops, calls := r.calls }

/-! ## The object and property cache (ptp.c:4325-4429) -/

/-- The call `memmove (xs+dst, xs+src, cnt*sizeof)` on an array: the `cnt` cells from `src`
are copied to `dst`.  Both ranges lie inside the array in every use below. -/
def memmove {α : Type} (xs : List α) (dst src cnt : Nat) : List α :=
  xs.take dst ++ ((xs.drop src).take cnt ++ xs.drop (dst + cnt))

/-- A call `realloc (p, n*sizeof)` that succeeds: the first `n` cells are kept, cells
beyond the old size are indeterminate in C and hold `fill` here.  For `n = 0` the
C library may hand back the null pointer; `zeroNull` says whether it does. -/
def realloc {α : Type} (zeroNull : Bool) (p : Option (List α)) (n : Nat) (fill : α) :
    Option (List α) :=
  if n = 0 ∧ zeroNull = true then none
  else some (((p.getD []) ++ List.replicate (n - (p.getD []).length) fill).take n)

/-- The first loop of `ptp_remove_object_from_cache` (ptp.c:4331-4343), from index
`i` on; `fuel` bounds the number of iterations still to run.  A match at `i` moves
the tails of both arrays one cell down, decrements `handles.n` and shrinks both
arrays; the loop then goes on with `i+1`. -/
def remove_handle_loop (zeroNull : Bool) (handle : Nat) :
    Nat → Nat → PTPObjectHandles → Option (List PTPObjectInfo) →
    PTPObjectHandles × Option (List PTPObjectInfo)
  | 0, _, handles, objectinfo => (handles, objectinfo)
  | fuel + 1, i, handles, objectinfo =>
    if i < handles.n then
      if (handles.Handler.getD []).getD i 0 = handle then
        let H := memmove (handles.Handler.getD []) i (i + 1) (handles.n - i - 1)
        let O := memmove (objectinfo.getD []) i (i + 1) (handles.n - i - 1)
        let n := handles.n - 1
        remove_handle_loop zeroNull handle fuel (i + 1)
          { n := n, Handler := realloc zeroNull (some H) n 0 }
          (realloc zeroNull (some O) n PTPObjectInfo.zero)
      else
        remove_handle_loop zeroNull handle fuel (i + 1) handles objectinfo
    else (handles, objectinfo)

/-- The counting loop of `ptp_remove_object_from_cache` (ptp.c:4350-4359) over the
cells from index `i` on: returns `(nrofoldprops, firstoldprop)`. -/
def count_oldprops (handle : Nat) : List MTPProperties → Nat → Nat → Nat → Nat × Nat
  | [], _, nrofoldprops, firstoldprop => (nrofoldprops, firstoldprop)
  | prop :: rest, i, nrofoldprops, firstoldprop =>
    if prop.ObjectHandle = handle then
      count_oldprops handle rest (i + 1) (nrofoldprops + 1)
        (if nrofoldprops + 1 = 1 then i else firstoldprop)
    else
      count_oldprops handle rest (i + 1) nrofoldprops firstoldprop

/-- The function `ptp_remove_object_from_cache` (ptp.c:4325-4371).  The first loop
gets `handles.n + 1` units of fuel, which it cannot use up: the index grows by one
in every iteration and `handles.n` never grows (`remove_handle_loop_fuel`). -/
def ptp_remove_object_from_cache {W : Type} (zeroNull : Bool) (params : PTPParams W)
    (handle : Nat) : PTPParams W :=
  let r := remove_handle_loop zeroNull handle (params.handles.n + 1) 0
             params.handles params.objectinfo
  let params1 := { params with handles := r.1, objectinfo := r.2 }
  match params1.props with
  | none => params1
  | some props =>
    let k := count_oldprops handle (props.take params1.nrofprops) 0 0 0
    let nrofoldprops := k.1
    let firstoldprop := k.2
    let moved := memmove props firstoldprop (firstoldprop + nrofoldprops)
                   (params1.nrofprops - firstoldprop - nrofoldprops)
    { params1 with
      props := realloc zeroNull (some moved) (params1.nrofprops - nrofoldprops)
                 { property := 0, datatype := 0, ObjectHandle := 0, propval := [] },
      nrofprops := params1.nrofprops - nrofoldprops }

/-- The function `ptp_deleteobject` (ptp.c:909-927). -/
def ptp_deleteobject {W : Type} (c : PTPCodes) (t : PTPTransport W) (zeroNull : Bool)
    (params : PTPParams W) (handle ofc : Nat) : OpResult W :=
  let ptp := { PTP_CNT_INIT with Code := c.PTP_OC_DeleteObject, Param1 := handle,
                                 Param2 := ofc, Nparam := 2 }
  let r := ptp_transaction c t params (some ptp) PTP_DP_NODATA 0 none
  if r.ret ≠ c.PTP_RC_OK then
    { ret := r.ret, params := r.params, calls := r.calls }
  else
    { ret := c.PTP_RC_OK, params := ptp_remove_object_from_cache zeroNull r.params handle,
      calls := r.calls }

/-- The function `ptp_add_object_to_cache` (ptp.c:4373-4429).  The three flags say
whether the first, second and third `realloc` found memory.  The code returned by
`ptp_getobjectinfo` is dropped, as in the source. -/
def ptp_add_object_to_cache {W : Type} (c : PTPCodes) (t : PTPTransport W) (pk : PTPPack W)
    (zeroNull memHandler memInfo memProps : Bool) (params : PTPParams W) (handle : Nat) :
    OpResult W :=
  -- params->handles.n++; n = params->handles.n;
  let n := (params.handles.n + 1) % UINT32_MOD
  let params1 := { params with handles := { params.handles with n := n } }
  let xhandler := realloc zeroNull params1.handles.Handler n 0
  if memHandler = false ∨ xhandler = none then
    { ret := c.PTP_ERROR_IO, params := params1, calls := [] }
  else
    let params2 := { params1 with
      handles := { n := n, Handler := some ((xhandler.getD []).set (n - 1) handle) } }
    let xoi := realloc zeroNull params2.objectinfo n PTPObjectInfo.zero
    if memInfo = false ∨ xoi = none then
      { ret := c.PTP_ERROR_IO, params := params2, calls := [] }
    else
      let params3 := { params2 with
        objectinfo := some ((xoi.getD []).set (n - 1) PTPObjectInfo.zero) }
      let g := ptp_getobjectinfo c t pk params3 handle PTPObjectInfo.zero
      let params4 := { g.params with
        objectinfo := g.params.objectinfo.map (fun (oi : List PTPObjectInfo) => oi.set (n - 1) g.objectinfo) }
      match params4.props with
      | none => { ret := c.PTP_RC_OK, params := params4, calls := g.calls }
      | some _ =>
        let l := ptp_mtp_getobjectproplist c t pk params4 handle none 0
        if l.ret ≠ c.PTP_RC_OK then
          { ret := l.ret, params := l.params, calls := g.calls ++ l.calls }
        else
          let no_new_props := l.nrofprops
          let xprops := realloc zeroNull l.params.props (l.params.nrofprops + no_new_props)
                          { property := 0, datatype := 0, ObjectHandle := 0, propval := [] }
          if memProps = false ∨ xprops = none then
            { ret := c.PTP_ERROR_IO, params := l.params, calls := g.calls ++ l.calls }
          else
            let copied := (xprops.getD []).take l.params.nrofprops ++
                            ((l.props.getD []).take no_new_props ++
                             (xprops.getD []).drop (l.params.nrofprops + no_new_props))
            { ret := c.PTP_RC_OK,
              params := { l.params with props := some copied,
                                        nrofprops := l.params.nrofprops + no_new_props },
              calls := g.calls ++ l.calls }

/-! ## Assumptions on the transport, and sample transports -/

/-- No transport callback changes `params->transaction_id`. -/
structure PTPTransport.KeepsCounter {W : Type} (t : PTPTransport W) : Prop where
  sendreq : ∀ p ptp, (t.sendreq_func p ptp).params.transaction_id = p.transaction_id
  senddata : ∀ p ptp n h, (t.senddata_func p ptp n h).params.transaction_id = p.transaction_id
  getdata : ∀ p ptp h, (t.getdata_func p ptp h).params.transaction_id = p.transaction_id
  getresp : ∀ p ptp, (t.getresp_func p ptp).params.transaction_id = p.transaction_id
  cancelreq : ∀ p n, (t.cancelreq_func p n).params.transaction_id = p.transaction_id

/-- The cached state of a session: handle set, object-info array, property cache
and its count. -/
def PTPParams.cache {W : Type} (p : PTPParams W) :
    PTPObjectHandles × Option (List PTPObjectInfo) × Option (List MTPProperties) × Nat :=
  (p.handles, p.objectinfo, p.props, p.nrofprops)

/-- No transport callback changes the handle set, the object-info array or the
property cache. -/
structure PTPTransport.KeepsCache {W : Type} (t : PTPTransport W) : Prop where
  sendreq : ∀ p ptp, (t.sendreq_func p ptp).params.cache = p.cache
  senddata : ∀ p ptp n h, (t.senddata_func p ptp n h).params.cache = p.cache
  getdata : ∀ p ptp h, (t.getdata_func p ptp h).params.cache = p.cache
  getresp : ∀ p ptp, (t.getresp_func p ptp).params.cache = p.cache
  cancelreq : ∀ p n, (t.cancelreq_func p n).params.cache = p.cache

/-- Sample values for the constants of `ptp.h`, used to evaluate the model. -/
def sampleCodes : PTPCodes :=
  { PTP_RC_Undefined := 0x2000, PTP_RC_OK := 0x2001, PTP_RC_GeneralError := 0x2002,
    PTP_ERROR_CANCEL := 0x02FB, PTP_ERROR_BADPARAM := 0x02FC, PTP_ERROR_IO := 0x02FF,
    PTP_OC_OpenSession := 0x1002, PTP_OC_GetObjectHandles := 0x1007,
    PTP_OC_GetObjectInfo := 0x1008, PTP_OC_DeleteObject := 0x100B,
    PTP_OC_MTP_GetObjPropList := 0x9805, PTP_OC_CANON_GetTreeSize := 0x9029,
    PTP_OC_NIKON_GetProfileAllData := 0x9006, PTP_OC_CANON_CheckEvent := 0x9013,
    PTP_OC_CANON_EOS_SetDevicePropValueEx := 0x9110, PTP_DTC_UINT8 := 0x0002,
    PTP_DTC_UINT16 := 0x0004, PTP_DTC_UINT32 := 0x0006, PTP_DTC_STR := 0xFFFF }

/-- What a scripted sample transport answers: the code each callback returns, the
response code and transaction-id offset of the response container (offset 0 echoes
the request's id), and the bytes a get-data phase delivers. -/
structure Script where
  sendreq : Nat
  senddata : Nat
  getdata : Nat
  getresp : Nat
  cancelreq : Nat
  respCode : Nat
  respTidOffset : Nat
  received : List Nat
deriving DecidableEq

/-- A sample transport that answers from a `Script` and leaves the session alone. -/
def scripted (s : Script) : PTPTransport Unit :=
  { sendreq_func := fun p ptp => { ret := s.sendreq, params := p, ptp := ptp },
    senddata_func := fun p ptp _ h => { ret := s.senddata, params := p, ptp := ptp, handler := h },
    getdata_func := fun p ptp _ =>
      { ret := s.getdata, params := p, ptp := ptp,
        handler := some (.memory { data := some s.received, size := s.received.length,
                                   curoff := s.received.length }) },
    getresp_func := fun p ptp =>
      { ret := s.getresp, params := p,
        ptp := { ptp with Code := s.respCode,
                          Transaction_ID := (ptp.Transaction_ID + s.respTidOffset) % UINT32_MOD } },
    cancelreq_func := fun p _ => { ret := s.cancelreq, params := p } }

/-- The script of a device and transport on which everything succeeds. -/
def allOK : Script :=
  { sendreq := 0x2001, senddata := 0x2001, getdata := 0x2001, getresp := 0x2001,
    cancelreq := 0x2001, respCode := 0x2001, respTidOffset := 0, received := [] }

/-- A sample session: counter and session id as given, empty cache. -/
def sampleParams (transaction_id session_id : Nat) : PTPParams Unit :=
  { data := (), transaction_id := transaction_id, session_id := session_id,
    response_packet := none, response_packet_size := 0, split_header_data := 0,
    handles := { n := 0, Handler := none }, objectinfo := none,
    props := none, nrofprops := 0, canon_props := [], nrofcanon_props := 0,
    deviceinfo := { VendorExtensionID := 0, OperationsSupported := [],
                    EventsSupported := [], DevicePropertiesSupported := [] } }

/-- A sample decoding of a property list: consecutive byte pairs
`(object handle, property code)`. -/
def samplePropList : List Nat → List MTPProperties
  | h :: p :: rest =>
    { property := p, datatype := 0, ObjectHandle := h, propval := [] } :: samplePropList rest
  | _ => []

/-- Sample decoders: one handle per received byte; the first received byte as the
storage id of the object info; the property list by `samplePropList`. -/
def samplePack : PTPPack Unit :=
  { ptp_unpack_OH := fun _ d _ _ => { n := (d.getD []).length, Handler := d },
    ptp_unpack_OI := fun _ d oi _ => { oi with StorageID := (d.getD []).headD 0 },
    ptp_unpack_OPL := fun _ d _ =>
      (some (samplePropList (d.getD [])), (samplePropList (d.getD [])).length) }

/-! ## Sequences of transactions -/

/-- One call of `ptp_transaction_new` with a non-null container. -/
structure TxRequest where
  ptp : PTPContainer
  flags : Nat
  sendlen : Nat
  handler : Option PTPDataHandler

/-- A sequence of `ptp_transaction_new` calls on one session, each starting from the
session the previous one left. -/
def run_transactions {W : Type} (c : PTPCodes) (t : PTPTransport W) :
    PTPParams W → List TxRequest → List (TxResult W)
  | _, [] => []
  | params, q :: qs =>
    let r := ptp_transaction_new c t params (some q.ptp) q.flags q.sendlen q.handler
    r :: run_transactions c t r.params qs

/-- The transaction id with which the request of a transaction was sent: the id in
the container passed to `sendreq_func`. -/
def TxResult.request_id {W : Type} (r : TxResult W) : Option Nat :=
  match r.calls.head? with
  | some (.sendreq ptp _) => some ptp.Transaction_ID
  | _ => none

/-- The transaction id of the response a transaction accepted: the id in the
container when the function left through `return ptp->Code`. -/
def TxResult.response_id {W : Type} (r : TxResult W) : Option Nat :=
  if r.exit = .done then r.ptp.map (fun p => p.Transaction_ID) else none

/-! ## Vocabulary of the theorems -/

/-- The container with which `ptp_transaction_new` calls `sendreq_func`: the caller's
container with `Transaction_ID` and `SessionID` filled in (ptp.c:147-148). -/
def request_of {W : Type} (params : PTPParams W) (ptp : PTPContainer) : PTPContainer :=
  { ptp with Transaction_ID := params.transaction_id, SessionID := params.session_id }

/-- The session after `params->transaction_id++` (ptp.c:147). -/
def bump {W : Type} (params : PTPParams W) : PTPParams W :=
  { params with transaction_id := (params.transaction_id + 1) % UINT32_MOD }

/-- The code a transport call returned. -/
def Call.ret : Call → Nat
  | .sendreq _ r => r
  | .senddata _ _ _ r => r
  | .getdata _ _ r => r
  | .getresp _ r => r
  | .cancelreq _ r => r

/-- The transport calls of one transaction as the claim on call order describes
them, given the container passed to and the code returned by each call: the request;
then, if it succeeded, the data callback selected by the low 8 bits of `flags`
(none for `PTP_DP_NODATA`), with `sendlen` and the handler; then the cancel request
if the data callback reported cancellation, nothing more if it failed otherwise,
and else get-response. -/
def expected_calls (c : PTPCodes) (flags sendlen : Nat) (handler : Option PTPDataHandler)
    (q qd qr : PTPContainer) (x rs rd rc rr : Nat) : List Call :=
  Call.sendreq q rs ::
    (if rs ≠ c.PTP_RC_OK then []
     else if flags &&& PTP_DP_DATA_MASK = PTP_DP_SENDDATA then
       Call.senddata qd sendlen handler rd ::
         (if rd = c.PTP_ERROR_CANCEL then [Call.cancelreq x rc]
          else if rd ≠ c.PTP_RC_OK then [] else [Call.getresp qr rr])
     else if flags &&& PTP_DP_DATA_MASK = PTP_DP_GETDATA then
       Call.getdata qd handler rd ::
         (if rd = c.PTP_ERROR_CANCEL then [Call.cancelreq x rc]
          else if rd ≠ c.PTP_RC_OK then [] else [Call.getresp qr rr])
     else if flags &&& PTP_DP_DATA_MASK = PTP_DP_NODATA then [Call.getresp qr rr]
     else [])

/-- What the claim on error propagation counts as a failure report: a non-OK code
from send-request, from get-response, or from a data callback other than
`PTP_ERROR_CANCEL`. -/
def Call.reports_failure (c : PTPCodes) (call : Call) : Prop :=
  call.ret ≠ c.PTP_RC_OK ∧
    (call.kind = .sendreq ∨ call.kind = .getresp ∨
      ((call.kind = .senddata ∨ call.kind = .getdata) ∧ call.ret ≠ c.PTP_ERROR_CANCEL))

instance (c : PTPCodes) (call : Call) : Decidable (call.reports_failure c) := by
  unfold Call.reports_failure
  exact inferInstance

/-! ## More sample inputs -/

/-- A sample request: no parameters, no data phase. -/
def sampleRequest : TxRequest :=
  { ptp := PTP_CNT_INIT, flags := PTP_DP_NODATA, sendlen := 0, handler := none }

/-- The script of a get-data phase that the caller cancels (`PTP_ERROR_CANCEL` is
`0x02FB` in `sampleCodes`). -/
def cancelledGet : Script := { allOK with getdata := 0x02FB }

/-- The script of a device whose response carries the next transaction id instead
of the request's. -/
def outOfStep : Script := { allOK with respTidOffset := 1 }

/-- The script of a device that refuses every request with response code `0x2005`. -/
def refusing : Script := { allOK with respCode := 0x2005 }

/-- The script of a device that answers every get-data phase with the two bytes
`7, 2`, which `samplePack` reads as property 2 of handle 7. -/
def oneProperty : Script := { allOK with received := [7, 2] }

/-- A sample object-info record, tagged with its handle in `StorageID`. -/
def sampleInfo (handle : Nat) : PTPObjectInfo :=
  { PTPObjectInfo.zero with StorageID := handle }

/-- A sample property-cache entry for `(object handle, property code)`. -/
def sampleProp (e : Nat × Nat) : MTPProperties :=
  { property := e.2, datatype := 0, ObjectHandle := e.1, propval := [] }

/-- A sample session whose cache holds the given handles, one info record per handle,
and, if given, the property entries `(object handle, property code)`. -/
def sampleCache (handles : List Nat) (props : Option (List (Nat × Nat))) : PTPParams Unit :=
  { data := (), transaction_id := 0, session_id := 1,
    response_packet := none, response_packet_size := 0, split_header_data := 0,
    handles := { n := handles.length, Handler := some handles },
    objectinfo := some (handles.map sampleInfo),
    props := props.map (fun l => l.map sampleProp),
    nrofprops := (props.getD []).length, canon_props := [], nrofcanon_props := 0,
    deviceinfo := { VendorExtensionID := 0, OperationsSupported := [],
                    EventsSupported := [], DevicePropertiesSupported := [] } }

/-! ## The data handlers (ptp.c:201-334) -/

/-- The call `memcpy (dst+off, src, n)` on arrays: `n` cells of `src` are written
over the cells of `dst` from `off` on. -/
def memcpy {α : Type} (dst : List α) (off : Nat) (src : List α) (n : Nat) : List α :=
  dst.take off ++ (src.take n ++ dst.drop (off + n))

/-- Outcome of a `getfunc` call: return code, the private struct as left, the bytes
copied to the caller's buffer, and the value stored through `gotlen` (if any). -/
structure GetResult (P : Type) where
  ret : Nat
  priv : P
  data : List Nat
  gotlen : Option Nat
deriving DecidableEq

/-- Outcome of a `putfunc` call: return code, the private struct as left, and the
value stored through `putlen` (if any). -/
structure PutResult (P : Type) where
  ret : Nat
  priv : P
  putlen : Option Nat
deriving DecidableEq

/-- The function `memory_getfunc` (ptp.c:207-222).  The lengths are `unsigned long`
sizes of buffers in memory (`wantlen` is the room in the caller's buffer), so their
sums do not wrap; `size - curoff` is taken with `curoff ≤ size`. -/
def memory_getfunc (c : PTPCodes) (priv : PTPMemHandlerPrivate) (wantlen : Nat) :
    GetResult PTPMemHandlerPrivate :=
  let tocopy := if priv.curoff + wantlen > priv.size then priv.size - priv.curoff else wantlen
  { ret := c.PTP_RC_OK,
    priv := { priv with curoff := priv.curoff + tocopy },
    data := ((priv.data.getD []).drop priv.curoff).take tocopy,
    gotlen := some tocopy }

/-- The function `memory_putfunc` (ptp.c:224-243); `data` holds the `sendlen` bytes
pushed.  The `realloc` is to a positive size and is taken to succeed (the source does
not test it). -/
def memory_putfunc (c : PTPCodes) (priv : PTPMemHandlerPrivate) (sendlen : Nat)
    (data : List Nat) : PutResult PTPMemHandlerPrivate :=
  let priv1 : PTPMemHandlerPrivate :=
    if priv.curoff + sendlen > priv.size then
      { priv with data := realloc false priv.data (priv.curoff + sendlen) 0,
                  size := priv.curoff + sendlen }
    else priv
  { ret := c.PTP_RC_OK,
    priv := { priv1 with
      data := priv1.data.map (fun (d : List Nat) => memcpy d priv1.curoff data sendlen),
      curoff := priv1.curoff + sendlen },
    putlen := some sendlen }

/-- The value a C `int` (32 bits, two's complement) holds after an integer `x` was
assigned to it: `x` modulo 2^32, taken between -2^31 and 2^31 - 1. -/
def to_int (x : Int) : Int :=
  (x + 2 ^ 31) % 2 ^ 32 - 2 ^ 31

/-- The value an `unsigned long` of `long_bits` bits holds after an integer `x` was
assigned to it: `x` modulo 2^long_bits. -/
def to_ulong (long_bits : Nat) (x : Int) : Nat :=
  (x % 2 ^ long_bits).toNat

/-- The function `fd_getfunc` (ptp.c:303-317).  The integer `result` is what
`read (priv->fd, data, wantlen)` returned (`-1` on failure, else the number of bytes
read) and `bytes` are the bytes it read.  The source holds the result in the local
`int got` and assigns `got` to the `unsigned long` behind `gotlen`, which has
`long_bits` bits. -/
def fd_getfunc (c : PTPCodes) (priv : PTPFDHandlerPrivate) (long_bits : Nat) (result : Int)
    (bytes : List Nat) : GetResult PTPFDHandlerPrivate :=
  let got := to_int result
  if got ≠ -1 then
    { ret := c.PTP_RC_OK, priv := priv, data := bytes, gotlen := some (to_ulong long_bits got) }
  else
    { ret := c.PTP_RC_GeneralError, priv := priv, data := bytes, gotlen := none }

/-- The function `fd_putfunc` (ptp.c:319-334).  The integer `result` is what
`write (priv->fd, data, sendlen)` returned (`-1` on failure, else the number of
bytes written).  The source holds the result in the local `int written` and assigns
`written` to the `unsigned long` behind `putlen`, which has `long_bits` bits. -/
def fd_putfunc (c : PTPCodes) (priv : PTPFDHandlerPrivate) (long_bits : Nat) (result : Int) :
    PutResult PTPFDHandlerPrivate :=
  let written := to_int result
  if written ≠ -1 then
    { ret := c.PTP_RC_OK, priv := priv, putlen := some (to_ulong long_bits written) }
  else
    { ret := c.PTP_RC_GeneralError, priv := priv, putlen := none }

/-- A sequence of pushes through `memory_putfunc` on one handler: the values stored
through `putlen`, in push order, and the private struct as left. -/
def push_all (c : PTPCodes) :
    PTPMemHandlerPrivate → List (List Nat) → List (Option Nat) × PTPMemHandlerPrivate
  | priv, [] => ([], priv)
  | priv, b :: bs =>
    let r := memory_putfunc c priv b.length b
    let rest := push_all c r.priv bs
    (r.putlen :: rest.1, rest.2)

/-- A sequence of pulls through `memory_getfunc` on one handler: the bytes each pull
delivered, in pull order, and the private struct as left. -/
def pull_all (c : PTPCodes) :
    PTPMemHandlerPrivate → List Nat → List (List Nat) × PTPMemHandlerPrivate
  | priv, [] => ([], priv)
  | priv, w :: ws =>
    let r := memory_getfunc c priv w
    let rest := pull_all c r.priv ws
    (r.data :: rest.1, rest.2)

/-- The private struct of a handler made by `ptp_init_recv_memory_handler`. -/
def recv_priv : PTPMemHandlerPrivate := { data := none, size := 0, curoff := 0 }

/-- The private struct of a handler made by `ptp_init_send_memory_handler`. -/
def send_priv (data : Option (List Nat)) (len : Nat) : PTPMemHandlerPrivate :=
  { data := data, size := len, curoff := 0 }

/-! ## Well-formed cache states -/

/-- The handle array and the object-info array both hold `handles.n` cells. -/
def PTPParams.handles_wf {W : Type} (p : PTPParams W) : Prop :=
  (p.handles.Handler.getD []).length = p.handles.n ∧
  (p.objectinfo.getD []).length = p.handles.n

instance {W : Type} (p : PTPParams W) : Decidable p.handles_wf := by
  unfold PTPParams.handles_wf
  exact inferInstance

/-- A property array, when there is one, holds `nrofprops` cells. -/
def PTPParams.props_wf {W : Type} (p : PTPParams W) : Prop :=
  (p.props.map List.length).getD p.nrofprops = p.nrofprops

instance {W : Type} (p : PTPParams W) : Decidable p.props_wf := by
  unfold PTPParams.props_wf
  exact inferInstance

/-- The handles of the cache, each with the object-info record at the same index. -/
def PTPParams.pairs {W : Type} (p : PTPParams W) : List (Nat × PTPObjectInfo) :=
  (p.handles.Handler.getD []).zip (p.objectinfo.getD [])

/-- The `(object handle, property code)` pairs of the entries of a property array. -/
def prop_keys (l : List MTPProperties) : List (Nat × Nat) :=
  l.map (fun e => (e.ObjectHandle, e.property))

/-! ## The stages of `ptp_add_object_to_cache` -/

/-- The session inside `ptp_add_object_to_cache` after both array growths
(ptp.c:4381-4402): count incremented, the handle stored in the new last cell, the
new last info record zeroed. -/
def add_grown {W : Type} (zeroNull : Bool) (params : PTPParams W) (handle : Nat) :
    PTPParams W :=
  { params with
    handles := { n := (params.handles.n + 1) % UINT32_MOD,
                 Handler := some (((realloc zeroNull params.handles.Handler
                    ((params.handles.n + 1) % UINT32_MOD) 0).getD []).set
                    ((params.handles.n + 1) % UINT32_MOD - 1) handle) },
    objectinfo := some (((realloc zeroNull params.objectinfo
                    ((params.handles.n + 1) % UINT32_MOD) PTPObjectInfo.zero).getD []).set
                    ((params.handles.n + 1) % UINT32_MOD - 1) PTPObjectInfo.zero) }

/-- The session inside `ptp_add_object_to_cache` after the call of
`ptp_getobjectinfo` on the new last info record (ptp.c:4403). -/
def add_info {W : Type} (c : PTPCodes) (t : PTPTransport W) (pk : PTPPack W)
    (zeroNull : Bool) (params : PTPParams W) (handle : Nat) : PTPParams W :=
  { (ptp_getobjectinfo c t pk (add_grown zeroNull params handle) handle
      PTPObjectInfo.zero).params with
    objectinfo := (ptp_getobjectinfo c t pk (add_grown zeroNull params handle) handle
        PTPObjectInfo.zero).params.objectinfo.map
      (fun (oi : List PTPObjectInfo) => oi.set ((params.handles.n + 1) % UINT32_MOD - 1)
        (ptp_getobjectinfo c t pk (add_grown zeroNull params handle) handle
          PTPObjectInfo.zero).objectinfo) }

/-- The last part of `ptp_add_object_to_cache` (ptp.c:4405-4428), run on the session
`params4` left by the part before it: the update of the property array. -/
def add_proplist {W : Type} (c : PTPCodes) (t : PTPTransport W) (pk : PTPPack W)
    (zeroNull memProps : Bool) (params4 : PTPParams W) (handle : Nat) (calls : List Call) :
    OpResult W :=
  match params4.props with
  | none => { ret := c.PTP_RC_OK, params := params4, calls := calls }
  | some _ =>
    let l := ptp_mtp_getobjectproplist c t pk params4 handle none 0
    if l.ret ≠ c.PTP_RC_OK then
      { ret := l.ret, params := l.params, calls := calls ++ l.calls }
    else
      let no_new_props := l.nrofprops
      let xprops := realloc zeroNull l.params.props (l.params.nrofprops + no_new_props)
                      { property := 0, datatype := 0, ObjectHandle := 0, propval := [] }
      if memProps = false ∨ xprops = none then
        { ret := c.PTP_ERROR_IO, params := l.params, calls := calls ++ l.calls }
      else
        let copied := (xprops.getD []).take l.params.nrofprops ++
                        ((l.props.getD []).take no_new_props ++
                         (xprops.getD []).drop (l.params.nrofprops + no_new_props))
        { ret := c.PTP_RC_OK,
          params := { l.params with props := some copied,
                                    nrofprops := l.params.nrofprops + no_new_props },
          calls := calls ++ l.calls }

/-! ## Fault categories of a transaction -/

/-- Whether `ptp_transaction_new` left through a `return` that reports a transport
failure or cancellation (a failed send-request, data phase or get-response) or the
sequence-number mismatch. -/
def TxExit.fault : TxExit → Bool
  | .sendreqFailed => true
  | .dataFailed => true
  | .getrespFailed => true
  | .seqMismatch => true
  | _ => false

/-- The engine run underneath `ptp_getobjecthandles` (ptp.c:669-676, through
`ptp_transaction`). -/
def getobjecthandles_transaction {W : Type} (c : PTPCodes) (t : PTPTransport W)
    (params : PTPParams W) (storage objectformatcode associationOH : Nat) : TxResult W :=
  ptp_transaction_new c t params
    (some { PTP_CNT_INIT with Code := c.PTP_OC_GetObjectHandles, Param1 := storage,
                              Param2 := objectformatcode, Param3 := associationOH,
                              Nparam := 3 })
    PTP_DP_GETDATA 0 (some ptp_init_recv_memory_handler)

/-- The script of a device that answers every request with the response code
`0x2002` (`PTP_RC_GeneralError` in `sampleCodes`). -/
def generalError : Script := { allOK with respCode := 0x2002 }

/-- The script of a device that answers every request with the response code
`0x02FC`, the value of `PTP_ERROR_BADPARAM` in `sampleCodes`. -/
def badparamResponse : Script := { allOK with respCode := 0x02FC }

/-- The script of a transport whose send-request fails with `0x02FF`
(`PTP_ERROR_IO` in `sampleCodes`). -/
def ioFailure : Script := { allOK with sendreq := 0x02FF }

/-- The script of a transport whose get-data callback fails with `0x02FF`
(`PTP_ERROR_IO` in `sampleCodes`) after a send-request that succeeded. -/
def failingGet : Script := { allOK with getdata := 0x02FF }

/-! ## Decoding of received blocks inside `ptp.c` (ptp.c:1554-1581, 2494-2579) -/

/-- Outcome of code that reads a received block: its result, or `readPast offset`
when it reads the byte at `offset`, which lies at or past the end of the block, or
`writePast index` when it writes the cell at `index` of a destination array, which
lies at or past the end of that array.  What the C code does from there on is not
defined, so the model stops at the first such access. -/
inductive Decoded (α : Type) where
  | done (a : α)
  | readPast (offset : Nat)
  | writePast (index : Nat)
deriving DecidableEq

/-- Sequencing of accesses: the first access outside its array ends the run. -/
def Decoded.bind {α β : Type} (x : Decoded α) (f : α → Decoded β) : Decoded β :=
  match x with
  | .done a => f a
  | .readPast offset => .readPast offset
  | .writePast index => .writePast index

instance : Monad Decoded where
  pure := Decoded.done
  bind := Decoded.bind

/-- The offset of the read past the block that ended a run, if one did. -/
def Decoded.fault {α : Type} : Decoded α → Option Nat
  | .done _ => none
  | .readPast offset => some offset
  | .writePast _ => none

/-- The index of the write past a destination array that ended a run, if one did. -/
def Decoded.overflow {α : Type} : Decoded α → Option Nat
  | .done _ => none
  | .readPast _ => none
  | .writePast index => some index

/-- The return code of a run that came to its end. -/
def Decoded.ret {W : Type} : Decoded (OpResult W) → Option Nat
  | .done r => some r.ret
  | .readPast _ => none
  | .writePast _ => none

/-- The read `data[off]` of an `unsigned char` of the block. -/
def rd8 (data : List Nat) (off : Nat) : Decoded Nat :=
  if off < data.length then .done (data.getD off 0 % 256) else .readPast off

/-- The decoders that `ptp.c` applies to a received block itself.  `ptp-endian.h`,
`ptp-pack.c` and `ptp.h` are absent, so they are parameters: `dtoh32a` turns the four
bytes at an address, in memory order, into a 32-bit value according to the byte order
of the session; `ptp_unpack_string` gets the block and the offset of a string in it
and gives the host string and the value it stores through `len`; the four sizes are
`sizeof` of the character arrays of `PTPNIKONWifiProfile` (the source stores into
`profile_name[16]` and `essid[32]`, so these two hold at least 17 and 33 bytes). -/
structure PTPWire (W : Type) where
  dtoh32a : PTPParams W → Nat → Nat → Nat → Nat → Nat
  ptp_unpack_string : PTPParams W → List Nat → Nat → Decoded (List Nat × Nat)
  sizeof_creation_date : Nat
  sizeof_lastusage_date : Nat
  sizeof_profile_name : Nat
  sizeof_essid : Nat

/-- The macro call `dtoh32a (&data[off])`: it reads the four bytes from `off` on. -/
def rd32 (dtoh32a : Nat → Nat → Nat → Nat → Nat) (data : List Nat) (off : Nat) : Decoded Nat := do
  let b0 ← rd8 data off
  let b1 ← rd8 data (off + 1)
  let b2 ← rd8 data (off + 2)
  let b3 ← rd8 data (off + 3)
  pure (dtoh32a b0 b1 b2 b3 % UINT32_MOD)

/-- The struct `PTPCanon_directtransfer_entry`, as `ptp_canon_gettreesize` fills it. -/
structure PTPCanon_directtransfer_entry where
  oid : Nat
  str : List Nat
deriving DecidableEq

/-- The loop of `ptp_canon_gettreesize` (ptp.c:1573-1578) with `k` rounds to go and
`cur` as offset into the block: object id from the four bytes at `cur`, string at
`cur + 4`, then `cur += 4 + (cur[4] * 2 + 1)`. -/
def gettreesize_loop {W : Type} (w : PTPWire W) (params : PTPParams W) (out : List Nat) :
    Nat → Nat → Decoded (List PTPCanon_directtransfer_entry)
  | 0, _ => pure []
  | k + 1, cur => do
    let oid ← rd32 (w.dtoh32a params) out cur
    let s ← w.ptp_unpack_string params out (cur + 4)
    let l ← rd8 out (cur + 4)
    let rest ← gettreesize_loop w params out k (cur + (4 + (l * 2 + 1)))
    pure ({ oid := oid, str := s.1 } :: rest)

/-- Outcome of `ptp_canon_gettreesize`: code, session, `*entries` and `*cnt` as left,
transport calls. -/
structure TreeSizeResult (W : Type) where
  ret : Nat
  params : PTPParams W
  entries : Option (List PTPCanon_directtransfer_entry)
  cnt : Nat
  calls : List Call

/-- The function `ptp_canon_gettreesize` (ptp.c:1554-1581).  `entries` and `cnt` are
the values behind the two out-pointers on entry; `malloc` is taken to succeed.  The
received length `size` is not used by the function. -/
def ptp_canon_gettreesize {W : Type} (c : PTPCodes) (t : PTPTransport W) (w : PTPWire W)
    (params : PTPParams W) (entries : Option (List PTPCanon_directtransfer_entry))
    (cnt : Nat) : Decoded (TreeSizeResult W) :=
  let ptp := { PTP_CNT_INIT with Code := c.PTP_OC_CANON_GetTreeSize, Nparam := 0 }
  let r := ptp_transaction c t params (some ptp) PTP_DP_GETDATA 0 none
  if r.ret ≠ c.PTP_RC_OK then
    pure { ret := r.ret, params := r.params, entries := entries, cnt := cnt, calls := r.calls }
  else do
    let n ← rd32 (w.dtoh32a r.params) (r.data.getD []) 0
    let es ← gettreesize_loop w r.params (r.data.getD []) n 4
    pure { ret := c.PTP_RC_OK, params := r.params, entries := some es, cnt := n,
           calls := r.calls }

/-- A profile record after `memset (..., 0, ...)`. -/
def PTPNIKONWifiProfile.zero : PTPNIKONWifiProfile :=
  { id := 0, valid := 0, profile_name := [], display_order := 0, device_type := 0,
    icon_type := 0, creation_date := [], lastusage_date := [], essid := [] }

/-- The call `strncpy (dst, src, n)` with `src` inside the received block and `dst` an
array of `dstsize` bytes.  `src` is given as the bytes of the block from offset `off`
on, `i` is the number of bytes copied so far and the last argument the number of
bytes still to write.  The C function reads a byte of `src` and writes it to `dst`,
byte after byte, until it has written `n` bytes or the byte was zero, and in the
latter case goes on writing zero bytes until it has written `n` bytes in all.  The
value is the characters copied before the zero byte. -/
def strncpy : List Nat → Nat → Nat → Nat → Nat → Decoded (List Nat)
  | _, _, _, _, 0 => pure []
  | [], off, _, _, _ + 1 => .readPast off
  | b :: rest, off, dstsize, i, n + 1 =>
    if dstsize ≤ i then .writePast i
    else if b % 256 = 0 then
      if dstsize < i + (n + 1) then .writePast dstsize else pure []
    else do
      let cs ← strncpy rest (off + 1) dstsize (i + 1) n
      pure (b % 256 :: cs)

/-- An assignment to fields of `params->wifi_profiles[profn]`. -/
def PTPParams.update_profile {W : Type} (p : PTPParams W) (profn : Nat)
    (f : PTPNIKONWifiProfile → PTPNIKONWifiProfile) : PTPParams W :=
  { p with wifi_profiles :=
      p.wifi_profiles.map (fun l => l.set profn (f (l.getD profn PTPNIKONWifiProfile.zero))) }

/-- The `while` loop of `ptp_nikon_getwifiprofilelist` (ptp.c:2525-2560) with at most
`k` rounds to go, so `profn + k = wifi_profiles_number`.  `pos`, `n` and `size` are
`unsigned int`: sums are taken modulo 2^32.  An index `data[pos]` is a read at offset
`pos`.  The two calls of `strncpy` from the block write `n` bytes into the character
array of the record, see `strncpy`.  The value is the return code and the session. -/
def wifi_profile_loop {W : Type} (c : PTPCodes) (w : PTPWire W) (data : List Nat) (size : Nat) :
    Nat → Nat → Nat → PTPParams W → Decoded (Nat × PTPParams W)
  | 0, _, _, params => pure (c.PTP_RC_OK, params)
  | k + 1, profn, pos, params =>
    if ¬ pos < size then pure (c.PTP_RC_OK, params)
    else if (pos + 6) % UINT32_MOD ≥ size then pure (c.PTP_RC_Undefined, params)
    else do
      let id ← rd8 data pos
      let params1 := params.update_profile profn (fun r => { r with id := id })
      let valid ← rd8 data ((pos + 1) % UINT32_MOD)
      let params2 := params1.update_profile profn (fun r => { r with valid := valid })
      let pos2 := (pos + 2) % UINT32_MOD
      let n ← rd32 (w.dtoh32a params2) data pos2
      let pos3 := (pos2 + 4) % UINT32_MOD
      if (pos3 + n + 4) % UINT32_MOD ≥ size then pure (c.PTP_RC_Undefined, params2)
      else do
        let name ← strncpy (data.drop pos3) pos3 w.sizeof_profile_name 0 n
        let params3 := params2.update_profile profn
          (fun r => { r with profile_name := name.take 16 })
        let pos4 := (pos3 + n) % UINT32_MOD
        let display_order ← rd8 data pos4
        let device_type ← rd8 data ((pos4 + 1) % UINT32_MOD)
        let icon_type ← rd8 data ((pos4 + 2) % UINT32_MOD)
        let params4 := params3.update_profile profn
          (fun r => { r with display_order := display_order, device_type := device_type,
                             icon_type := icon_type })
        let pos5 := (pos4 + 3) % UINT32_MOD
        let created ← w.ptp_unpack_string params4 data pos5
        let params5 := params4.update_profile profn
          (fun r => { r with creation_date := created.1.take w.sizeof_creation_date })
        let pos6 := (pos5 + (created.2 % 256 * 2 + 1)) % UINT32_MOD
        if (pos6 + 1) % UINT32_MOD ≥ size then pure (c.PTP_RC_Undefined, params5)
        else do
          let used ← w.ptp_unpack_string params5 data pos6
          let params6 := params5.update_profile profn
            (fun r => { r with lastusage_date := used.1.take w.sizeof_lastusage_date })
          let pos7 := (pos6 + (used.2 % 256 * 2 + 1)) % UINT32_MOD
          if (pos7 + 5) % UINT32_MOD ≥ size then pure (c.PTP_RC_Undefined, params6)
          else do
            let m ← rd32 (w.dtoh32a params6) data pos7
            let pos8 := (pos7 + 4) % UINT32_MOD
            if (pos8 + m) % UINT32_MOD ≥ size then pure (c.PTP_RC_Undefined, params6)
            else do
              let essid ← strncpy (data.drop pos8) pos8 w.sizeof_essid 0 m
              let params7 := params6.update_profile profn
                (fun r => { r with essid := essid.take 32 })
              wifi_profile_loop c w data size k (profn + 1)
                ((pos8 + m + 1) % UINT32_MOD) params7

/-- The function `ptp_nikon_getwifiprofilelist` (ptp.c:2494-2579).  `malloc` is taken
to succeed. -/
def ptp_nikon_getwifiprofilelist {W : Type} (c : PTPCodes) (t : PTPTransport W)
    (w : PTPWire W) (params : PTPParams W) : Decoded (OpResult W) :=
  let ptp := { PTP_CNT_INIT with Code := c.PTP_OC_NIKON_GetProfileAllData, Nparam := 0 }
  let r := ptp_transaction c t params (some ptp) PTP_DP_GETDATA 0 none
  if r.ret ≠ c.PTP_RC_OK then pure { ret := r.ret, params := r.params, calls := r.calls }
  else if r.recvlen.getD 0 < 2 then
    pure { ret := c.PTP_RC_Undefined, params := r.params, calls := r.calls }
  else do
    let version ← rd8 (r.data.getD []) 0
    let number ← rd8 (r.data.getD []) 1
    let params1 : PTPParams W :=
      { r.params with wifi_profiles_version := version, wifi_profiles_number := number,
                      wifi_profiles := some (List.replicate number PTPNIKONWifiProfile.zero) }
    let out ← wifi_profile_loop c w (r.data.getD []) (r.recvlen.getD 0) number 0 2 params1
    pure { ret := out.1, params := out.2, calls := r.calls }

/-! ## Sample decoders and blocks -/

/-- A sample string decoder: the length byte at `off`, then `2 * len` bytes, which it
hands out as they are. -/
def sample_unpack_string (data : List Nat) (off : Nat) : Decoded (List Nat × Nat) := do
  let len ← rd8 data off
  if off + 2 * len < data.length then pure ((data.drop (off + 1)).take (2 * len), len)
  else .readPast data.length

/-- Sample decoders: little-endian 32-bit values, `sample_unpack_string`, date fields
of 16 bytes, a profile name of 17 bytes and an ESSID of 33 bytes. -/
def sampleWire : PTPWire Unit :=
  { dtoh32a := fun _ b0 b1 b2 b3 => b0 + 256 * b1 + 65536 * b2 + 16777216 * b3,
    ptp_unpack_string := fun _ data off => sample_unpack_string data off,
    sizeof_creation_date := 16,
    sizeof_lastusage_date := 16,
    sizeof_profile_name := 17,
    sizeof_essid := 33 }

/-- A block that declares one directory entry and ends after the count. -/
def treeWithoutEntries : Script := { allOK with received := [1, 0, 0, 0] }

/-- A block of 13 bytes with one wifi profile whose declared profile-name length is
0xFFFFFFF4 and whose last five bytes, from offset 8 on, are the letters ABCDE. -/
def wifiLongName : Script :=
  { allOK with received := [0, 1, 0, 0, 0xF4, 0xFF, 0xFF, 0xFF, 0x41, 0x42, 0x43, 0x44, 0x45] }

/-- A block of 13 bytes with one wifi profile whose declared profile-name length is
0xFFFFFFF4 and whose last five bytes, from offset 8 on, are zero. -/
def wifiLongEmptyName : Script :=
  { allOK with received := [0, 1, 0, 0, 0xF4, 0xFF, 0xFF, 0xFF, 0, 0, 0, 0, 0] }

/-- A well-formed block of one wifi profile: id 5, valid 1, name "ab", display order
1, device type 2, icon type 3, two empty dates, ESSID "n". -/
def wifiOneProfile : Script :=
  { allOK with received :=
      [0, 1, 5, 1, 2, 0, 0, 0, 97, 98, 1, 2, 3, 0, 0, 1, 0, 0, 0, 110, 0] }

/-! ## Frame conditions on the transport -/

/-- No transport callback changes the value of `f` on the session; with the identity
for `f`, no callback modifies the session at all. -/
structure PTPTransport.Keeps {W α : Type} (t : PTPTransport W) (f : PTPParams W → α) :
    Prop where
  sendreq : ∀ p ptp, f (t.sendreq_func p ptp).params = f p
  senddata : ∀ p ptp n h, f (t.senddata_func p ptp n h).params = f p
  getdata : ∀ p ptp h, f (t.getdata_func p ptp h).params = f p
  getresp : ∀ p ptp, f (t.getresp_func p ptp).params = f p
  cancelreq : ∀ p n, f (t.cancelreq_func p n).params = f p

/-- The session with its transaction counter blanked: everything `ptp_transaction_new`
has no statement for. -/
def PTPParams.besides_counter {W : Type} (p : PTPParams W) : PTPParams W :=
  { p with transaction_id := 0 }

/-- The get-data callback of the transport delivers the chunks `chunks p q` that the
device sent in answer to the request `q` on the session `p`: it pushes them, one
after the other, through `memory_putfunc` on the memory handler it is given. -/
def PTPTransport.Delivers {W : Type} (c : PTPCodes) (t : PTPTransport W)
    (chunks : PTPParams W → PTPContainer → List (List Nat)) : Prop :=
  ∀ p q priv,
    (t.getdata_func p q (some (.memory priv))).handler
      = some (.memory (push_all c priv (chunks p q)).2)

/-! ## Canon operations (ptp.c:1694-1716, 1993-2040) -/

/-- Outcome of `ptp_canon_checkevent`: code, session, `*event` and `*isevent` as
left, transport calls. -/
structure CheckEventResult (W E : Type) where
  ret : Nat
  params : PTPParams W
  event : E
  isevent : Int
  calls : List Call

/-- The function `ptp_canon_checkevent` (ptp.c:1694-1716).  The decoder
`ptp_unpack_EC` of `ptp-pack.c` and the type `E` of the event container of `ptp.h`
are absent, so they are parameters.  `event` is the caller's struct on entry;
`*isevent` is set to 0 first, so its value on entry plays no part. -/
def ptp_canon_checkevent {W E : Type} (c : PTPCodes) (t : PTPTransport W)
    (ptp_unpack_EC : PTPParams W → List Nat → E → Nat → E)
    (params : PTPParams W) (event : E) : CheckEventResult W E :=
  let ptp := { PTP_CNT_INIT with Code := c.PTP_OC_CANON_CheckEvent, Nparam := 0 }
  let r := ptp_transaction c t params (some ptp) PTP_DP_GETDATA 0 none
  match r.data with
  | some evdata =>
    if r.ret = c.PTP_RC_OK then
      { ret := r.ret, params := r.params,
        event := ptp_unpack_EC r.params evdata event (r.recvlen.getD 0),
        isevent := 1, calls := r.calls }
    else
      { ret := r.ret, params := r.params, event := event, isevent := 0, calls := r.calls }
  | none =>
    { ret := r.ret, params := r.params, event := event, isevent := 0, calls := r.calls }

/-- The encoders of `ptp-endian.h` (absent) that `ptp_canon_eos_setdevicepropvalue`
uses: the bytes that `htod8a`, `htod16a` and `htod32a` store at an address for a
value, according to the byte order of the session. -/
structure PTPEncode (W : Type) where
  htod8a : PTPParams W → Nat → List Nat
  htod16a : PTPParams W → Nat → List Nat
  htod32a : PTPParams W → Nat → List Nat

/-- The union `PTPPropertyValue` of `ptp.h` (absent).  A value of the union is given
as a number that stands for its storage; the fields say what reading the members
`u8`, `u16`, `u32` gives and what the storage is after a member was assigned. -/
structure PTPPropertyValue where
  get_u8 : Nat → Nat
  get_u16 : Nat → Nat
  get_u32 : Nat → Nat
  set_u8 : Nat → Nat → Nat
  set_u16 : Nat → Nat → Nat
  set_u32 : Nat → Nat → Nat

/-- The search loop of `ptp_canon_eos_setdevicepropvalue` (ptp.c:2004-2006) over the
cells from index `i` on: the index of the first cell whose `proptype` is `propcode`,
or the index after the last cell. -/
def canon_prop_index (propcode : Nat) : List PTPCanon_Property → Nat → Nat
  | [], i => i
  | p :: rest, i => if p.proptype = propcode then i else canon_prop_index propcode rest (i + 1)

/-- An assignment to `params->canon_props[i].dpd.CurrentValue`: `store` gives the new
storage of the union from the old one. -/
def PTPParams.set_canon_value {W : Type} (p : PTPParams W) (i : Nat) (store : Nat → Nat) :
    PTPParams W :=
  let old := p.canon_props.getD i { proptype := 0, CurrentValue := 0 }
  { p with canon_props := p.canon_props.set i { old with CurrentValue := store old.CurrentValue } }

/-- The block and the session as `ptp_canon_eos_setdevicepropvalue` has them when it
comes to the transaction (ptp.c:2009-2035): twelve zero bytes from `calloc`, the
size and the property code stored at offsets 0 and 4, then the `switch` on the
datatype, which stores the value at offset 8 and assigns it to the table entry. -/
def setdevicepropvalue_prepared {W : Type} (c : PTPCodes) (e : PTPEncode W)
    (u : PTPPropertyValue) (params : PTPParams W) (i propcode value datatype : Nat) :
    List Nat × PTPParams W :=
  let data0 : List Nat := List.replicate 12 0
  let data1 := memcpy data0 0 (e.htod32a params 12) 4
  let data2 := memcpy data1 4 (e.htod32a params propcode) 4
  if datatype = c.PTP_DTC_UINT8 then
    (memcpy data2 8 (e.htod8a params (u.get_u8 value)) 1,
     params.set_canon_value i (fun old => u.set_u8 old (u.get_u8 value)))
  else if datatype = c.PTP_DTC_UINT16 then
    (memcpy data2 8 (e.htod16a params (u.get_u16 value)) 2,
     params.set_canon_value i (fun old => u.set_u16 old (u.get_u16 value)))
  else if datatype = c.PTP_DTC_UINT32 then
    (memcpy data2 8 (e.htod32a params (u.get_u32 value)) 4,
     params.set_canon_value i (fun old => u.set_u32 old (u.get_u32 value)))
  else
    (data2, params)

/-- The function `ptp_canon_eos_setdevicepropvalue` (ptp.c:1993-2040).  `value` is
the storage of the union behind the pointer `value`.  The table holds
`nrofcanon_props` entries; `calloc` is taken to succeed. -/
def ptp_canon_eos_setdevicepropvalue {W : Type} (c : PTPCodes) (t : PTPTransport W)
    (e : PTPEncode W) (u : PTPPropertyValue) (params : PTPParams W)
    (propcode value datatype : Nat) : OpResult W :=
  let ptp := { PTP_CNT_INIT with Code := c.PTP_OC_CANON_EOS_SetDevicePropValueEx, Nparam := 0 }
  let i := canon_prop_index propcode (params.canon_props.take params.nrofcanon_props) 0
  if params.nrofcanon_props = i then
    { ret := c.PTP_RC_Undefined, params := params, calls := [] }
  else if datatype = c.PTP_DTC_STR then
    { ret := c.PTP_RC_Undefined, params := params, calls := [] }
  else
    let k := setdevicepropvalue_prepared c e u params i propcode value datatype
    let r := ptp_transaction c t k.2 (some ptp) PTP_DP_SENDDATA 12 (some k.1)
    { ret := r.ret, params := r.params, calls := r.calls }

/-! ## The plug-in interface (PluginInterface.cpp) -/

/-- The entry points of a camera plug-in that `CamInterface::getSymbols` looks up
(PluginInterface.cpp:81-161). -/
inductive EntryPoint where
  | get_BDCP_API_Revision
  | getPluginVersion
  | getSupportedCameras
  | openCamera
  | closeCamera
  | getNumberofPics
  | setCurrentPicture
  | downloadPicture
  | deletePicture
  | takePicture
  | getImageName
  | getImageSize
  | getImageDate
  | configurePlugin
  | setMessageTarget
  | getLevel3FunctionNames
  | getThumbnail
  | getImageHeight
  | getImageWidth
  | getDeviceType
deriving DecidableEq

/-- The `check_` flags of a `CamInterface`.  Its function-pointer members are not
kept here: `getSymbols` sets a pointer exactly when the symbol was resolved. -/
structure CamInterface where
  check_revision : Bool
  check_pluginVersion : Bool
  check_openCamera : Bool
  check_closeCamera : Bool
  check_numberOfPictures : Bool
  check_currentPicture : Bool
  check_downloadPicture : Bool
  check_deletePicture : Bool
  check_takePicture : Bool
  check_imageName : Bool
  check_imageSize : Bool
  check_imageDate : Bool
  check_configurePlugin : Bool
  check_messageTarget : Bool
  check_level3Functions : Bool
  check_thumbnail : Bool
  check_imageWidth : Bool
  check_imageHeight : Bool
  check_deviceType : Bool
  check_supcams : Bool
deriving DecidableEq

/-- The flags as the constructor initialises them (PluginInterface.cpp:27-46). -/
def CamInterface.init : CamInterface :=
  { check_revision := false, check_pluginVersion := false, check_openCamera := false,
    check_closeCamera := false, check_numberOfPictures := false,
    check_currentPicture := false, check_downloadPicture := false,
    check_deletePicture := false, check_takePicture := false, check_imageName := false,
    check_imageSize := false, check_imageDate := false, check_configurePlugin := false,
    check_messageTarget := false, check_level3Functions := false, check_thumbnail := false,
    check_imageWidth := false, check_imageHeight := false, check_deviceType := false,
    check_supcams := false }

/-- The function `CamInterface::getSymbols` (PluginInterface.cpp:79-163).
`resolved e` says whether `get_image_symbol` returned `B_OK` for the symbol `e`. -/
def CamInterface.getSymbols (self : CamInterface) (resolved : EntryPoint → Bool) :
    CamInterface :=
  let s := if resolved .get_BDCP_API_Revision then { self with check_revision := true } else self
  let s := if resolved .getPluginVersion then { s with check_pluginVersion := true } else s
  let s := if resolved .getSupportedCameras then { s with check_supcams := true } else s
  let s := if resolved .openCamera then { s with check_openCamera := true } else s
  let s := if resolved .closeCamera then { s with check_closeCamera := true } else s
  let s := if resolved .getNumberofPics then { s with check_numberOfPictures := true } else s
  let s := if resolved .setCurrentPicture then { s with check_currentPicture := true } else s
  let s := if resolved .downloadPicture then { s with check_downloadPicture := true } else s
  let s := if resolved .deletePicture then { s with check_deletePicture := true } else s
  let s := if resolved .takePicture then { s with check_takePicture := true } else s
  let s := if resolved .getImageName then { s with check_imageName := true } else s
  let s := if resolved .getImageSize then { s with check_imageSize := true } else s
  let s := if resolved .getImageDate then { s with check_imageDate := true } else s
  let s := if resolved .configurePlugin then { s with check_configurePlugin := true } else s
  let s := if resolved .setMessageTarget then { s with check_messageTarget := true } else s
  let s := if resolved .getLevel3FunctionNames then { s with check_level3Functions := true }
           else s
  let s := if resolved .getThumbnail then { s with check_thumbnail := true } else s
  let s := if resolved .getImageHeight then { s with check_imageHeight := true } else s
  let s := if resolved .getImageWidth then { s with check_imageWidth := true } else s
  if resolved .getDeviceType then { s with check_deviceType := true } else s

/-- The constructor `CamInterface::CamInterface` (PluginInterface.cpp:24-69):
`loaded` says whether `load_add_on` gave a valid image id. -/
def CamInterface.new (loaded : Bool) (resolved : EntryPoint → Bool) : CamInterface :=
  if loaded then CamInterface.init.getSymbols resolved else CamInterface.init

/-- The value an accessor returns, as the expression of its `return` statement: a
constant, a local variable that nothing was stored in, or what the named entry point
returned or stored through its reference argument. -/
inductive Returned where
  | B_OK
  | B_ERROR
  | zero
  | null
  | TYPE_PAR
  | true
  | false
  | unset
  | fromPlugin (e : EntryPoint)
deriving DecidableEq

/-- What a call of an accessor does: the entry points it calls through their
function pointers, in order, and the value it returns. -/
structure Access where
  calls : List EntryPoint
  value : Returned
deriving DecidableEq

/-- The function `CamInterface::getRevision` (PluginInterface.cpp:166-171). -/
def CamInterface.getRevision (self : CamInterface) : Access :=
  if self.check_revision then
    { calls := [.get_BDCP_API_Revision], value := .fromPlugin .get_BDCP_API_Revision }
  else { calls := [], value := .zero }

/-- The function `CamInterface::getCameraStrings` (PluginInterface.cpp:174-180);
without a call it returns the empty vector it declared. -/
def CamInterface.getCameraStrings (self : CamInterface) : Access :=
  if self.check_supcams then
    { calls := [.getSupportedCameras], value := .fromPlugin .getSupportedCameras }
  else { calls := [], value := .unset }

/-- The function `CamInterface::open` (PluginInterface.cpp:183-195); `no_error` says
whether `openCamera` returns `B_NO_ERROR`. -/
def CamInterface.open (self : CamInterface) (no_error : Bool) : Access :=
  if self.check_openCamera = true then
    { calls := [.openCamera], value := if no_error then .B_OK else .B_ERROR }
  else { calls := [], value := .B_ERROR }

/-- The function `CamInterface::close` (PluginInterface.cpp:198-210); `no_error` says
whether `closeCamera` returns `B_NO_ERROR`. -/
def CamInterface.close (self : CamInterface) (no_error : Bool) : Access :=
  if self.check_closeCamera = true then
    { calls := [.closeCamera], value := if no_error then .B_OK else .B_ERROR }
  else { calls := [], value := .B_ERROR }

/-- The function `CamInterface::getVersion` (PluginInterface.cpp:213-219); without a
call it returns the local `pluginVersion` as declared. -/
def CamInterface.getVersion (self : CamInterface) : Access :=
  if self.check_revision then
    { calls := [.getPluginVersion], value := .fromPlugin .getPluginVersion }
  else { calls := [], value := .unset }

/-- The function `CamInterface::getNumberOfItems` (PluginInterface.cpp:222-231);
`no_error` says whether `getNumberofPics` returns `B_NO_ERROR`. -/
def CamInterface.getNumberOfItems (self : CamInterface) (no_error : Bool) : Access :=
  if self.check_numberOfPictures then
    { calls := [.getNumberofPics],
      value := if no_error then .fromPlugin .getNumberofPics else .zero }
  else { calls := [], value := .zero }

/-- The function `CamInterface::setCurrentItem` (PluginInterface.cpp:234-242). -/
def CamInterface.setCurrentItem (self : CamInterface) : Access :=
  if self.check_numberOfPictures then { calls := [.setCurrentPicture], value := .B_OK }
  else { calls := [], value := .B_ERROR }

/-- The function `CamInterface::downloadItem` (PluginInterface.cpp:245-255). -/
def CamInterface.downloadItem (self : CamInterface) : Access :=
  if self.check_downloadPicture then
    { calls := self.setCurrentItem.calls ++ [.downloadPicture], value := .B_OK }
  else { calls := [], value := .B_ERROR }

/-- The function `CamInterface::deleteItem` (PluginInterface.cpp:258-267). -/
def CamInterface.deleteItem (self : CamInterface) : Access :=
  if self.check_deletePicture then
    { calls := self.setCurrentItem.calls ++ [.deletePicture], value := .B_OK }
  else { calls := [], value := .B_ERROR }

/-- The function `CamInterface::takeItem` (PluginInterface.cpp:270-278). -/
def CamInterface.takeItem (self : CamInterface) : Access :=
  if self.check_takePicture then { calls := [.takePicture], value := .B_OK }
  else { calls := [], value := .B_ERROR }

/-- The function `CamInterface::getName` (PluginInterface.cpp:281-291). -/
def CamInterface.getName (self : CamInterface) : Access :=
  if self.check_imageName then
    { calls := [.getImageName], value := .fromPlugin .getImageName }
  else { calls := [], value := .null }

/-- The function `CamInterface::getSize` (PluginInterface.cpp:294-304). -/
def CamInterface.getSize (self : CamInterface) : Access :=
  if self.check_imageSize then
    { calls := [.getImageSize], value := .fromPlugin .getImageSize }
  else { calls := [], value := .zero }

/-- The function `CamInterface::getDate` (PluginInterface.cpp:307-317). -/
def CamInterface.getDate (self : CamInterface) : Access :=
  if self.check_imageDate then
    { calls := [.getImageDate], value := .fromPlugin .getImageDate }
  else { calls := [], value := .null }

/-- The function `CamInterface::getThumb` (PluginInterface.cpp:320-330). -/
def CamInterface.getThumb (self : CamInterface) : Access :=
  if self.check_thumbnail then
    { calls := [.getThumbnail], value := .fromPlugin .getThumbnail }
  else { calls := [], value := .null }

/-- The function `CamInterface::getHeight` (PluginInterface.cpp:333-343). -/
def CamInterface.getHeight (self : CamInterface) : Access :=
  if self.check_imageSize then
    { calls := [.getImageHeight], value := .fromPlugin .getImageHeight }
  else { calls := [], value := .zero }

/-- The function `CamInterface::getWidth` (PluginInterface.cpp:346-356). -/
def CamInterface.getWidth (self : CamInterface) : Access :=
  if self.check_imageWidth then
    { calls := [.getImageWidth], value := .fromPlugin .getImageWidth }
  else { calls := [], value := .zero }

/-- The function `CamInterface::getDevType` (PluginInterface.cpp:359-369). -/
def CamInterface.getDevType (self : CamInterface) : Access :=
  if self.check_deviceType then
    { calls := [.getDeviceType], value := .fromPlugin .getDeviceType }
  else { calls := [], value := .TYPE_PAR }

/-- The function `CamInterface::setCoreSystemLoop` (PluginInterface.cpp:372-380). -/
def CamInterface.setCoreSystemLoop (self : CamInterface) : Access :=
  if self.check_messageTarget then { calls := [.setMessageTarget], value := .true }
  else { calls := [], value := .false }

/-- The function `CamInterface::pluginConfiguration` (PluginInterface.cpp:383-388). -/
def CamInterface.pluginConfiguration (self : CamInterface) : Access :=
  if self.check_configurePlugin then
    { calls := [.configurePlugin], value := .fromPlugin .configurePlugin }
  else { calls := [], value := .null }

/-! ## Sample inputs for the Canon operations and the plug-in interface -/

/-- A sample session: as `sampleParams 0 1`, with a Canon property table of two
entries, properties `0xD101` and `0xD102`, both with current value 0. -/
def sampleCanon : PTPParams Unit :=
  { sampleParams 0 1 with
    canon_props := [{ proptype := 0xD101, CurrentValue := 0 },
                    { proptype := 0xD102, CurrentValue := 0 }],
    nrofcanon_props := 2 }

/-- Sample encoders: little-endian bytes. -/
def sampleEncode : PTPEncode Unit :=
  { htod8a := fun _ x => [x % 256],
    htod16a := fun _ x => [x % 256, x / 256 % 256],
    htod32a := fun _ x => [x % 256, x / 256 % 256, x / 65536 % 256, x / 16777216 % 256] }

/-- A sample layout of the union: the members share their low-order bytes. -/
def sampleValue : PTPPropertyValue :=
  { get_u8 := fun v => v % 2 ^ 8,
    get_u16 := fun v => v % 2 ^ 16,
    get_u32 := fun v => v % 2 ^ 32,
    set_u8 := fun old x => old / 2 ^ 8 * 2 ^ 8 + x % 2 ^ 8,
    set_u16 := fun old x => old / 2 ^ 16 * 2 ^ 16 + x % 2 ^ 16,
    set_u32 := fun old x => old / 2 ^ 32 * 2 ^ 32 + x % 2 ^ 32 }

/-- A sample transport that answers from a `Script` and delivers `chunks`, one push
through `memory_putfunc` each, to the memory handler of a get-data phase. -/
def pushing (s : Script) (chunks : List (List Nat)) : PTPTransport Unit :=
  { sendreq_func := (scripted s).sendreq_func,
    senddata_func := (scripted s).senddata_func,
    getdata_func := fun p ptp h =>
      { ret := s.getdata, params := p, ptp := ptp,
        handler := match h with
          | some (.memory priv) => some (.memory (push_all sampleCodes priv chunks).2)
          | other => other },
    getresp_func := (scripted s).getresp_func,
    cancelreq_func := (scripted s).cancelreq_func }

/-- A sample event decoder: the event is the received block. -/
def sample_unpack_EC (_ : PTPParams Unit) (evdata : List Nat) (_ : List Nat) (_ : Nat) :
    List Nat :=
  evdata

/-- A plug-in that exports every entry point except `getPluginVersion`,
`setCurrentPicture` and `getImageHeight`. -/
def olderPlugin : EntryPoint → Bool
  | .getPluginVersion => false
  | .setCurrentPicture => false
  | .getImageHeight => false
  | _ => true

/-! ## Lemmas on the transaction engine -/

theorem prev_transaction_id_succ (x : Nat) :
    prev_transaction_id ((x + 1) % UINT32_MOD) = x % UINT32_MOD := by
  have h : UINT32_MOD = 4294967296 := by norm_num [UINT32_MOD]
  unfold prev_transaction_id
  rw [h]
  omega

theorem scripted_keepsCounter (s : Script) : (scripted s).KeepsCounter :=
  ⟨fun _ _ => rfl, fun _ _ _ _ => rfl, fun _ _ _ => rfl, fun _ _ => rfl, fun _ _ => rfl⟩

theorem scripted_keepsCache (s : Script) : (scripted s).KeepsCache :=
  ⟨fun _ _ => rfl, fun _ _ _ _ => rfl, fun _ _ _ => rfl, fun _ _ => rfl, fun _ _ => rfl⟩

theorem uint32_mod_pos : 0 < UINT32_MOD := by norm_num [UINT32_MOD]

@[simp]
theorem kind_sendreq (q : PTPContainer) (r : Nat) :
    (Call.sendreq q r).kind = .sendreq := rfl

@[simp]
theorem kind_senddata (q : PTPContainer) (n : Nat) (h : Option PTPDataHandler) (r : Nat) :
    (Call.senddata q n h r).kind = .senddata := rfl

@[simp]
theorem kind_getdata (q : PTPContainer) (h : Option PTPDataHandler) (r : Nat) :
    (Call.getdata q h r).kind = .getdata := rfl

@[simp]
theorem kind_getresp (q : PTPContainer) (r : Nat) :
    (Call.getresp q r).kind = .getresp := rfl

@[simp]
theorem kind_cancelreq (x r : Nat) : (Call.cancelreq x r).kind = .cancelreq := rfl

@[simp]
theorem ret_sendreq (q : PTPContainer) (r : Nat) : (Call.sendreq q r).ret = r := rfl

@[simp]
theorem ret_senddata (q : PTPContainer) (n : Nat) (h : Option PTPDataHandler) (r : Nat) :
    (Call.senddata q n h r).ret = r := rfl

@[simp]
theorem ret_getdata (q : PTPContainer) (h : Option PTPDataHandler) (r : Nat) :
    (Call.getdata q h r).ret = r := rfl

@[simp]
theorem ret_getresp (q : PTPContainer) (r : Nat) : (Call.getresp q r).ret = r := rfl

@[simp]
theorem ret_cancelreq (x r : Nat) : (Call.cancelreq x r).ret = r := rfl

theorem expected_calls_nodup (c : PTPCodes) (flags sendlen : Nat)
    (handler : Option PTPDataHandler) (q qd qr : PTPContainer) (x rs rd rc rr : Nat) :
    ((expected_calls c flags sendlen handler q qd qr x rs rd rc rr).map Call.kind).Nodup := by
  unfold expected_calls
  split_ifs <;> simp

section engine

variable {W : Type} (c : PTPCodes) (t : PTPTransport W)
variable (params : PTPParams W) (ptp : PTPContainer) (flags sendlen : Nat)
variable (handler : Option PTPDataHandler)

theorem response_params (p : PTPParams W) (ptp : PTPContainer) (h : Option PTPDataHandler)
    (calls : List Call) :
    (ptp_transaction_new_response c t p ptp h calls).params = (t.getresp_func p ptp).params := by
  unfold ptp_transaction_new_response
  simp only []
  split_ifs <;> rfl

theorem response_calls (p : PTPParams W) (ptp : PTPContainer) (h : Option PTPDataHandler)
    (calls : List Call) :
    (ptp_transaction_new_response c t p ptp h calls).calls =
      calls ++ [Call.getresp ptp (t.getresp_func p ptp).ret] := by
  unfold ptp_transaction_new_response
  simp only []
  split_ifs <;> rfl

theorem afterdata_cancel (hne : c.PTP_ERROR_CANCEL ≠ c.PTP_RC_OK) (d : DataResult W)
    (calls : List Call) (hd : d.ret = c.PTP_ERROR_CANCEL) :
    ptp_transaction_new_afterdata c t d calls =
      { ret := if (t.cancelreq_func d.params (prev_transaction_id d.params.transaction_id)).ret
                    = c.PTP_RC_OK then c.PTP_ERROR_CANCEL
               else (t.cancelreq_func d.params (prev_transaction_id d.params.transaction_id)).ret,
        exit := .dataFailed,
        params := (t.cancelreq_func d.params (prev_transaction_id d.params.transaction_id)).params,
        ptp := some d.ptp, handler := d.handler,
        calls := calls ++ [Call.cancelreq (prev_transaction_id d.params.transaction_id)
          (t.cancelreq_func d.params (prev_transaction_id d.params.transaction_id)).ret] } := by
  unfold ptp_transaction_new_afterdata cancel_on_cancel
  simp only [hd, if_true]
  by_cases h1 : (t.cancelreq_func d.params (prev_transaction_id d.params.transaction_id)).ret
      = c.PTP_RC_OK
  · simp [h1, hne]
  · simp [h1]

theorem afterdata_fail (d : DataResult W) (calls : List Call)
    (h1 : d.ret ≠ c.PTP_ERROR_CANCEL) (h2 : d.ret ≠ c.PTP_RC_OK) :
    ptp_transaction_new_afterdata c t d calls =
      { ret := d.ret, exit := .dataFailed, params := d.params, ptp := some d.ptp,
        handler := d.handler, calls := calls } := by
  unfold ptp_transaction_new_afterdata cancel_on_cancel
  simp [h1, h2]

theorem afterdata_ok (hne : c.PTP_ERROR_CANCEL ≠ c.PTP_RC_OK) (d : DataResult W)
    (calls : List Call) (hd : d.ret = c.PTP_RC_OK) :
    ptp_transaction_new_afterdata c t d calls =
      ptp_transaction_new_response c t d.params d.ptp d.handler calls := by
  unfold ptp_transaction_new_afterdata cancel_on_cancel
  have h1 : ¬ c.PTP_RC_OK = c.PTP_ERROR_CANCEL := fun h => hne h.symm
  simp [h1, hd]

theorem tn_sendreq_fail
    (hs : (t.sendreq_func (bump params) (request_of params ptp)).ret ≠ c.PTP_RC_OK) :
    ptp_transaction_new c t params (some ptp) flags sendlen handler =
      { ret := (t.sendreq_func (bump params) (request_of params ptp)).ret,
        exit := .sendreqFailed,
        params := (t.sendreq_func (bump params) (request_of params ptp)).params,
        ptp := some (t.sendreq_func (bump params) (request_of params ptp)).ptp,
        handler := handler,
        calls := [Call.sendreq (request_of params ptp)
                   (t.sendreq_func (bump params) (request_of params ptp)).ret] } := by
  unfold ptp_transaction_new
  simp only [bump, request_of] at hs ⊢
  rw [if_pos hs]

theorem tn_senddata
    (hs : (t.sendreq_func (bump params) (request_of params ptp)).ret = c.PTP_RC_OK)
    (hf : flags &&& PTP_DP_DATA_MASK = PTP_DP_SENDDATA) :
    ptp_transaction_new c t params (some ptp) flags sendlen handler =
      ptp_transaction_new_afterdata c t
        (t.senddata_func (t.sendreq_func (bump params) (request_of params ptp)).params
          (t.sendreq_func (bump params) (request_of params ptp)).ptp sendlen handler)
        [Call.sendreq (request_of params ptp) c.PTP_RC_OK,
         Call.senddata (t.sendreq_func (bump params) (request_of params ptp)).ptp sendlen handler
          (t.senddata_func (t.sendreq_func (bump params) (request_of params ptp)).params
            (t.sendreq_func (bump params) (request_of params ptp)).ptp sendlen handler).ret] := by
  unfold ptp_transaction_new
  simp only [bump, request_of] at hs ⊢
  simp [hs, hf]

theorem tn_getdata
    (hs : (t.sendreq_func (bump params) (request_of params ptp)).ret = c.PTP_RC_OK)
    (hf : flags &&& PTP_DP_DATA_MASK = PTP_DP_GETDATA) :
    ptp_transaction_new c t params (some ptp) flags sendlen handler =
      ptp_transaction_new_afterdata c t
        (t.getdata_func (t.sendreq_func (bump params) (request_of params ptp)).params
          (t.sendreq_func (bump params) (request_of params ptp)).ptp handler)
        [Call.sendreq (request_of params ptp) c.PTP_RC_OK,
         Call.getdata (t.sendreq_func (bump params) (request_of params ptp)).ptp handler
          (t.getdata_func (t.sendreq_func (bump params) (request_of params ptp)).params
            (t.sendreq_func (bump params) (request_of params ptp)).ptp handler).ret] := by
  unfold ptp_transaction_new
  simp only [bump, request_of] at hs ⊢
  have h1 : ¬ PTP_DP_GETDATA = PTP_DP_SENDDATA := by decide
  simp [hs, hf, h1]

theorem tn_nodata
    (hs : (t.sendreq_func (bump params) (request_of params ptp)).ret = c.PTP_RC_OK)
    (hf : flags &&& PTP_DP_DATA_MASK = PTP_DP_NODATA) :
    ptp_transaction_new c t params (some ptp) flags sendlen handler =
      ptp_transaction_new_response c t
        (t.sendreq_func (bump params) (request_of params ptp)).params
        (t.sendreq_func (bump params) (request_of params ptp)).ptp handler
        [Call.sendreq (request_of params ptp) c.PTP_RC_OK] := by
  unfold ptp_transaction_new
  simp only [bump, request_of] at hs ⊢
  have h1 : ¬ PTP_DP_NODATA = PTP_DP_SENDDATA := by decide
  have h2 : ¬ PTP_DP_NODATA = PTP_DP_GETDATA := by decide
  simp [hs, hf, h1, h2]

theorem tn_badflags
    (hs : (t.sendreq_func (bump params) (request_of params ptp)).ret = c.PTP_RC_OK)
    (h1 : flags &&& PTP_DP_DATA_MASK ≠ PTP_DP_SENDDATA)
    (h2 : flags &&& PTP_DP_DATA_MASK ≠ PTP_DP_GETDATA)
    (h3 : flags &&& PTP_DP_DATA_MASK ≠ PTP_DP_NODATA) :
    ptp_transaction_new c t params (some ptp) flags sendlen handler =
      { ret := c.PTP_ERROR_BADPARAM, exit := .badFlags,
        params := (t.sendreq_func (bump params) (request_of params ptp)).params,
        ptp := some (t.sendreq_func (bump params) (request_of params ptp)).ptp,
        handler := handler,
        calls := [Call.sendreq (request_of params ptp) c.PTP_RC_OK] } := by
  unfold ptp_transaction_new
  simp only [bump, request_of] at hs ⊢
  simp [hs, h1, h2, h3]

/-- The three ways the response phase ends. -/
theorem response_cases (p : PTPParams W) (q : PTPContainer) (calls : List Call) :
    let g := t.getresp_func p q
    let r := ptp_transaction_new_response c t p q handler calls
    r.params = g.params ∧ r.ptp = some g.ptp ∧ r.handler = handler ∧
    r.calls = calls ++ [Call.getresp q g.ret] ∧
    ((g.ret ≠ c.PTP_RC_OK ∧ r.ret = g.ret ∧ r.exit = .getrespFailed) ∨
     (g.ret = c.PTP_RC_OK ∧ g.ptp.Transaction_ID ≠ prev_transaction_id g.params.transaction_id ∧
        r.ret = c.PTP_ERROR_BADPARAM ∧ r.exit = .seqMismatch) ∨
     (g.ret = c.PTP_RC_OK ∧ g.ptp.Transaction_ID = prev_transaction_id g.params.transaction_id ∧
        r.ret = g.ptp.Code ∧ r.exit = .done)) := by
  intro g r
  have hg : g = t.getresp_func p q := rfl
  simp only [r, ptp_transaction_new_response, ← hg]
  by_cases h1 : g.ret = c.PTP_RC_OK
  · by_cases h2 : g.ptp.Transaction_ID = prev_transaction_id g.params.transaction_id
    · simp [h1, h2]
    · simp [h1, h2]
  · simp [h1]

/-- The three ways the engine goes on after a data callback. -/
theorem afterdata_cases (hne : c.PTP_ERROR_CANCEL ≠ c.PTP_RC_OK) (d : DataResult W)
    (calls : List Call) :
    let k := t.cancelreq_func d.params (prev_transaction_id d.params.transaction_id)
    let r := ptp_transaction_new_afterdata c t d calls
    (d.ret = c.PTP_ERROR_CANCEL ∧
      r.ret = (if k.ret = c.PTP_RC_OK then c.PTP_ERROR_CANCEL else k.ret) ∧
      r.exit = .dataFailed ∧ r.params = k.params ∧ r.ptp = some d.ptp ∧ r.handler = d.handler ∧
      r.calls = calls ++ [Call.cancelreq (prev_transaction_id d.params.transaction_id) k.ret]) ∨
    (d.ret ≠ c.PTP_ERROR_CANCEL ∧ d.ret ≠ c.PTP_RC_OK ∧
      r.ret = d.ret ∧ r.exit = .dataFailed ∧ r.params = d.params ∧ r.ptp = some d.ptp ∧
      r.handler = d.handler ∧ r.calls = calls) ∨
    (d.ret = c.PTP_RC_OK ∧
      r = ptp_transaction_new_response c t d.params d.ptp d.handler calls) := by
  intro k r
  by_cases h1 : d.ret = c.PTP_ERROR_CANCEL
  · left
    have hr := afterdata_cancel c t hne d calls h1
    refine ⟨h1, ?_⟩
    simp only [r, hr]
    simp [k]
  · by_cases h2 : d.ret = c.PTP_RC_OK
    · right; right
      exact ⟨h2, afterdata_ok c t hne d calls h2⟩
    · right; left
      have hr := afterdata_fail c t d calls h1 h2
      refine ⟨h1, h2, ?_⟩
      simp only [r, hr]
      simp

/-- The ways `ptp_transaction_new` goes on after `sendreq_func`. -/
theorem engine_cases :
    let S := t.sendreq_func (bump params) (request_of params ptp)
    let r := ptp_transaction_new c t params (some ptp) flags sendlen handler
    (S.ret ≠ c.PTP_RC_OK ∧ r.ret = S.ret ∧ r.exit = .sendreqFailed ∧ r.params = S.params ∧
      r.ptp = some S.ptp ∧ r.handler = handler ∧
      r.calls = [Call.sendreq (request_of params ptp) S.ret]) ∨
    (S.ret = c.PTP_RC_OK ∧ flags &&& PTP_DP_DATA_MASK = PTP_DP_SENDDATA ∧
      r = ptp_transaction_new_afterdata c t (t.senddata_func S.params S.ptp sendlen handler)
            [Call.sendreq (request_of params ptp) c.PTP_RC_OK,
             Call.senddata S.ptp sendlen handler
               (t.senddata_func S.params S.ptp sendlen handler).ret]) ∨
    (S.ret = c.PTP_RC_OK ∧ flags &&& PTP_DP_DATA_MASK = PTP_DP_GETDATA ∧
      r = ptp_transaction_new_afterdata c t (t.getdata_func S.params S.ptp handler)
            [Call.sendreq (request_of params ptp) c.PTP_RC_OK,
             Call.getdata S.ptp handler (t.getdata_func S.params S.ptp handler).ret]) ∨
    (S.ret = c.PTP_RC_OK ∧ flags &&& PTP_DP_DATA_MASK = PTP_DP_NODATA ∧
      r = ptp_transaction_new_response c t S.params S.ptp handler
            [Call.sendreq (request_of params ptp) c.PTP_RC_OK]) ∨
    (S.ret = c.PTP_RC_OK ∧ flags &&& PTP_DP_DATA_MASK ≠ PTP_DP_SENDDATA ∧
      flags &&& PTP_DP_DATA_MASK ≠ PTP_DP_GETDATA ∧ flags &&& PTP_DP_DATA_MASK ≠ PTP_DP_NODATA ∧
      r.ret = c.PTP_ERROR_BADPARAM ∧ r.exit = .badFlags ∧ r.params = S.params ∧
      r.ptp = some S.ptp ∧ r.handler = handler ∧
      r.calls = [Call.sendreq (request_of params ptp) c.PTP_RC_OK]) := by
  intro S r
  by_cases hs : S.ret = c.PTP_RC_OK
  · by_cases h1 : flags &&& PTP_DP_DATA_MASK = PTP_DP_SENDDATA
    · right; left
      exact ⟨hs, h1, tn_senddata c t params ptp flags sendlen handler hs h1⟩
    · by_cases h2 : flags &&& PTP_DP_DATA_MASK = PTP_DP_GETDATA
      · right; right; left
        exact ⟨hs, h2, tn_getdata c t params ptp flags sendlen handler hs h2⟩
      · by_cases h3 : flags &&& PTP_DP_DATA_MASK = PTP_DP_NODATA
        · right; right; right; left
          exact ⟨hs, h3, tn_nodata c t params ptp flags sendlen handler hs h3⟩
        · right; right; right; right
          have hr := tn_badflags c t params ptp flags sendlen handler hs h1 h2 h3
          refine ⟨hs, h1, h2, h3, ?_⟩
          simp only [r, hr]
          simp [S]
  · left
    have hr := tn_sendreq_fail c t params ptp flags sendlen handler hs
    refine ⟨hs, ?_⟩
    simp only [r, hr]
    simp [S]

theorem afterdata_counter (hk : t.KeepsCounter) (d : DataResult W) (calls : List Call) :
    (ptp_transaction_new_afterdata c t d calls).params.transaction_id
      = d.params.transaction_id := by
  unfold ptp_transaction_new_afterdata cancel_on_cancel
  simp only []
  split_ifs <;> simp [response_params, hk.getresp, hk.cancelreq]

theorem tn_counter (hk : t.KeepsCounter) :
    (ptp_transaction_new c t params (some ptp) flags sendlen handler).params.transaction_id
      = (params.transaction_id + 1) % UINT32_MOD := by
  unfold ptp_transaction_new
  simp only []
  split_ifs <;>
    simp [response_params, afterdata_counter, hk, hk.getresp, hk.sendreq, hk.senddata, hk.getdata]

theorem response_done (p : PTPParams W) (q : PTPContainer) (calls : List Call)
    (h : (ptp_transaction_new_response c t p q handler calls).exit = .done) :
    ∃ resp, (ptp_transaction_new_response c t p q handler calls).ptp = some resp ∧
      resp.Transaction_ID = prev_transaction_id
        (ptp_transaction_new_response c t p q handler calls).params.transaction_id := by
  have hc := response_cases c t handler p q calls
  simp only [] at hc
  obtain ⟨h1, h2, -, -, h5⟩ := hc
  refine ⟨_, h2, ?_⟩
  rw [h1]
  rcases h5 with ⟨-, -, he⟩ | ⟨-, -, -, he⟩ | ⟨-, ht, -, -⟩
  · rw [he] at h; cases h
  · rw [he] at h; cases h
  · exact ht

theorem afterdata_done (d : DataResult W) (calls : List Call)
    (h : (ptp_transaction_new_afterdata c t d calls).exit = .done) :
    ∃ resp, (ptp_transaction_new_afterdata c t d calls).ptp = some resp ∧
      resp.Transaction_ID = prev_transaction_id
        (ptp_transaction_new_afterdata c t d calls).params.transaction_id := by
  unfold ptp_transaction_new_afterdata at h ⊢
  simp only [] at h ⊢
  split_ifs at h ⊢ with h1
  · exact response_done c t _ _ _ _ h

theorem tn_done
    (h : (ptp_transaction_new c t params (some ptp) flags sendlen handler).exit = .done) :
    ∃ resp, (ptp_transaction_new c t params (some ptp) flags sendlen handler).ptp = some resp ∧
      resp.Transaction_ID = prev_transaction_id
        (ptp_transaction_new c t params (some ptp) flags sendlen handler).params.transaction_id := by
  unfold ptp_transaction_new at h ⊢
  simp only [] at h ⊢
  split_ifs at h ⊢ <;>
    first
      | exact afterdata_done c t _ _ h
      | exact response_done c t _ _ _ _ h

theorem afterdata_head (d : DataResult W) (x : Call) (calls : List Call) :
    (ptp_transaction_new_afterdata c t d (x :: calls)).calls.head? = some x := by
  unfold ptp_transaction_new_afterdata
  simp only []
  split_ifs <;> simp [response_calls]

theorem tn_request_id :
    (ptp_transaction_new c t params (some ptp) flags sendlen handler).request_id
      = some params.transaction_id := by
  unfold TxResult.request_id ptp_transaction_new
  simp only []
  split_ifs <;> simp [response_calls, afterdata_head]

theorem prev_of_bumped (hc : params.transaction_id < UINT32_MOD) :
    prev_transaction_id (bump params).transaction_id = params.transaction_id := by
  show prev_transaction_id ((params.transaction_id + 1) % UINT32_MOD) = params.transaction_id
  rw [prev_transaction_id_succ, Nat.mod_eq_of_lt hc]

/-- After a data callback that returned `PTP_ERROR_CANCEL`: one cancel request, no
get-response, and the return value is decided by the cancel request. -/
theorem afterdata_cancelled (hne : c.PTP_ERROR_CANCEL ≠ c.PTP_RC_OK) (d : DataResult W)
    (S D : Call) (hS : S.kind = .sendreq) (hD : D.kind = .senddata ∨ D.kind = .getdata)
    (hcancel : ∃ call ∈ (ptp_transaction_new_afterdata c t d [S, D]).calls,
      (call.kind = .senddata ∨ call.kind = .getdata) ∧ call.ret = c.PTP_ERROR_CANCEL)
    (hDret : D.ret = d.ret) :
    ∃ rc, (ptp_transaction_new_afterdata c t d [S, D]).calls.filter
            (fun call => decide (call.kind = .cancelreq))
          = [Call.cancelreq (prev_transaction_id d.params.transaction_id) rc] ∧
      (∀ call ∈ (ptp_transaction_new_afterdata c t d [S, D]).calls, call.kind ≠ .getresp) ∧
      (ptp_transaction_new_afterdata c t d [S, D]).ret
        = (if rc = c.PTP_RC_OK then c.PTP_ERROR_CANCEL else rc) := by
  have hcases := afterdata_cases c t hne d [S, D]
  simp only [] at hcases
  have hDk : D.kind ≠ .cancelreq ∧ D.kind ≠ .getresp := by
    rcases hD with h | h <;> rw [h] <;> exact ⟨by decide, by decide⟩
  rcases hcases with ⟨-, hret, -, -, -, -, hcalls⟩ | ⟨h1, -, -, -, -, -, -, hcalls⟩ | ⟨hd, hr⟩
  · refine ⟨_, ?_, ?_, hret⟩
    · rw [hcalls]
      simp [List.filter_cons, hS, hDk.1]
    · rw [hcalls]
      intro call hm
      simp only [List.cons_append, List.nil_append, List.mem_cons, List.mem_singleton,
        List.not_mem_nil, or_false] at hm
      rcases hm with rfl | rfl | rfl
      · rw [hS]; decide
      · exact hDk.2
      · simp
  · exfalso
    rw [hcalls] at hcancel
    obtain ⟨call, hm, hkind, hret⟩ := hcancel
    simp only [List.mem_cons, List.mem_singleton, List.not_mem_nil, or_false] at hm
    rcases hm with rfl | rfl
    · rw [hS] at hkind; simp at hkind
    · exact h1 (hDret ▸ hret)
  · exfalso
    rw [hr, response_calls] at hcancel
    obtain ⟨call, hm, hkind, hret⟩ := hcancel
    simp only [List.cons_append, List.nil_append, List.mem_cons, List.mem_singleton,
      List.not_mem_nil, or_false] at hm
    rcases hm with rfl | rfl | rfl
    · rw [hS] at hkind; simp at hkind
    · rw [hDret, hd] at hret; exact hne hret.symm
    · simp at hkind

theorem afterdata_expected (hne : c.PTP_ERROR_CANCEL ≠ c.PTP_RC_OK) (d : DataResult W)
    (calls : List Call) :
    ∃ qr x rc rr, (ptp_transaction_new_afterdata c t d calls).calls = calls ++
      (if d.ret = c.PTP_ERROR_CANCEL then [Call.cancelreq x rc]
       else if d.ret ≠ c.PTP_RC_OK then [] else [Call.getresp qr rr]) := by
  have hcases := afterdata_cases c t hne d calls
  simp only [] at hcases
  rcases hcases with ⟨h1, -, -, -, -, -, hcalls⟩ | ⟨h1, h2, -, -, -, -, -, hcalls⟩ | ⟨hd, hr⟩
  · exact ⟨d.ptp, _, _, 0, by rw [hcalls, if_pos h1]⟩
  · exact ⟨d.ptp, 0, 0, 0, by rw [hcalls, if_neg h1, if_pos h2, List.append_nil]⟩
  · have h1 : ¬ d.ret = c.PTP_ERROR_CANCEL := by rw [hd]; exact fun h => hne h.symm
    exact ⟨d.ptp, 0, 0, _, by rw [hr, response_calls, if_neg h1, if_neg (not_not.mpr hd)]⟩

/-- The response phase when get-response succeeds: the outcome is decided by
comparing the response's transaction id with `x`, the id before the counter. -/
theorem response_all_ok (hk : t.KeepsCounter) (p : PTPParams W) (q : PTPContainer)
    (calls : List Call) (x : Nat) (hp : prev_transaction_id p.transaction_id = x)
    (hok : ∀ call ∈ (ptp_transaction_new_response c t p q handler calls).calls,
      call.ret = c.PTP_RC_OK) :
    ∃ resp, (ptp_transaction_new_response c t p q handler calls).ptp = some resp ∧
      (resp.Transaction_ID ≠ x →
        (ptp_transaction_new_response c t p q handler calls).ret = c.PTP_ERROR_BADPARAM ∧
        (ptp_transaction_new_response c t p q handler calls).exit = .seqMismatch) ∧
      (resp.Transaction_ID = x →
        (ptp_transaction_new_response c t p q handler calls).exit = .done ∧
        (ptp_transaction_new_response c t p q handler calls).ret = resp.Code) := by
  have hcases := response_cases c t handler p q calls
  simp only [] at hcases
  obtain ⟨-, hptp, -, hcalls, h⟩ := hcases
  have hg : (t.getresp_func p q).ret = c.PTP_RC_OK := by
    have := hok (Call.getresp q (t.getresp_func p q).ret) (by rw [hcalls]; simp)
    simpa using this
  rw [hk.getresp, hp] at h
  refine ⟨_, hptp, ?_, ?_⟩
  · intro hx
    rcases h with ⟨h1, -⟩ | ⟨-, -, h2, h3⟩ | ⟨-, h1, -⟩
    · exact absurd hg h1
    · exact ⟨h2, h3⟩
    · exact absurd h1 hx
  · intro hx
    rcases h with ⟨h1, -⟩ | ⟨-, h1, -⟩ | ⟨-, -, h2, h3⟩
    · exact absurd hg h1
    · exact absurd hx h1
    · exact ⟨h3, h2⟩

theorem afterdata_all_ok (hne : c.PTP_ERROR_CANCEL ≠ c.PTP_RC_OK) (hk : t.KeepsCounter)
    (d : DataResult W) (S D : Call) (hDret : D.ret = d.ret) (x : Nat)
    (hp : prev_transaction_id d.params.transaction_id = x)
    (hok : ∀ call ∈ (ptp_transaction_new_afterdata c t d [S, D]).calls,
      call.ret = c.PTP_RC_OK) :
    ∃ resp, (ptp_transaction_new_afterdata c t d [S, D]).ptp = some resp ∧
      (resp.Transaction_ID ≠ x →
        (ptp_transaction_new_afterdata c t d [S, D]).ret = c.PTP_ERROR_BADPARAM ∧
        (ptp_transaction_new_afterdata c t d [S, D]).exit = .seqMismatch) ∧
      (resp.Transaction_ID = x →
        (ptp_transaction_new_afterdata c t d [S, D]).exit = .done ∧
        (ptp_transaction_new_afterdata c t d [S, D]).ret = resp.Code) := by
  have hcases := afterdata_cases c t hne d [S, D]
  simp only [] at hcases
  rcases hcases with ⟨h1, -, -, -, -, -, hcalls⟩ | ⟨-, h2, -, -, -, -, -, hcalls⟩ | ⟨-, hr⟩
  · exfalso
    have := hok D (by rw [hcalls]; simp)
    rw [hDret, h1] at this
    exact hne this
  · exfalso
    have := hok D (by rw [hcalls]; simp)
    rw [hDret] at this
    exact h2 this
  · rw [hr] at hok ⊢
    exact response_all_ok c t d.handler hk d.params d.ptp [S, D] x hp hok

/-- When every transport call of a transaction returned OK and the data direction is
valid, the outcome is decided by comparing the response's transaction id with the
id assigned to the request. -/
theorem engine_all_ok (hne : c.PTP_ERROR_CANCEL ≠ c.PTP_RC_OK) (hk : t.KeepsCounter)
    (hc : params.transaction_id < UINT32_MOD)
    (hvalid : flags &&& PTP_DP_DATA_MASK = PTP_DP_SENDDATA ∨
      flags &&& PTP_DP_DATA_MASK = PTP_DP_GETDATA ∨ flags &&& PTP_DP_DATA_MASK = PTP_DP_NODATA)
    (hok : ∀ call ∈ (ptp_transaction_new c t params (some ptp) flags sendlen handler).calls,
      call.ret = c.PTP_RC_OK) :
    ∃ resp, (ptp_transaction_new c t params (some ptp) flags sendlen handler).ptp = some resp ∧
      (resp.Transaction_ID ≠ params.transaction_id →
        (ptp_transaction_new c t params (some ptp) flags sendlen handler).ret
          = c.PTP_ERROR_BADPARAM ∧
        (ptp_transaction_new c t params (some ptp) flags sendlen handler).exit = .seqMismatch) ∧
      (resp.Transaction_ID = params.transaction_id →
        (ptp_transaction_new c t params (some ptp) flags sendlen handler).exit = .done ∧
        (ptp_transaction_new c t params (some ptp) flags sendlen handler).ret = resp.Code) := by
  have hcases := engine_cases c t params ptp flags sendlen handler
  simp only [] at hcases
  have hS : prev_transaction_id
      (t.sendreq_func (bump params) (request_of params ptp)).params.transaction_id
      = params.transaction_id := by
    rw [hk.sendreq, prev_of_bumped params hc]
  rcases hcases with ⟨hs, -, -, -, -, -, hcalls⟩ | ⟨-, -, hr⟩ | ⟨-, -, hr⟩ | ⟨-, -, hr⟩ |
      ⟨-, h1, h2, h3, -⟩
  · exfalso
    have := hok _ (by rw [hcalls]; exact List.mem_singleton.mpr rfl)
    exact hs (by simpa using this)
  · rw [hr] at hok ⊢
    exact afterdata_all_ok c t hne hk _ _ _ (by rfl) _ (by rw [hk.senddata]; exact hS) hok
  · rw [hr] at hok ⊢
    exact afterdata_all_ok c t hne hk _ _ _ (by rfl) _ (by rw [hk.getdata]; exact hS) hok
  · rw [hr] at hok ⊢
    exact response_all_ok c t handler hk _ _ _ _ hS hok
  · rcases hvalid with h | h | h
    · exact absurd h h1
    · exact absurd h h2
    · exact absurd h h3

theorem response_first_failure (p : PTPParams W) (q : PTPContainer) (calls : List Call)
    (hprev : ∀ other ∈ calls, other.ret = c.PTP_RC_OK) :
    ∀ call ∈ (ptp_transaction_new_response c t p q handler calls).calls,
      call.ret ≠ c.PTP_RC_OK →
      (ptp_transaction_new_response c t p q handler calls).ret = call.ret ∧
      (ptp_transaction_new_response c t p q handler calls).calls.getLast? = some call ∧
      ∀ other ∈ (ptp_transaction_new_response c t p q handler calls).calls.dropLast,
        other.ret = c.PTP_RC_OK := by
  have hcases := response_cases c t handler p q calls
  simp only [] at hcases
  obtain ⟨-, -, -, hcalls, h⟩ := hcases
  intro call hm hne
  rw [hcalls] at hm ⊢
  rw [List.mem_append, List.mem_singleton] at hm
  rcases hm with hm | rfl
  · exact absurd (hprev call hm) hne
  · simp only [ret_getresp] at hne ⊢
    refine ⟨?_, by simp, by simpa using hprev⟩
    rcases h with ⟨-, h2, -⟩ | ⟨h1, -⟩ | ⟨h1, -⟩
    · exact h2
    · exact absurd h1 hne
    · exact absurd h1 hne

theorem afterdata_first_failure (hne : c.PTP_ERROR_CANCEL ≠ c.PTP_RC_OK) (d : DataResult W)
    (S D : Call) (hS : S.ret = c.PTP_RC_OK)
    (hDk : D.kind = .senddata ∨ D.kind = .getdata) (hDret : D.ret = d.ret) :
    ∀ call ∈ (ptp_transaction_new_afterdata c t d [S, D]).calls, call.reports_failure c →
      (ptp_transaction_new_afterdata c t d [S, D]).ret = call.ret ∧
      (ptp_transaction_new_afterdata c t d [S, D]).calls.getLast? = some call ∧
      ∀ other ∈ (ptp_transaction_new_afterdata c t d [S, D]).calls.dropLast,
        other.ret = c.PTP_RC_OK := by
  have hcases := afterdata_cases c t hne d [S, D]
  simp only [] at hcases
  rcases hcases with ⟨h1, -, -, -, -, -, hcalls⟩ | ⟨-, -, hret, -, -, -, -, hcalls⟩ | ⟨hd, hr⟩
  · intro call hm hf
    exfalso
    rw [hcalls] at hm
    simp only [List.cons_append, List.nil_append, List.mem_cons, List.mem_singleton,
      List.not_mem_nil, or_false] at hm
    obtain ⟨hf1, hf2⟩ := hf
    rcases hm with rfl | rfl | rfl
    · exact hf1 hS
    · rcases hf2 with h | h | ⟨-, h⟩
      · rcases hDk with k | k <;> rw [k] at h <;> cases h
      · rcases hDk with k | k <;> rw [k] at h <;> cases h
      · exact h (hDret.trans h1)
    · simp at hf2
  · intro call hm hf
    rw [hcalls] at hm ⊢
    simp only [List.mem_cons, List.mem_singleton, List.not_mem_nil, or_false] at hm
    rcases hm with rfl | rfl
    · exact absurd hS hf.1
    · refine ⟨by rw [hret, hDret], by simp, ?_⟩
      intro other ho
      simp only [List.dropLast, List.mem_singleton] at ho
      rw [ho]; exact hS
  · rw [hr]
    intro call hm hf
    refine response_first_failure c t d.handler d.params d.ptp [S, D] ?_ call hm hf.1
    intro other ho
    simp only [List.mem_cons, List.mem_singleton, List.not_mem_nil, or_false] at ho
    rcases ho with rfl | rfl
    · exact hS
    · rw [hDret, hd]

theorem tn_calls_nodata :
    ∃ rs rest, (ptp_transaction_new c t params (some ptp) PTP_DP_NODATA sendlen handler).calls
      = Call.sendreq (request_of params ptp) rs :: rest := by
  by_cases hs : (t.sendreq_func (bump params) (request_of params ptp)).ret = c.PTP_RC_OK
  · rw [tn_nodata c t params ptp PTP_DP_NODATA sendlen handler hs (by decide), response_calls]
    exact ⟨_, _, rfl⟩
  · rw [tn_sendreq_fail c t params ptp PTP_DP_NODATA sendlen handler hs]
    exact ⟨_, _, rfl⟩

theorem response_cache (hk : t.KeepsCache) (p : PTPParams W) (q : PTPContainer)
    (calls : List Call) :
    (ptp_transaction_new_response c t p q handler calls).params.cache = p.cache := by
  rw [response_params, hk.getresp]

theorem afterdata_cache (hk : t.KeepsCache) (d : DataResult W) (calls : List Call) :
    (ptp_transaction_new_afterdata c t d calls).params.cache = d.params.cache := by
  unfold ptp_transaction_new_afterdata cancel_on_cancel
  simp only []
  split_ifs <;> simp [response_params, hk.getresp, hk.cancelreq]

theorem tn_cache (hk : t.KeepsCache) (q : Option PTPContainer) :
    (ptp_transaction_new c t params q flags sendlen handler).params.cache = params.cache := by
  cases q with
  | none => rfl
  | some ptp =>
    have hb : (bump params).cache = params.cache := rfl
    have hcases := engine_cases c t params ptp flags sendlen handler
    simp only [] at hcases
    rcases hcases with ⟨-, -, -, hp, -⟩ | ⟨-, -, hr⟩ | ⟨-, -, hr⟩ | ⟨-, -, hr⟩ |
        ⟨-, -, -, -, -, -, hp, -⟩
    · rw [hp, hk.sendreq, hb]
    · rw [hr, afterdata_cache c t hk, hk.senddata, hk.sendreq, hb]
    · rw [hr, afterdata_cache c t hk, hk.getdata, hk.sendreq, hb]
    · rw [hr, response_cache c t handler hk, hk.sendreq, hb]
    · rw [hp, hk.sendreq, hb]

theorem transaction_cache (hk : t.KeepsCache) (q : Option PTPContainer)
    (data : Option (List Nat)) :
    (ptp_transaction c t params q flags sendlen data).params.cache = params.cache := by
  unfold ptp_transaction
  simp only []
  split_ifs <;> exact tn_cache c t params flags sendlen _ hk q

theorem remove_cache_congr (z : Bool) (p q : PTPParams W) (handle : Nat)
    (h : p.cache = q.cache) :
    (ptp_remove_object_from_cache z p handle).cache
      = (ptp_remove_object_from_cache z q handle).cache := by
  simp only [PTPParams.cache, Prod.mk.injEq] at h
  obtain ⟨h1, h2, h3, h4⟩ := h
  unfold ptp_remove_object_from_cache
  simp only [h1, h2, h3, h4]
  cases q.props <;> rfl

end engine

theorem run_transactions_ids {W : Type} (c : PTPCodes) (t : PTPTransport W)
    (hk : t.KeepsCounter) :
    ∀ (reqs : List TxRequest) (params : PTPParams W) (i : Nat),
      params.transaction_id < UINT32_MOD → i < reqs.length →
      ∃ r, (run_transactions c t params reqs)[i]? = some r ∧
        r.request_id = some ((params.transaction_id + i) % UINT32_MOD) ∧
        (r.exit = .done → r.response_id = some ((params.transaction_id + i) % UINT32_MOD)) := by
  intro reqs
  induction reqs with
  | nil => intro params i _ hi; simp at hi
  | cons q qs ih =>
    intro params i hc hi
    have hcnt := tn_counter c t params q.ptp q.flags q.sendlen q.handler hk
    cases i with
    | zero =>
      refine ⟨ptp_transaction_new c t params (some q.ptp) q.flags q.sendlen q.handler, ?_, ?_, ?_⟩
      · simp [run_transactions]
      · rw [tn_request_id, Nat.add_zero, Nat.mod_eq_of_lt hc]
      · intro hd
        obtain ⟨resp, h1, h2⟩ := tn_done c t params q.ptp q.flags q.sendlen q.handler hd
        rw [hcnt, prev_transaction_id_succ] at h2
        simp [TxResult.response_id, hd, h1, h2]
    | succ j =>
      have hc2 : (ptp_transaction_new c t params (some q.ptp) q.flags q.sendlen
          q.handler).params.transaction_id < UINT32_MOD := by
        rw [hcnt]; exact Nat.mod_lt _ uint32_mod_pos
      obtain ⟨r, h1, h2, h3⟩ := ih _ j hc2 (by simpa using hi)
      have e : ((params.transaction_id + 1) % UINT32_MOD + j) % UINT32_MOD
          = (params.transaction_id + (j + 1)) % UINT32_MOD := by
        rw [Nat.add_mod, Nat.mod_mod, ← Nat.add_mod]
        congr 1
        omega
      rw [hcnt, e] at h2 h3
      exact ⟨r, by simpa [run_transactions] using h1, h2, h3⟩

/-! ## The claims on the transaction engine -/

/-- C1, as amended.  On one session whose transport callbacks leave the counter
alone, the i-th of a sequence of transactions is sent with transaction id
`(c + i) mod 2^32`, where `c` is the counter before the first call; a response that
is accepted carries that same id; and as long as the counter does not wrap
(`c + N ≤ 2^32`) the id is `c + i`, so the ids increase by one from each request to
the next. -/
theorem transaction_ids_follow_counter {W : Type} (c : PTPCodes) (t : PTPTransport W)
    (params : PTPParams W) (reqs : List TxRequest) (i : Nat)
    (hk : t.KeepsCounter) (hc : params.transaction_id < UINT32_MOD) (hi : i < reqs.length) :
    ∃ r, (run_transactions c t params reqs)[i]? = some r ∧
      r.request_id = some ((params.transaction_id + i) % UINT32_MOD) ∧
      (r.exit = .done → r.response_id = some ((params.transaction_id + i) % UINT32_MOD)) ∧
      (params.transaction_id + reqs.length ≤ UINT32_MOD →
        (params.transaction_id + i) % UINT32_MOD = params.transaction_id + i) := by
  obtain ⟨r, h1, h2, h3⟩ := run_transactions_ids c t hk reqs params i hc hi
  exact ⟨r, h1, h2, h3, fun h => Nat.mod_eq_of_lt (by omega)⟩

/-- Witness for C1, as amended: the second of two transactions on a session whose
counter is 5. -/
theorem transaction_ids_follow_counter_witness :
    (scripted allOK).KeepsCounter ∧ (sampleParams 5 1).transaction_id < UINT32_MOD ∧
    1 < [sampleRequest, sampleRequest].length ∧
    ∃ r, (run_transactions sampleCodes (scripted allOK) (sampleParams 5 1)
            [sampleRequest, sampleRequest])[1]? = some r ∧
      r.request_id = some (((sampleParams 5 1).transaction_id + 1) % UINT32_MOD) ∧
      (r.exit = .done →
        r.response_id = some (((sampleParams 5 1).transaction_id + 1) % UINT32_MOD)) ∧
      ((sampleParams 5 1).transaction_id + [sampleRequest, sampleRequest].length ≤ UINT32_MOD →
        ((sampleParams 5 1).transaction_id + 1) % UINT32_MOD
          = (sampleParams 5 1).transaction_id + 1) :=
  ⟨scripted_keepsCounter allOK, by decide, by decide,
   transaction_ids_follow_counter sampleCodes (scripted allOK) (sampleParams 5 1)
     [sampleRequest, sampleRequest] 1 (scripted_keepsCounter allOK) (by decide) (by decide)⟩

/-- C1, counterexample.  With the counter at `0xFFFFFFFF`, two transactions on a
transport on which every callback succeeds and leaves the counter alone are both
accepted with OK, the first with id `0xFFFFFFFF` and the second with id `0`, which
is not `0xFFFFFFFF + 1`: the ids are not strictly increasing. -/
theorem transaction_ids_wrap_counterexample :
    (scripted allOK).KeepsCounter ∧
    (run_transactions sampleCodes (scripted allOK) (sampleParams 0xFFFFFFFF 1)
        [sampleRequest, sampleRequest]).map (fun r => (r.request_id, r.response_id, r.ret))
      = [(some 0xFFFFFFFF, some 0xFFFFFFFF, sampleCodes.PTP_RC_OK),
         (some 0, some 0, sampleCodes.PTP_RC_OK)] ∧
    ((run_transactions sampleCodes (scripted allOK) (sampleParams 0xFFFFFFFF 1)
        [sampleRequest, sampleRequest]).map (fun r => r.request_id))[1]?
      ≠ some (some ((sampleParams 0xFFFFFFFF 1).transaction_id + 1)) :=
  ⟨scripted_keepsCounter allOK, by decide, by decide⟩

/-- C2.  When the send-data or get-data callback of a transaction reports
`PTP_ERROR_CANCEL`, the cancel request is called exactly once, with the transaction
id assigned to this request; get-response is not called; and the transaction
returns `PTP_ERROR_CANCEL` if the cancel request returned OK and the cancel
request's own code otherwise.  The transport callbacks leave the counter alone. -/
theorem cancel_request_on_cancelled_data {W : Type} (c : PTPCodes) (t : PTPTransport W)
    (params : PTPParams W) (ptp : PTPContainer) (flags sendlen : Nat)
    (handler : Option PTPDataHandler)
    (hne : c.PTP_ERROR_CANCEL ≠ c.PTP_RC_OK) (hk : t.KeepsCounter)
    (hc : params.transaction_id < UINT32_MOD)
    (hcancel : ∃ call ∈ (ptp_transaction_new c t params (some ptp) flags sendlen handler).calls,
      (call.kind = .senddata ∨ call.kind = .getdata) ∧ call.ret = c.PTP_ERROR_CANCEL) :
    ∃ rc, (ptp_transaction_new c t params (some ptp) flags sendlen handler).calls.filter
            (fun call => decide (call.kind = .cancelreq))
          = [Call.cancelreq params.transaction_id rc] ∧
      (∀ call ∈ (ptp_transaction_new c t params (some ptp) flags sendlen handler).calls,
        call.kind ≠ .getresp) ∧
      (ptp_transaction_new c t params (some ptp) flags sendlen handler).ret
        = (if rc = c.PTP_RC_OK then c.PTP_ERROR_CANCEL else rc) := by
  have hcases := engine_cases c t params ptp flags sendlen handler
  simp only [] at hcases
  have hS : (t.sendreq_func (bump params) (request_of params ptp)).params.transaction_id
      = (bump params).transaction_id := hk.sendreq _ _
  rcases hcases with ⟨-, -, -, -, -, -, hcalls⟩ | ⟨-, -, hr⟩ | ⟨-, -, hr⟩ | ⟨-, -, hr⟩ |
      ⟨-, -, -, -, -, -, -, -, -, hcalls⟩
  · exfalso
    rw [hcalls] at hcancel
    obtain ⟨call, hm, hkind, -⟩ := hcancel
    simp only [List.mem_singleton] at hm
    subst hm
    simp at hkind
  · rw [hr] at hcancel ⊢
    have h := afterdata_cancelled c t hne _ _ _ (by rfl) (Or.inl (by rfl)) hcancel (by rfl)
    rwa [hk.senddata, hS, prev_of_bumped params hc] at h
  · rw [hr] at hcancel ⊢
    have h := afterdata_cancelled c t hne _ _ _ (by rfl) (Or.inr (by rfl)) hcancel (by rfl)
    rwa [hk.getdata, hS, prev_of_bumped params hc] at h
  · exfalso
    rw [hr, response_calls] at hcancel
    obtain ⟨call, hm, hkind, -⟩ := hcancel
    simp only [List.cons_append, List.nil_append, List.mem_cons, List.mem_singleton,
      List.not_mem_nil, or_false] at hm
    rcases hm with rfl | rfl <;> simp at hkind
  · exfalso
    rw [hcalls] at hcancel
    obtain ⟨call, hm, hkind, -⟩ := hcancel
    simp only [List.mem_singleton] at hm
    subst hm
    simp at hkind

/-- Witness for C2: a get-data phase that reports cancellation, on a session whose
counter is 5. -/
theorem cancel_request_on_cancelled_data_witness :
    sampleCodes.PTP_ERROR_CANCEL ≠ sampleCodes.PTP_RC_OK ∧
    (scripted cancelledGet).KeepsCounter ∧
    (sampleParams 5 1).transaction_id < UINT32_MOD ∧
    (∃ call ∈ (ptp_transaction_new sampleCodes (scripted cancelledGet) (sampleParams 5 1)
        (some PTP_CNT_INIT) PTP_DP_GETDATA 0 (some ptp_init_recv_memory_handler)).calls,
      (call.kind = .senddata ∨ call.kind = .getdata) ∧
        call.ret = sampleCodes.PTP_ERROR_CANCEL) ∧
    ∃ rc, (ptp_transaction_new sampleCodes (scripted cancelledGet) (sampleParams 5 1)
            (some PTP_CNT_INIT) PTP_DP_GETDATA 0 (some ptp_init_recv_memory_handler)).calls.filter
            (fun call => decide (call.kind = .cancelreq))
          = [Call.cancelreq (sampleParams 5 1).transaction_id rc] ∧
      (∀ call ∈ (ptp_transaction_new sampleCodes (scripted cancelledGet) (sampleParams 5 1)
          (some PTP_CNT_INIT) PTP_DP_GETDATA 0 (some ptp_init_recv_memory_handler)).calls,
        call.kind ≠ .getresp) ∧
      (ptp_transaction_new sampleCodes (scripted cancelledGet) (sampleParams 5 1)
          (some PTP_CNT_INIT) PTP_DP_GETDATA 0 (some ptp_init_recv_memory_handler)).ret
        = (if rc = sampleCodes.PTP_RC_OK then sampleCodes.PTP_ERROR_CANCEL else rc) :=
  ⟨by decide, scripted_keepsCounter cancelledGet, by decide, by decide,
   cancel_request_on_cancelled_data sampleCodes (scripted cancelledGet) (sampleParams 5 1)
     PTP_CNT_INIT PTP_DP_GETDATA 0 (some ptp_init_recv_memory_handler)
     (by decide) (scripted_keepsCounter cancelledGet) (by decide) (by decide)⟩

/-- C3.  When send-request, the data phase and get-response of a transaction all
succeed (every transport call returned OK, valid data direction) but the response
container's transaction id differs from the id assigned to the request, the
transaction returns the fault `PTP_ERROR_BADPARAM` through the sequence-mismatch
exit, not through `return ptp->Code`, so not OK even when the response code is OK;
when the ids are equal it leaves through `return ptp->Code` with the response
container's code.  The transport callbacks leave the counter alone. -/
theorem sequence_mismatch_is_fault {W : Type} (c : PTPCodes) (t : PTPTransport W)
    (params : PTPParams W) (ptp : PTPContainer) (flags sendlen : Nat)
    (handler : Option PTPDataHandler)
    (hne : c.PTP_ERROR_CANCEL ≠ c.PTP_RC_OK)
    (hbad : c.PTP_ERROR_BADPARAM ≠ c.PTP_RC_OK) (hk : t.KeepsCounter)
    (hc : params.transaction_id < UINT32_MOD)
    (hvalid : flags &&& PTP_DP_DATA_MASK = PTP_DP_SENDDATA ∨
      flags &&& PTP_DP_DATA_MASK = PTP_DP_GETDATA ∨ flags &&& PTP_DP_DATA_MASK = PTP_DP_NODATA)
    (hok : ∀ call ∈ (ptp_transaction_new c t params (some ptp) flags sendlen handler).calls,
      call.ret = c.PTP_RC_OK) :
    ∃ resp, (ptp_transaction_new c t params (some ptp) flags sendlen handler).ptp = some resp ∧
      (resp.Transaction_ID ≠ params.transaction_id →
        (ptp_transaction_new c t params (some ptp) flags sendlen handler).ret
          = c.PTP_ERROR_BADPARAM ∧
        (ptp_transaction_new c t params (some ptp) flags sendlen handler).exit = .seqMismatch ∧
        (ptp_transaction_new c t params (some ptp) flags sendlen handler).ret ≠ c.PTP_RC_OK) ∧
      (resp.Transaction_ID = params.transaction_id →
        (ptp_transaction_new c t params (some ptp) flags sendlen handler).exit = .done ∧
        (ptp_transaction_new c t params (some ptp) flags sendlen handler).ret = resp.Code) := by
  obtain ⟨resp, h1, h2, h3⟩ :=
    engine_all_ok c t params ptp flags sendlen handler hne hk hc hvalid hok
  refine ⟨resp, h1, fun hx => ?_, h3⟩
  obtain ⟨h4, h5⟩ := h2 hx
  exact ⟨h4, h5, by rw [h4]; exact hbad⟩

/-- Witness for C3: a device whose response carries the wrong transaction id, on a
session whose counter is 5. -/
theorem sequence_mismatch_is_fault_witness :
    sampleCodes.PTP_ERROR_CANCEL ≠ sampleCodes.PTP_RC_OK ∧
    sampleCodes.PTP_ERROR_BADPARAM ≠ sampleCodes.PTP_RC_OK ∧
    (scripted outOfStep).KeepsCounter ∧
    (sampleParams 5 1).transaction_id < UINT32_MOD ∧
    (PTP_DP_NODATA &&& PTP_DP_DATA_MASK = PTP_DP_SENDDATA ∨
      PTP_DP_NODATA &&& PTP_DP_DATA_MASK = PTP_DP_GETDATA ∨
      PTP_DP_NODATA &&& PTP_DP_DATA_MASK = PTP_DP_NODATA) ∧
    (∀ call ∈ (ptp_transaction_new sampleCodes (scripted outOfStep) (sampleParams 5 1)
        (some PTP_CNT_INIT) PTP_DP_NODATA 0 none).calls, call.ret = sampleCodes.PTP_RC_OK) ∧
    ∃ resp, (ptp_transaction_new sampleCodes (scripted outOfStep) (sampleParams 5 1)
        (some PTP_CNT_INIT) PTP_DP_NODATA 0 none).ptp = some resp ∧
      (resp.Transaction_ID ≠ (sampleParams 5 1).transaction_id →
        (ptp_transaction_new sampleCodes (scripted outOfStep) (sampleParams 5 1)
          (some PTP_CNT_INIT) PTP_DP_NODATA 0 none).ret = sampleCodes.PTP_ERROR_BADPARAM ∧
        (ptp_transaction_new sampleCodes (scripted outOfStep) (sampleParams 5 1)
          (some PTP_CNT_INIT) PTP_DP_NODATA 0 none).exit = .seqMismatch ∧
        (ptp_transaction_new sampleCodes (scripted outOfStep) (sampleParams 5 1)
          (some PTP_CNT_INIT) PTP_DP_NODATA 0 none).ret ≠ sampleCodes.PTP_RC_OK) ∧
      (resp.Transaction_ID = (sampleParams 5 1).transaction_id →
        (ptp_transaction_new sampleCodes (scripted outOfStep) (sampleParams 5 1)
          (some PTP_CNT_INIT) PTP_DP_NODATA 0 none).exit = .done ∧
        (ptp_transaction_new sampleCodes (scripted outOfStep) (sampleParams 5 1)
          (some PTP_CNT_INIT) PTP_DP_NODATA 0 none).ret = resp.Code) :=
  ⟨by decide, by decide, scripted_keepsCounter outOfStep, by decide, by decide, by decide,
   sequence_mismatch_is_fault sampleCodes (scripted outOfStep) (sampleParams 5 1)
     PTP_CNT_INIT PTP_DP_NODATA 0 none
     (by decide) (by decide) (scripted_keepsCounter outOfStep) (by decide) (by decide)
     (by decide)⟩

/-- C4.  For a non-null container and a valid data direction, a transaction
returns the first non-OK code reported by send-request, by the selected data
callback (other than cancellation) or by get-response, unchanged, and makes no call
after the one that reported it; if every call returned OK and the response's
transaction id equals the request's, it returns the response container's code,
whatever that code is.  The transport callbacks leave the counter alone. -/
theorem first_failure_is_returned {W : Type} (c : PTPCodes) (t : PTPTransport W)
    (params : PTPParams W) (ptp : PTPContainer) (flags sendlen : Nat)
    (handler : Option PTPDataHandler)
    (hne : c.PTP_ERROR_CANCEL ≠ c.PTP_RC_OK)
    (hk : t.KeepsCounter) (hc : params.transaction_id < UINT32_MOD)
    (hvalid : flags &&& PTP_DP_DATA_MASK = PTP_DP_SENDDATA ∨
      flags &&& PTP_DP_DATA_MASK = PTP_DP_GETDATA ∨ flags &&& PTP_DP_DATA_MASK = PTP_DP_NODATA) :
    (∀ call ∈ (ptp_transaction_new c t params (some ptp) flags sendlen handler).calls,
      call.reports_failure c →
        (ptp_transaction_new c t params (some ptp) flags sendlen handler).ret = call.ret ∧
        (ptp_transaction_new c t params (some ptp) flags sendlen handler).calls.getLast?
          = some call ∧
        ∀ other ∈ (ptp_transaction_new c t params (some ptp) flags sendlen handler).calls.dropLast,
          other.ret = c.PTP_RC_OK) ∧
    ((∀ call ∈ (ptp_transaction_new c t params (some ptp) flags sendlen handler).calls,
        call.ret = c.PTP_RC_OK) →
      ∃ resp, (ptp_transaction_new c t params (some ptp) flags sendlen handler).ptp = some resp ∧
        (resp.Transaction_ID = params.transaction_id →
          (ptp_transaction_new c t params (some ptp) flags sendlen handler).ret = resp.Code)) := by
  constructor
  · have hcases := engine_cases c t params ptp flags sendlen handler
    simp only [] at hcases
    rcases hcases with ⟨-, hret, -, -, -, -, hcalls⟩ | ⟨-, -, hr⟩ | ⟨-, -, hr⟩ | ⟨-, -, hr⟩ |
        ⟨-, h1, h2, h3, -⟩
    · intro call hm _
      rw [hcalls] at hm ⊢
      rw [List.mem_singleton] at hm
      subst hm
      exact ⟨by rw [hret]; rfl, rfl, by simp⟩
    · rw [hr]
      exact afterdata_first_failure c t hne _ _ _ (by rfl) (Or.inl (by rfl)) (by rfl)
    · rw [hr]
      exact afterdata_first_failure c t hne _ _ _ (by rfl) (Or.inr (by rfl)) (by rfl)
    · rw [hr]
      intro call hm hf
      refine response_first_failure c t handler _ _ _ ?_ call hm hf.1
      intro other ho
      rw [List.mem_singleton] at ho
      rw [ho]; rfl
    · rcases hvalid with h | h | h
      · exact absurd h h1
      · exact absurd h h2
      · exact absurd h h3
  · intro hok
    obtain ⟨resp, h1, -, h3⟩ :=
      engine_all_ok c t params ptp flags sendlen handler hne hk hc hvalid hok
    exact ⟨resp, h1, fun hx => (h3 hx).2⟩

/-- Witness for C4, on a session whose counter is 5.  First a get-data phase whose
callback fails with `0x02FF` after a send-request that succeeded: a call of the log
reports a failure, it is the last call, and its code is what the transaction
returns.  Then a request with a get-data phase that the device refuses with the
response code `0x2005`: every call of the log returned OK and the transaction
returns the response code. -/
theorem first_failure_is_returned_witness :
    (sampleCodes.PTP_ERROR_CANCEL ≠ sampleCodes.PTP_RC_OK ∧
     (scripted failingGet).KeepsCounter ∧
     (sampleParams 5 1).transaction_id < UINT32_MOD ∧
     (PTP_DP_GETDATA &&& PTP_DP_DATA_MASK = PTP_DP_SENDDATA ∨
       PTP_DP_GETDATA &&& PTP_DP_DATA_MASK = PTP_DP_GETDATA ∨
       PTP_DP_GETDATA &&& PTP_DP_DATA_MASK = PTP_DP_NODATA) ∧
     (∃ call ∈ (ptp_transaction_new sampleCodes (scripted failingGet) (sampleParams 5 1)
        (some PTP_CNT_INIT) PTP_DP_GETDATA 0 none).calls,
       call.reports_failure sampleCodes ∧ call.kind = CallKind.getdata ∧ call.ret = 0x02FF) ∧
     (ptp_transaction_new sampleCodes (scripted failingGet) (sampleParams 5 1)
        (some PTP_CNT_INIT) PTP_DP_GETDATA 0 none).ret = 0x02FF ∧
     ((ptp_transaction_new sampleCodes (scripted failingGet) (sampleParams 5 1)
        (some PTP_CNT_INIT) PTP_DP_GETDATA 0 none).calls.map Call.kind) = [CallKind.sendreq, CallKind.getdata] ∧
    ((∀ call ∈ (ptp_transaction_new sampleCodes (scripted failingGet) (sampleParams 5 1)
        (some PTP_CNT_INIT) PTP_DP_GETDATA 0 none).calls,
      call.reports_failure sampleCodes →
        (ptp_transaction_new sampleCodes (scripted failingGet) (sampleParams 5 1)
        (some PTP_CNT_INIT) PTP_DP_GETDATA 0 none).ret = call.ret ∧
        (ptp_transaction_new sampleCodes (scripted failingGet) (sampleParams 5 1)
        (some PTP_CNT_INIT) PTP_DP_GETDATA 0 none).calls.getLast? = some call ∧
        ∀ other ∈ (ptp_transaction_new sampleCodes (scripted failingGet) (sampleParams 5 1)
        (some PTP_CNT_INIT) PTP_DP_GETDATA 0 none).calls.dropLast,
          other.ret = sampleCodes.PTP_RC_OK) ∧
    ((∀ call ∈ (ptp_transaction_new sampleCodes (scripted failingGet) (sampleParams 5 1)
        (some PTP_CNT_INIT) PTP_DP_GETDATA 0 none).calls,
        call.ret = sampleCodes.PTP_RC_OK) →
      ∃ resp, (ptp_transaction_new sampleCodes (scripted failingGet) (sampleParams 5 1)
        (some PTP_CNT_INIT) PTP_DP_GETDATA 0 none).ptp = some resp ∧
        (resp.Transaction_ID = (sampleParams 5 1).transaction_id →
          (ptp_transaction_new sampleCodes (scripted failingGet) (sampleParams 5 1)
        (some PTP_CNT_INIT) PTP_DP_GETDATA 0 none).ret = resp.Code)))) ∧
    (sampleCodes.PTP_ERROR_CANCEL ≠ sampleCodes.PTP_RC_OK ∧
     (scripted refusing).KeepsCounter ∧
     (sampleParams 5 1).transaction_id < UINT32_MOD ∧
     (PTP_DP_GETDATA &&& PTP_DP_DATA_MASK = PTP_DP_SENDDATA ∨
       PTP_DP_GETDATA &&& PTP_DP_DATA_MASK = PTP_DP_GETDATA ∨
       PTP_DP_GETDATA &&& PTP_DP_DATA_MASK = PTP_DP_NODATA) ∧
     (∀ call ∈ (ptp_transaction_new sampleCodes (scripted refusing) (sampleParams 5 1)
        (some PTP_CNT_INIT) PTP_DP_GETDATA 0 none).calls,
       call.ret = sampleCodes.PTP_RC_OK) ∧
     (ptp_transaction_new sampleCodes (scripted refusing) (sampleParams 5 1)
        (some PTP_CNT_INIT) PTP_DP_GETDATA 0 none).ret = 0x2005 ∧
    ((∀ call ∈ (ptp_transaction_new sampleCodes (scripted refusing) (sampleParams 5 1)
        (some PTP_CNT_INIT) PTP_DP_GETDATA 0 none).calls,
      call.reports_failure sampleCodes →
        (ptp_transaction_new sampleCodes (scripted refusing) (sampleParams 5 1)
        (some PTP_CNT_INIT) PTP_DP_GETDATA 0 none).ret = call.ret ∧
        (ptp_transaction_new sampleCodes (scripted refusing) (sampleParams 5 1)
        (some PTP_CNT_INIT) PTP_DP_GETDATA 0 none).calls.getLast? = some call ∧
        ∀ other ∈ (ptp_transaction_new sampleCodes (scripted refusing) (sampleParams 5 1)
        (some PTP_CNT_INIT) PTP_DP_GETDATA 0 none).calls.dropLast,
          other.ret = sampleCodes.PTP_RC_OK) ∧
    ((∀ call ∈ (ptp_transaction_new sampleCodes (scripted refusing) (sampleParams 5 1)
        (some PTP_CNT_INIT) PTP_DP_GETDATA 0 none).calls,
        call.ret = sampleCodes.PTP_RC_OK) →
      ∃ resp, (ptp_transaction_new sampleCodes (scripted refusing) (sampleParams 5 1)
        (some PTP_CNT_INIT) PTP_DP_GETDATA 0 none).ptp = some resp ∧
        (resp.Transaction_ID = (sampleParams 5 1).transaction_id →
          (ptp_transaction_new sampleCodes (scripted refusing) (sampleParams 5 1)
        (some PTP_CNT_INIT) PTP_DP_GETDATA 0 none).ret = resp.Code)))) :=
  ⟨⟨by decide, scripted_keepsCounter failingGet, by decide, by decide, by decide, by decide,
    by decide,
    first_failure_is_returned sampleCodes (scripted failingGet) (sampleParams 5 1)
      PTP_CNT_INIT PTP_DP_GETDATA 0 none
      (by decide) (scripted_keepsCounter failingGet) (by decide) (by decide)⟩,
   ⟨by decide, scripted_keepsCounter refusing, by decide, by decide, by decide, by decide,
    first_failure_is_returned sampleCodes (scripted refusing) (sampleParams 5 1)
      PTP_CNT_INIT PTP_DP_GETDATA 0 none
      (by decide) (scripted_keepsCounter refusing) (by decide) (by decide)⟩⟩

/-- C5.  Whatever the session state before (counter, session id, history),
`ptp_opensession (session)` sends its request first, and sends it with the
`OpenSession` code, transaction id 0, session id 0 and first parameter `session`. -/
theorem opensession_request_from_zero {W : Type} (c : PTPCodes) (t : PTPTransport W)
    (params : PTPParams W) (session : Nat) :
    ∃ rs rest, (ptp_opensession c t params session).calls =
      Call.sendreq { Code := c.PTP_OC_OpenSession, SessionID := 0, Transaction_ID := 0,
                     Param1 := session, Param2 := 0, Param3 := 0, Param4 := 0, Param5 := 0,
                     Nparam := 1 } rs :: rest := by
  unfold ptp_opensession
  exact tn_calls_nodata c t _ _ 0 none

/-- C6.  A transaction calls send-request first, then exactly the data callback
selected by the low 8 bits of `flags` (none for `PTP_DP_NODATA`, send-data with
`sendlen` and the given handler for `PTP_DP_SENDDATA`, get-data with the given
handler for `PTP_DP_GETDATA`), then get-response; a failing call ends the sequence;
no callback is called twice; and the cancel request is called only right after a
data callback that returned `PTP_ERROR_CANCEL`. -/
theorem callbacks_in_order {W : Type} (c : PTPCodes) (t : PTPTransport W)
    (params : PTPParams W) (ptp : PTPContainer) (flags sendlen : Nat)
    (handler : Option PTPDataHandler)
    (hne : c.PTP_ERROR_CANCEL ≠ c.PTP_RC_OK) :
    ∃ qd qr x rs rd rc rr,
      (ptp_transaction_new c t params (some ptp) flags sendlen handler).calls
        = expected_calls c flags sendlen handler (request_of params ptp) qd qr x rs rd rc rr ∧
      ((ptp_transaction_new c t params (some ptp) flags sendlen handler).calls.map
        Call.kind).Nodup := by
  suffices h : ∃ qd qr x rs rd rc rr,
      (ptp_transaction_new c t params (some ptp) flags sendlen handler).calls
        = expected_calls c flags sendlen handler (request_of params ptp) qd qr x rs rd rc rr by
    obtain ⟨qd, qr, x, rs, rd, rc, rr, h⟩ := h
    exact ⟨qd, qr, x, rs, rd, rc, rr, h, by rw [h]; exact expected_calls_nodup _ _ _ _ _ _ _ _ _ _ _ _⟩
  have hcases := engine_cases c t params ptp flags sendlen handler
  simp only [] at hcases
  have n1 : ¬ PTP_DP_GETDATA = PTP_DP_SENDDATA := by decide
  have n2 : ¬ PTP_DP_NODATA = PTP_DP_SENDDATA := by decide
  have n3 : ¬ PTP_DP_NODATA = PTP_DP_GETDATA := by decide
  generalize t.sendreq_func (bump params) (request_of params ptp) = S at hcases
  rcases hcases with ⟨hs, -, -, -, -, -, hcalls⟩ | ⟨hs, hf, hr⟩ | ⟨hs, hf, hr⟩ | ⟨hs, hf, hr⟩ |
      ⟨hs, h1, h2, h3, -, -, -, -, -, hcalls⟩
  · exact ⟨ptp, ptp, 0, S.ret, 0, 0, 0, by rw [hcalls, expected_calls, if_pos hs]⟩
  · generalize t.senddata_func S.params S.ptp sendlen handler = d at hr
    obtain ⟨qr, x, rc, rr, h⟩ := afterdata_expected c t hne d
      [Call.sendreq (request_of params ptp) c.PTP_RC_OK, Call.senddata S.ptp sendlen handler d.ret]
    refine ⟨S.ptp, qr, x, c.PTP_RC_OK, d.ret, rc, rr, ?_⟩
    rw [hr, h, expected_calls, if_neg (not_not.mpr rfl), if_pos hf]
    rfl
  · generalize t.getdata_func S.params S.ptp handler = d at hr
    obtain ⟨qr, x, rc, rr, h⟩ := afterdata_expected c t hne d
      [Call.sendreq (request_of params ptp) c.PTP_RC_OK, Call.getdata S.ptp handler d.ret]
    refine ⟨S.ptp, qr, x, c.PTP_RC_OK, d.ret, rc, rr, ?_⟩
    rw [hr, h, expected_calls, if_neg (not_not.mpr rfl), hf, if_neg n1, if_pos rfl]
    rfl
  · refine ⟨ptp, S.ptp, 0, c.PTP_RC_OK, 0, 0, (t.getresp_func S.params S.ptp).ret, ?_⟩
    rw [hr, response_calls, expected_calls, if_neg (not_not.mpr rfl), hf, if_neg n2, if_neg n3,
      if_pos rfl]
    rfl
  · refine ⟨ptp, ptp, 0, c.PTP_RC_OK, 0, 0, 0, ?_⟩
    rw [hcalls, expected_calls, if_neg (not_not.mpr rfl), if_neg h1, if_neg h2, if_neg h3]

/-- Witness for C6: a cancelled get-data phase on a session whose counter is 5. -/
theorem callbacks_in_order_witness :
    sampleCodes.PTP_ERROR_CANCEL ≠ sampleCodes.PTP_RC_OK ∧
    ∃ qd qr x rs rd rc rr,
      (ptp_transaction_new sampleCodes (scripted cancelledGet) (sampleParams 5 1)
          (some PTP_CNT_INIT) PTP_DP_GETDATA 0 none).calls
        = expected_calls sampleCodes PTP_DP_GETDATA 0 none
            (request_of (sampleParams 5 1) PTP_CNT_INIT) qd qr x rs rd rc rr ∧
      ((ptp_transaction_new sampleCodes (scripted cancelledGet) (sampleParams 5 1)
          (some PTP_CNT_INIT) PTP_DP_GETDATA 0 none).calls.map Call.kind).Nodup :=
  ⟨by decide,
   callbacks_in_order sampleCodes (scripted cancelledGet) (sampleParams 5 1)
     PTP_CNT_INIT PTP_DP_GETDATA 0 none (by decide)⟩

/-! ## The claims on the operations -/

/-- C7.  The function `ptp_deleteobject` makes the transport calls of the `DeleteObject`
transaction and no others; if that transaction returns a code other than OK, the
code is returned and the handle set, the object-info array and the property cache
are as before the call; if it returns OK, OK is returned and the cache is the
result of `ptp_remove_object_from_cache` for that handle.  The transport callbacks
leave the cache alone. -/
theorem deleteobject_touches_cache_only_on_success {W : Type} (c : PTPCodes)
    (t : PTPTransport W) (params : PTPParams W) (hk : t.KeepsCache) (z : Bool)
    (handle ofc : Nat) :
    (ptp_deleteobject c t z params handle ofc).calls =
      (ptp_transaction c t params
        (some { PTP_CNT_INIT with Code := c.PTP_OC_DeleteObject, Param1 := handle,
                                  Param2 := ofc, Nparam := 2 })
        PTP_DP_NODATA 0 none).calls ∧
    ((ptp_transaction c t params
        (some { PTP_CNT_INIT with Code := c.PTP_OC_DeleteObject, Param1 := handle,
                                  Param2 := ofc, Nparam := 2 })
        PTP_DP_NODATA 0 none).ret ≠ c.PTP_RC_OK →
      (ptp_deleteobject c t z params handle ofc).ret =
        (ptp_transaction c t params
          (some { PTP_CNT_INIT with Code := c.PTP_OC_DeleteObject, Param1 := handle,
                                    Param2 := ofc, Nparam := 2 })
          PTP_DP_NODATA 0 none).ret ∧
      (ptp_deleteobject c t z params handle ofc).params.cache = params.cache) ∧
    ((ptp_transaction c t params
        (some { PTP_CNT_INIT with Code := c.PTP_OC_DeleteObject, Param1 := handle,
                                  Param2 := ofc, Nparam := 2 })
        PTP_DP_NODATA 0 none).ret = c.PTP_RC_OK →
      (ptp_deleteobject c t z params handle ofc).ret = c.PTP_RC_OK ∧
      (ptp_deleteobject c t z params handle ofc).params.cache =
        (ptp_remove_object_from_cache z params handle).cache) := by
  unfold ptp_deleteobject
  simp only []
  refine ⟨by split_ifs <;> rfl, fun h => ?_, fun h => ?_⟩
  · rw [if_pos h]
    exact ⟨rfl, transaction_cache c t params _ _ hk _ _⟩
  · rw [if_neg (not_not.mpr h)]
    exact ⟨rfl, remove_cache_congr z _ _ handle (transaction_cache c t params _ _ hk _ _)⟩

/-- C8.  When the `GetObjectHandles` transaction is refused with a code `r`
other than OK, `ptp_getobjecthandles (storage, format, parent)` returns OK with zero
handles (`n = 0`, no handle array) if and only if `storage = 0xFFFFFFFF`,
`format = 0` and `parent = 0`; for every other parameter combination it returns `r`
and leaves the caller's handle struct alone. -/
theorem getobjecthandles_refusal {W : Type} (c : PTPCodes) (t : PTPTransport W)
    (params : PTPParams W) (pk : PTPPack W) (storage objectformatcode associationOH : Nat)
    (objecthandles : PTPObjectHandles) (r : Nat)
    (hr : (ptp_transaction c t params
        (some { PTP_CNT_INIT with Code := c.PTP_OC_GetObjectHandles, Param1 := storage,
                                  Param2 := objectformatcode, Param3 := associationOH,
                                  Nparam := 3 })
        PTP_DP_GETDATA 0 none).ret = r)
    (hne : r ≠ c.PTP_RC_OK) :
    (((ptp_getobjecthandles c t pk params storage objectformatcode associationOH
          objecthandles).ret = c.PTP_RC_OK ∧
      (ptp_getobjecthandles c t pk params storage objectformatcode associationOH
          objecthandles).objecthandles = { n := 0, Handler := none }) ↔
      (storage = 0xffffffff ∧ objectformatcode = 0 ∧ associationOH = 0)) ∧
    (¬ (storage = 0xffffffff ∧ objectformatcode = 0 ∧ associationOH = 0) →
      (ptp_getobjecthandles c t pk params storage objectformatcode associationOH
          objecthandles).ret = r ∧
      (ptp_getobjecthandles c t pk params storage objectformatcode associationOH
          objecthandles).objecthandles = objecthandles) := by
  have h1 : ¬ (ptp_transaction c t params
        (some { PTP_CNT_INIT with Code := c.PTP_OC_GetObjectHandles, Param1 := storage,
                                  Param2 := objectformatcode, Param3 := associationOH,
                                  Nparam := 3 })
        PTP_DP_GETDATA 0 none).ret = c.PTP_RC_OK := by rw [hr]; exact hne
  unfold ptp_getobjecthandles
  simp only []
  rw [if_neg h1]
  by_cases hw : storage = 0xffffffff ∧ objectformatcode = 0 ∧ associationOH = 0
  · rw [if_pos hw]
    exact ⟨⟨fun _ => hw, fun _ => ⟨rfl, rfl⟩⟩, fun h => absurd hw h⟩
  · rw [if_neg hw]
    refine ⟨⟨fun h => absurd h.1 h1, fun h => absurd h hw⟩, fun _ => ⟨hr, rfl⟩⟩

/-- Witness for C7: a refused `DeleteObject` on a cache holding handles 7 and 3. -/
theorem deleteobject_touches_cache_only_on_success_witness :
    (scripted refusing).KeepsCache ∧
    ((ptp_deleteobject sampleCodes (scripted refusing) true
        (sampleCache [7, 3] (some [(7, 1), (3, 1)])) 7 0).calls =
      (ptp_transaction sampleCodes (scripted refusing) (sampleCache [7, 3] (some [(7, 1), (3, 1)]))
        (some { PTP_CNT_INIT with Code := sampleCodes.PTP_OC_DeleteObject, Param1 := 7,
                                  Param2 := 0, Nparam := 2 })
        PTP_DP_NODATA 0 none).calls ∧
    ((ptp_transaction sampleCodes (scripted refusing) (sampleCache [7, 3] (some [(7, 1), (3, 1)]))
        (some { PTP_CNT_INIT with Code := sampleCodes.PTP_OC_DeleteObject, Param1 := 7,
                                  Param2 := 0, Nparam := 2 })
        PTP_DP_NODATA 0 none).ret ≠ sampleCodes.PTP_RC_OK →
      (ptp_deleteobject sampleCodes (scripted refusing) true
        (sampleCache [7, 3] (some [(7, 1), (3, 1)])) 7 0).ret =
        (ptp_transaction sampleCodes (scripted refusing)
          (sampleCache [7, 3] (some [(7, 1), (3, 1)]))
          (some { PTP_CNT_INIT with Code := sampleCodes.PTP_OC_DeleteObject, Param1 := 7,
                                    Param2 := 0, Nparam := 2 })
          PTP_DP_NODATA 0 none).ret ∧
      (ptp_deleteobject sampleCodes (scripted refusing) true
        (sampleCache [7, 3] (some [(7, 1), (3, 1)])) 7 0).params.cache
        = (sampleCache [7, 3] (some [(7, 1), (3, 1)])).cache) ∧
    ((ptp_transaction sampleCodes (scripted refusing) (sampleCache [7, 3] (some [(7, 1), (3, 1)]))
        (some { PTP_CNT_INIT with Code := sampleCodes.PTP_OC_DeleteObject, Param1 := 7,
                                  Param2 := 0, Nparam := 2 })
        PTP_DP_NODATA 0 none).ret = sampleCodes.PTP_RC_OK →
      (ptp_deleteobject sampleCodes (scripted refusing) true
        (sampleCache [7, 3] (some [(7, 1), (3, 1)])) 7 0).ret = sampleCodes.PTP_RC_OK ∧
      (ptp_deleteobject sampleCodes (scripted refusing) true
        (sampleCache [7, 3] (some [(7, 1), (3, 1)])) 7 0).params.cache =
        (ptp_remove_object_from_cache true (sampleCache [7, 3] (some [(7, 1), (3, 1)])) 7).cache)) :=
  ⟨scripted_keepsCache refusing,
   deleteobject_touches_cache_only_on_success sampleCodes (scripted refusing)
     (sampleCache [7, 3] (some [(7, 1), (3, 1)])) (scripted_keepsCache refusing) true 7 0⟩

/-- Witness for C8: the all-wildcards query refused with `0x2005`. -/
theorem getobjecthandles_refusal_witness :
    (ptp_transaction sampleCodes (scripted refusing) (sampleParams 0 1)
        (some { PTP_CNT_INIT with Code := sampleCodes.PTP_OC_GetObjectHandles,
                                  Param1 := 0xffffffff, Param2 := 0, Param3 := 0, Nparam := 3 })
        PTP_DP_GETDATA 0 none).ret = 0x2005 ∧
    0x2005 ≠ sampleCodes.PTP_RC_OK ∧
    ((((ptp_getobjecthandles sampleCodes (scripted refusing) samplePack (sampleParams 0 1)
          0xffffffff 0 0 { n := 5, Handler := some [1] }).ret = sampleCodes.PTP_RC_OK ∧
      (ptp_getobjecthandles sampleCodes (scripted refusing) samplePack (sampleParams 0 1)
          0xffffffff 0 0 { n := 5, Handler := some [1] }).objecthandles
          = { n := 0, Handler := none }) ↔
      ((0xffffffff : Nat) = 0xffffffff ∧ (0 : Nat) = 0 ∧ (0 : Nat) = 0)) ∧
    (¬ ((0xffffffff : Nat) = 0xffffffff ∧ (0 : Nat) = 0 ∧ (0 : Nat) = 0) →
      (ptp_getobjecthandles sampleCodes (scripted refusing) samplePack (sampleParams 0 1)
          0xffffffff 0 0 { n := 5, Handler := some [1] }).ret = 0x2005 ∧
      (ptp_getobjecthandles sampleCodes (scripted refusing) samplePack (sampleParams 0 1)
          0xffffffff 0 0 { n := 5, Handler := some [1] }).objecthandles
          = { n := 5, Handler := some [1] })) :=
  ⟨by decide, by decide,
   getobjecthandles_refusal sampleCodes (scripted refusing) (sampleParams 0 1) samplePack
     0xffffffff 0 0 { n := 5, Handler := some [1] } 0x2005 (by decide) (by decide)⟩

/-! ## The claims on the object cache -/

/-- With enough fuel the first loop of `ptp_remove_object_from_cache` does not depend
on the fuel: it leaves through its own condition `i < params->handles.n`. -/
theorem remove_handle_loop_fuel (z : Bool) (handle : Nat) :
    ∀ (fuel fuel2 i : Nat) (handles : PTPObjectHandles) (objectinfo : Option (List PTPObjectInfo)),
      handles.n < i + fuel → handles.n < i + fuel2 →
      remove_handle_loop z handle fuel i handles objectinfo
        = remove_handle_loop z handle fuel2 i handles objectinfo := by
  intro fuel
  induction fuel with
  | zero =>
    intro fuel2 i handles objectinfo h1 _
    cases fuel2 with
    | zero => rfl
    | succ k =>
      have : ¬ i < handles.n := by omega
      simp [remove_handle_loop, this]
  | succ f ih =>
    intro fuel2 i handles objectinfo h1 h2
    cases fuel2 with
    | zero =>
      have : ¬ i < handles.n := by omega
      simp [remove_handle_loop, this]
    | succ k =>
      unfold remove_handle_loop
      by_cases hi : i < handles.n
      · simp only [hi, if_true]
        split_ifs
        · exact ih k (i + 1) _ _ (by simp only []; omega) (by simp only []; omega)
        · exact ih k (i + 1) _ _ (by omega) (by omega)
      · simp only [hi, if_false]

/-- C9, evaluated on the code.  On a cache that already holds handle 7,
`ptp_add_object_to_cache (7)` returns OK and the following
`ptp_remove_object_from_cache (7)` leaves handle 7 in the handle set; on a cache
that holds property entries for handles 7 and 3, after adding 7 (the device reports
one more property of 7) and removing 7, the property cache still holds an entry of
handle 7, and the entry of handle 3 is gone. -/
theorem add_then_remove_leaves_trace :
    (ptp_add_object_to_cache sampleCodes (scripted allOK) samplePack true true true true
        (sampleCache [7] none) 7).ret = sampleCodes.PTP_RC_OK ∧
    (ptp_remove_object_from_cache true
        (ptp_add_object_to_cache sampleCodes (scripted allOK) samplePack true true true true
          (sampleCache [7] none) 7).params 7).handles
      = { n := 1, Handler := some [7] } ∧
    (ptp_add_object_to_cache sampleCodes (scripted oneProperty) samplePack true true true true
        (sampleCache [7, 3] (some [(7, 1), (3, 1)])) 7).ret = sampleCodes.PTP_RC_OK ∧
    (ptp_add_object_to_cache sampleCodes (scripted oneProperty) samplePack true true true true
        (sampleCache [7, 3] (some [(7, 1), (3, 1)])) 7).params.props
      = some [sampleProp (7, 1), sampleProp (3, 1), sampleProp (7, 2)] ∧
    (ptp_remove_object_from_cache true
        (ptp_add_object_to_cache sampleCodes (scripted oneProperty) samplePack true true true true
          (sampleCache [7, 3] (some [(7, 1), (3, 1)])) 7).params 7).props
      = some [sampleProp (7, 2)] := by
  refine ⟨by decide, by decide, by decide, by decide, by decide⟩

/-- C10, evaluated on the code.  On a property cache holding, in this order, an
entry of handle 7, an entry of handle 3 and a second entry of handle 7,
`ptp_remove_object_from_cache (7)` leaves one entry, the second entry of handle 7:
a stale entry of the removed handle stays and the entry of handle 3 is lost. -/
theorem remove_leaves_stale_property :
    (ptp_remove_object_from_cache true
        (sampleCache [7, 3] (some [(7, 1), (3, 1), (7, 2)])) 7).props
      = some [sampleProp (7, 2)] ∧
    (ptp_remove_object_from_cache true
        (sampleCache [7, 3] (some [(7, 1), (3, 1), (7, 2)])) 7).nrofprops = 1 ∧
    (ptp_remove_object_from_cache true
        (sampleCache [7, 3] (some [(7, 1), (3, 1), (7, 2)])) 7).handles
      = { n := 1, Handler := some [3] } := by
  refine ⟨by decide, by decide, by decide⟩

/-! ## Lemmas and claims on the data handlers -/

/-- One push on a receive handler whose cursor stands at the end of its buffer: the
buffer grows by exactly the pushed bytes. -/
theorem memory_putfunc_append (c : PTPCodes) (priv : PTPMemHandlerPrivate) (b : List Nat)
    (hcur : priv.curoff = priv.size) (hlen : (priv.data.getD []).length = priv.size) :
    (memory_putfunc c priv b.length b).ret = c.PTP_RC_OK ∧
    (memory_putfunc c priv b.length b).putlen = some b.length ∧
    ((memory_putfunc c priv b.length b).priv.data.getD []) = priv.data.getD [] ++ b ∧
    (memory_putfunc c priv b.length b).priv.size = priv.size + b.length ∧
    (memory_putfunc c priv b.length b).priv.curoff = priv.size + b.length := by
  unfold memory_putfunc
  by_cases hb : b.length = 0
  · have hb2 : b = [] := List.length_eq_zero.mp hb
    subst hb2
    cases hd : priv.data <;> simp [hcur, memcpy, hd]
  · have hpos : priv.curoff + b.length > priv.size := by omega
    simp only [hpos, if_true]
    refine ⟨trivial, trivial, ?_, by rw [hcur], by rw [hcur]⟩
    have hne : ¬ (priv.curoff + b.length = 0 ∧ false = true) := by simp
    simp only [realloc, hne, if_false, Option.map_some', Option.getD_some, memcpy]
    rw [hlen, hcur, Nat.add_sub_cancel_left]
    have hX : (priv.data.getD [] ++ List.replicate b.length 0).take (priv.size + b.length)
        = priv.data.getD [] ++ List.replicate b.length 0 :=
      List.take_of_length_le (by simp [hlen])
    rw [hX, List.take_left' hlen, List.take_of_length_le (le_refl _),
      List.drop_of_length_le (by simp [hlen])]
    simp

theorem push_all_spec (c : PTPCodes) :
    ∀ (bs : List (List Nat)) (priv : PTPMemHandlerPrivate),
      priv.curoff = priv.size → (priv.data.getD []).length = priv.size →
      (push_all c priv bs).1 = bs.map (fun b => some b.length) ∧
      ((push_all c priv bs).2.data.getD []) = priv.data.getD [] ++ bs.flatten ∧
      (push_all c priv bs).2.size = priv.size + (bs.map List.length).sum := by
  intro bs
  induction bs with
  | nil => intro priv _ _; simp [push_all]
  | cons b bs ih =>
    intro priv hcur hlen
    obtain ⟨-, h2, h3, h4, h5⟩ := memory_putfunc_append c priv b hcur hlen
    obtain ⟨i1, i2, i3⟩ := ih (memory_putfunc c priv b.length b).priv (by rw [h5, h4])
      (by rw [h3, h4]; simp [hlen])
    refine ⟨?_, ?_, ?_⟩
    · simp [push_all, i1, h2]
    · simp only [push_all]
      rw [i2, h3]; simp
    · simp only [push_all]
      rw [i3, h4]; simp [Nat.add_assoc]

/-- One pull on a memory handler whose cursor is inside its buffer. -/
theorem memory_getfunc_spec (c : PTPCodes) (priv : PTPMemHandlerPrivate) (wantlen : Nat)
    (hcur : priv.curoff ≤ priv.size) :
    (memory_getfunc c priv wantlen).ret = c.PTP_RC_OK ∧
    (memory_getfunc c priv wantlen).gotlen = some (min wantlen (priv.size - priv.curoff)) ∧
    (memory_getfunc c priv wantlen).data =
      ((priv.data.getD []).drop priv.curoff).take (min wantlen (priv.size - priv.curoff)) ∧
    (memory_getfunc c priv wantlen).priv =
      { priv with curoff := priv.curoff + min wantlen (priv.size - priv.curoff) } := by
  unfold memory_getfunc
  have hmin : (if priv.curoff + wantlen > priv.size then priv.size - priv.curoff else wantlen)
      = min wantlen (priv.size - priv.curoff) := by
    split_ifs with h
    · rw [Nat.min_eq_right (by omega)]
    · rw [Nat.min_eq_left (by omega)]
  simp only [hmin]
  exact ⟨trivial, trivial, trivial, trivial⟩

theorem pull_all_spec (c : PTPCodes) :
    ∀ (wants : List Nat) (priv : PTPMemHandlerPrivate),
      priv.curoff ≤ priv.size → (priv.data.getD []).length = priv.size →
      (pull_all c priv wants).1.flatten = ((priv.data.getD []).drop priv.curoff).take wants.sum := by
  intro wants
  induction wants with
  | nil => intro priv _ _; simp [pull_all]
  | cons w ws ih =>
    intro priv hcur hlen
    obtain ⟨-, -, h3, h4⟩ := memory_getfunc_spec c priv w hcur
    have hlen2 : ((priv.data.getD []).drop priv.curoff).length = priv.size - priv.curoff := by
      simp [hlen]
    simp only [pull_all, List.flatten_cons, List.sum_cons]
    rw [ih _ (by rw [h4]; simp only []; omega) (by rw [h4]; exact hlen), h3, h4]
    simp only []
    rw [List.take_add, ← List.drop_drop]
    congr 1
    · rw [List.take_eq_take, hlen2]
      exact Nat.min_eq_left (Nat.min_le_right _ _)
    · congr 1
      by_cases hw : w ≤ priv.size - priv.curoff
      · rw [Nat.min_eq_left hw]
      · rw [Nat.min_eq_right (by omega), List.drop_of_length_le (by rw [hlen2]),
          List.drop_of_length_le (by rw [hlen2]; omega)]

/-- C14.  On a memory handler initialised for receiving, every push through
`memory_putfunc` reports all of its bytes written, and after the pushes `b1 .. bn`
`ptp_exit_recv_memory_handler` hands out the bytes `b1 ++ ... ++ bn` in push order
with a reported size equal to the sum of the chunk lengths, which is the length of
the buffer. -/
theorem memory_pushes_concatenate (c : PTPCodes) (bs : List (List Nat)) :
    (push_all c recv_priv bs).1 = bs.map (fun b => some b.length) ∧
    ((ptp_exit_recv_memory_handler
        (some (PTPDataHandler.memory (push_all c recv_priv bs).2))).1.getD []) = bs.flatten ∧
    (ptp_exit_recv_memory_handler
        (some (PTPDataHandler.memory (push_all c recv_priv bs).2))).2
      = (bs.map List.length).sum ∧
    (ptp_exit_recv_memory_handler
        (some (PTPDataHandler.memory (push_all c recv_priv bs).2))).2 = bs.flatten.length := by
  obtain ⟨h1, h2, h3⟩ := push_all_spec c bs recv_priv rfl rfl
  refine ⟨h1, ?_, ?_, ?_⟩
  · simpa [ptp_exit_recv_memory_handler, recv_priv] using h2
  · simpa [ptp_exit_recv_memory_handler, recv_priv] using h3
  · simp only [ptp_exit_recv_memory_handler]
    rw [h3]
    simp [recv_priv, List.length_flatten]

/-- C15.  On a memory handler holding a buffer of length `size` with cursor
`curoff ≤ size`, a pull of `wantlen` bytes through `memory_getfunc` returns OK,
reports `gotlen = min (wantlen, size - curoff)`, delivers the bytes
`data[curoff .. curoff + gotlen)` and advances the cursor by `gotlen`, leaving buffer
and size alone; a pull at `curoff = size` delivers 0 bytes; and successive pulls on
a send handler over a buffer `buf` deliver, put together, the first
`min (sum of the wanted lengths, length buf)` bytes of `buf`. -/
theorem memory_pull_delivers_in_order (c : PTPCodes) (priv : PTPMemHandlerPrivate)
    (wantlen : Nat) (buf : List Nat) (wants : List Nat)
    (hcur : priv.curoff ≤ priv.size) (hlen : (priv.data.getD []).length = priv.size) :
    ((memory_getfunc c priv wantlen).ret = c.PTP_RC_OK ∧
     (memory_getfunc c priv wantlen).gotlen = some (min wantlen (priv.size - priv.curoff)) ∧
     (memory_getfunc c priv wantlen).data =
       ((priv.data.getD []).drop priv.curoff).take (min wantlen (priv.size - priv.curoff)) ∧
     (memory_getfunc c priv wantlen).data.length = min wantlen (priv.size - priv.curoff) ∧
     (memory_getfunc c priv wantlen).priv =
       { priv with curoff := priv.curoff + min wantlen (priv.size - priv.curoff) } ∧
     (priv.curoff = priv.size → (memory_getfunc c priv wantlen).gotlen = some 0)) ∧
    ((pull_all c (send_priv (some buf) buf.length) wants).1.flatten
        = buf.take (min wants.sum buf.length) ∧
     (pull_all c (send_priv (some buf) buf.length) wants).1.flatten.length ≤ buf.length) := by
  obtain ⟨h1, h2, h3, h4⟩ := memory_getfunc_spec c priv wantlen hcur
  have hseq : (pull_all c (send_priv (some buf) buf.length) wants).1.flatten
      = buf.take (min wants.sum buf.length) := by
    rw [pull_all_spec c wants (send_priv (some buf) buf.length) (Nat.zero_le _) rfl]
    simp [send_priv, List.take_eq_take]
  refine ⟨⟨h1, h2, h3, ?_, h4, ?_⟩, hseq, ?_⟩
  · rw [h3, List.length_take, List.length_drop, hlen]
    exact Nat.min_eq_left (Nat.min_le_right _ _)
  · intro he
    rw [h2, he, Nat.sub_self, Nat.min_zero]
  · rw [hseq, List.length_take]
    exact Nat.min_le_right _ _

/-- Witness for C15: a handler over the buffer 1, 2, 3, 4, 5 with the cursor at 3
and a pull of 4 bytes; pulls of 3, 3 and 3 bytes on a send handler over the same
buffer. -/
theorem memory_pull_delivers_in_order_witness :
    (3 : Nat) ≤ 5 ∧ (([1, 2, 3, 4, 5] : List Nat).length = 5) ∧
    (((memory_getfunc sampleCodes { data := some [1, 2, 3, 4, 5], size := 5, curoff := 3 } 4).ret
        = sampleCodes.PTP_RC_OK ∧
     (memory_getfunc sampleCodes { data := some [1, 2, 3, 4, 5], size := 5, curoff := 3 } 4).gotlen
        = some (min 4 (5 - 3)) ∧
     (memory_getfunc sampleCodes { data := some [1, 2, 3, 4, 5], size := 5, curoff := 3 } 4).data
        = (([1, 2, 3, 4, 5] : List Nat).drop 3).take (min 4 (5 - 3)) ∧
     (memory_getfunc sampleCodes { data := some [1, 2, 3, 4, 5], size := 5, curoff := 3 }
        4).data.length = min 4 (5 - 3) ∧
     (memory_getfunc sampleCodes { data := some [1, 2, 3, 4, 5], size := 5, curoff := 3 } 4).priv
        = { data := some [1, 2, 3, 4, 5], size := 5, curoff := 3 + min 4 (5 - 3) } ∧
     ((3 : Nat) = 5 →
       (memory_getfunc sampleCodes { data := some [1, 2, 3, 4, 5], size := 5, curoff := 3 }
         4).gotlen = some 0)) ∧
    ((pull_all sampleCodes (send_priv (some [1, 2, 3, 4, 5]) ([1, 2, 3, 4, 5] : List Nat).length)
        [3, 3, 3]).1.flatten
        = ([1, 2, 3, 4, 5] : List Nat).take (min ([3, 3, 3] : List Nat).sum
            ([1, 2, 3, 4, 5] : List Nat).length) ∧
     (pull_all sampleCodes (send_priv (some [1, 2, 3, 4, 5]) ([1, 2, 3, 4, 5] : List Nat).length)
        [3, 3, 3]).1.flatten.length ≤ ([1, 2, 3, 4, 5] : List Nat).length)) :=
  ⟨by decide, by decide,
   memory_pull_delivers_in_order sampleCodes
     { data := some [1, 2, 3, 4, 5], size := 5, curoff := 3 } 4 [1, 2, 3, 4, 5] [3, 3, 3]
     (by decide) (by decide)⟩

theorem to_int_of_small (n : Nat) (hn : n < 2 ^ 31) : to_int (n : Int) = (n : Int) := by
  unfold to_int
  have h1 : ((n : Int) + 2 ^ 31) % 2 ^ 32 = (n : Int) + 2 ^ 31 := by
    apply Int.emod_eq_of_lt <;> omega
  rw [h1]
  omega

theorem to_ulong_of_small (long_bits n : Nat) (hn : n < 2 ^ 31) (hbits : 31 ≤ long_bits) :
    to_ulong long_bits (n : Int) = n := by
  unfold to_ulong
  have hle : (2 : Nat) ^ 31 ≤ 2 ^ long_bits := Nat.pow_le_pow_right (by norm_num) hbits
  have hlt : n < 2 ^ long_bits := lt_of_lt_of_le hn hle
  have h1 : (n : Int) % 2 ^ long_bits = (n : Int) := by
    apply Int.emod_eq_of_lt
    · omega
    · exact_mod_cast hlt
  rw [h1]
  simp

/-- C16, as amended.  For the stream data handler, when the underlying read or write
transfers `n` bytes, possibly fewer than requested, with `n` below 2^31 (the result
is held in an `int`), the result is OK with the transferred count reported as `n`;
when the underlying call fails (returns `-1`), the result is `PTP_RC_GeneralError`,
a code other than OK, and no count is reported.  An `unsigned long` has at least 31
bits. -/
theorem stream_handler_results (c : PTPCodes) (priv : PTPFDHandlerPrivate)
    (long_bits n : Nat) (bytes : List Nat) (hne : c.PTP_RC_GeneralError ≠ c.PTP_RC_OK)
    (hn : n < 2 ^ 31) (hbits : 31 ≤ long_bits) :
    ((fd_getfunc c priv long_bits (n : Int) bytes).ret = c.PTP_RC_OK ∧
     (fd_getfunc c priv long_bits (n : Int) bytes).gotlen = some n ∧
     (fd_putfunc c priv long_bits (n : Int)).ret = c.PTP_RC_OK ∧
     (fd_putfunc c priv long_bits (n : Int)).putlen = some n) ∧
    ((fd_getfunc c priv long_bits (-1) bytes).ret = c.PTP_RC_GeneralError ∧
     (fd_getfunc c priv long_bits (-1) bytes).ret ≠ c.PTP_RC_OK ∧
     (fd_getfunc c priv long_bits (-1) bytes).gotlen = none ∧
     (fd_putfunc c priv long_bits (-1)).ret = c.PTP_RC_GeneralError ∧
     (fd_putfunc c priv long_bits (-1)).ret ≠ c.PTP_RC_OK ∧
     (fd_putfunc c priv long_bits (-1)).putlen = none) := by
  have h1 : to_int (n : Int) = (n : Int) := to_int_of_small n hn
  have h2 : to_ulong long_bits (n : Int) = n := to_ulong_of_small long_bits n hn hbits
  have h3 : (n : Int) ≠ -1 := by omega
  have h4 : to_int (-1) = -1 := by decide
  refine ⟨?_, ?_⟩
  · simp [fd_getfunc, fd_putfunc, h1, h2, h3]
  · simp [fd_getfunc, fd_putfunc, h4, hne]

/-- Witness for C16, as amended: a short read of 3 bytes and a failed read on
descriptor 4, with an `unsigned long` of 64 bits. -/
theorem stream_handler_results_witness :
    sampleCodes.PTP_RC_GeneralError ≠ sampleCodes.PTP_RC_OK ∧ (3 : Nat) < 2 ^ 31 ∧
    (31 : Nat) ≤ 64 ∧
    (((fd_getfunc sampleCodes { fd := 4 } 64 ((3 : Nat) : Int) [1, 2, 3]).ret
        = sampleCodes.PTP_RC_OK ∧
     (fd_getfunc sampleCodes { fd := 4 } 64 ((3 : Nat) : Int) [1, 2, 3]).gotlen = some 3 ∧
     (fd_putfunc sampleCodes { fd := 4 } 64 ((3 : Nat) : Int)).ret = sampleCodes.PTP_RC_OK ∧
     (fd_putfunc sampleCodes { fd := 4 } 64 ((3 : Nat) : Int)).putlen = some 3) ∧
    ((fd_getfunc sampleCodes { fd := 4 } 64 (-1) [1, 2, 3]).ret
        = sampleCodes.PTP_RC_GeneralError ∧
     (fd_getfunc sampleCodes { fd := 4 } 64 (-1) [1, 2, 3]).ret ≠ sampleCodes.PTP_RC_OK ∧
     (fd_getfunc sampleCodes { fd := 4 } 64 (-1) [1, 2, 3]).gotlen = none ∧
     (fd_putfunc sampleCodes { fd := 4 } 64 (-1)).ret = sampleCodes.PTP_RC_GeneralError ∧
     (fd_putfunc sampleCodes { fd := 4 } 64 (-1)).ret ≠ sampleCodes.PTP_RC_OK ∧
     (fd_putfunc sampleCodes { fd := 4 } 64 (-1)).putlen = none)) :=
  ⟨by decide, by decide, by decide,
   stream_handler_results sampleCodes { fd := 4 } 64 3 [1, 2, 3] (by decide) (by decide)
     (by decide)⟩

/-- C16, counterexample.  A failed read makes `fd_getfunc` return the very code that
a transaction returns when the device reports the response code
`PTP_RC_GeneralError`: the failure code is one of the device-reported response
codes, not a code apart from them. -/
theorem stream_failure_code_counterexample :
    (fd_getfunc sampleCodes { fd := 4 } 64 (-1) []).ret = sampleCodes.PTP_RC_GeneralError ∧
    (ptp_transaction_new sampleCodes (scripted generalError) (sampleParams 0 1)
        (some PTP_CNT_INIT) PTP_DP_NODATA 0 none).exit = TxExit.done ∧
    (ptp_transaction_new sampleCodes (scripted generalError) (sampleParams 0 1)
        (some PTP_CNT_INIT) PTP_DP_NODATA 0 none).ret
      = (fd_getfunc sampleCodes { fd := 4 } 64 (-1) []).ret ∧
    (fd_putfunc sampleCodes { fd := 4 } 64 (-1)).ret
      = (ptp_transaction_new sampleCodes (scripted generalError) (sampleParams 0 1)
          (some PTP_CNT_INIT) PTP_DP_NODATA 0 none).ret := by
  refine ⟨by decide, by decide, by decide, by decide⟩

/-- The count of a transfer passes through an `int`: a transfer of 2^32 - 1 bytes is
taken for the failure `-1`, and a transfer of 2^31 bytes is reported, with an
`unsigned long` of 64 bits, as 2^64 - 2^31 bytes. -/
theorem stream_count_passes_through_int :
    (fd_getfunc sampleCodes { fd := 4 } 64 4294967295 []).ret
      = sampleCodes.PTP_RC_GeneralError ∧
    (fd_putfunc sampleCodes { fd := 4 } 64 4294967295).ret = sampleCodes.PTP_RC_GeneralError ∧
    (fd_getfunc sampleCodes { fd := 4 } 64 2147483648 []).gotlen
      = some (2 ^ 64 - 2 ^ 31) ∧
    (fd_getfunc sampleCodes { fd := 4 } 64 2147483647 []).gotlen = some 2147483647 := by
  refine ⟨by decide, by decide, by decide, by decide⟩

/-! ## The claims on the fault codes -/

section exits
variable {W : Type} (c : PTPCodes) (t : PTPTransport W)

theorem response_exit_ret (p : PTPParams W) (q : PTPContainer) (h : Option PTPDataHandler)
    (calls : List Call) :
    ((ptp_transaction_new_response c t p q h calls).exit = .getrespFailed →
      (ptp_transaction_new_response c t p q h calls).ret ≠ c.PTP_RC_OK) ∧
    ((ptp_transaction_new_response c t p q h calls).exit = .seqMismatch →
      (ptp_transaction_new_response c t p q h calls).ret = c.PTP_ERROR_BADPARAM) ∧
    ((ptp_transaction_new_response c t p q h calls).exit = .done →
      ∃ resp, (ptp_transaction_new_response c t p q h calls).ptp = some resp ∧
        (ptp_transaction_new_response c t p q h calls).ret = resp.Code) ∧
    (ptp_transaction_new_response c t p q h calls).exit ≠ .sendreqFailed ∧
    (ptp_transaction_new_response c t p q h calls).exit ≠ .dataFailed ∧
    (ptp_transaction_new_response c t p q h calls).exit ≠ .nullParam ∧
    (ptp_transaction_new_response c t p q h calls).exit ≠ .badFlags := by
  unfold ptp_transaction_new_response
  simp only []
  split_ifs with h1 h2 <;> simp [h1]

theorem afterdata_exit_ret (d : DataResult W) (calls : List Call) :
    ((ptp_transaction_new_afterdata c t d calls).exit = .getrespFailed →
      (ptp_transaction_new_afterdata c t d calls).ret ≠ c.PTP_RC_OK) ∧
    ((ptp_transaction_new_afterdata c t d calls).exit = .dataFailed →
      (ptp_transaction_new_afterdata c t d calls).ret ≠ c.PTP_RC_OK) ∧
    ((ptp_transaction_new_afterdata c t d calls).exit = .seqMismatch →
      (ptp_transaction_new_afterdata c t d calls).ret = c.PTP_ERROR_BADPARAM) ∧
    ((ptp_transaction_new_afterdata c t d calls).exit = .done →
      ∃ resp, (ptp_transaction_new_afterdata c t d calls).ptp = some resp ∧
        (ptp_transaction_new_afterdata c t d calls).ret = resp.Code) ∧
    (ptp_transaction_new_afterdata c t d calls).exit ≠ .sendreqFailed ∧
    (ptp_transaction_new_afterdata c t d calls).exit ≠ .nullParam ∧
    (ptp_transaction_new_afterdata c t d calls).exit ≠ .badFlags := by
  unfold ptp_transaction_new_afterdata
  simp only []
  split_ifs with h1
  · simp [h1]
  · obtain ⟨r1, r2, r3, r4, r5, r6, r7⟩ := response_exit_ret c t
      (cancel_on_cancel c t d.ret d.params).2.1 d.ptp d.handler
      (calls ++ (cancel_on_cancel c t d.ret d.params).2.2)
    exact ⟨r1, fun h => absurd h r5, r2, r3, r4, r6, r7⟩

/-- What each `return` of `ptp_transaction_new` returns. -/
theorem tn_exit_ret (params : PTPParams W) (ptp : Option PTPContainer) (flags sendlen : Nat)
    (handler : Option PTPDataHandler) :
    (((ptp_transaction_new c t params ptp flags sendlen handler).exit = .sendreqFailed ∨
      (ptp_transaction_new c t params ptp flags sendlen handler).exit = .dataFailed ∨
      (ptp_transaction_new c t params ptp flags sendlen handler).exit = .getrespFailed) →
      (ptp_transaction_new c t params ptp flags sendlen handler).ret ≠ c.PTP_RC_OK) ∧
    (((ptp_transaction_new c t params ptp flags sendlen handler).exit = .seqMismatch ∨
      (ptp_transaction_new c t params ptp flags sendlen handler).exit = .nullParam ∨
      (ptp_transaction_new c t params ptp flags sendlen handler).exit = .badFlags) →
      (ptp_transaction_new c t params ptp flags sendlen handler).ret = c.PTP_ERROR_BADPARAM) ∧
    ((ptp_transaction_new c t params ptp flags sendlen handler).exit = .done →
      ∃ resp, (ptp_transaction_new c t params ptp flags sendlen handler).ptp = some resp ∧
        (ptp_transaction_new c t params ptp flags sendlen handler).ret = resp.Code) := by
  cases ptp with
  | none => simp [ptp_transaction_new]
  | some q =>
    unfold ptp_transaction_new
    simp only []
    split_ifs with h1 h2 h3 h4
    · simp [h1]
    · obtain ⟨r1, r2, r3, r4, r5, r6, r7⟩ := afterdata_exit_ret c t
        (t.senddata_func (t.sendreq_func (bump params) (request_of params q)).params
          (t.sendreq_func (bump params) (request_of params q)).ptp sendlen handler)
        ([Call.sendreq (request_of params q)
            (t.sendreq_func (bump params) (request_of params q)).ret] ++
          [Call.senddata (t.sendreq_func (bump params) (request_of params q)).ptp sendlen handler
            (t.senddata_func (t.sendreq_func (bump params) (request_of params q)).params
              (t.sendreq_func (bump params) (request_of params q)).ptp sendlen handler).ret])
      refine ⟨?_, ?_, r4⟩
      · rintro (h | h | h)
        · exact absurd h r5
        · exact r2 h
        · exact r1 h
      · rintro (h | h | h)
        · exact r3 h
        · exact absurd h r6
        · exact absurd h r7
    · obtain ⟨r1, r2, r3, r4, r5, r6, r7⟩ := afterdata_exit_ret c t
        (t.getdata_func (t.sendreq_func (bump params) (request_of params q)).params
          (t.sendreq_func (bump params) (request_of params q)).ptp handler)
        ([Call.sendreq (request_of params q)
            (t.sendreq_func (bump params) (request_of params q)).ret] ++
          [Call.getdata (t.sendreq_func (bump params) (request_of params q)).ptp handler
            (t.getdata_func (t.sendreq_func (bump params) (request_of params q)).params
              (t.sendreq_func (bump params) (request_of params q)).ptp handler).ret])
      refine ⟨?_, ?_, r4⟩
      · rintro (h | h | h)
        · exact absurd h r5
        · exact r2 h
        · exact r1 h
      · rintro (h | h | h)
        · exact r3 h
        · exact absurd h r6
        · exact absurd h r7
    · obtain ⟨r1, r2, r3, r4, r5, r6, r7⟩ := response_exit_ret c t
        (t.sendreq_func (bump params) (request_of params q)).params
        (t.sendreq_func (bump params) (request_of params q)).ptp handler
        [Call.sendreq (request_of params q)
            (t.sendreq_func (bump params) (request_of params q)).ret]
      refine ⟨?_, ?_, r3⟩
      · rintro (h | h | h)
        · exact absurd h r4
        · exact absurd h r5
        · exact r1 h
      · rintro (h | h | h)
        · exact r2 h
        · exact absurd h r6
        · exact absurd h r7
    · simp

end exits

/-- C19, as amended.  The code `ptp_transaction_new` returns for a transaction-id
mismatch is `PTP_ERROR_BADPARAM`, the same code it returns for a null container and
for an unknown data-direction flag; it differs from OK and from the transport I/O
failure code `PTP_ERROR_IO`; and a device-reported response code is returned as the
device sent it, so it differs from the mismatch code unless the device sends that
very value. -/
theorem sequence_fault_shares_badparam {W : Type} (c : PTPCodes) (t : PTPTransport W)
    (params : PTPParams W) (ptp : Option PTPContainer) (flags sendlen : Nat)
    (handler : Option PTPDataHandler)
    (hok : c.PTP_ERROR_BADPARAM ≠ c.PTP_RC_OK) (hio : c.PTP_ERROR_BADPARAM ≠ c.PTP_ERROR_IO) :
    (((ptp_transaction_new c t params ptp flags sendlen handler).exit = .seqMismatch ∨
      (ptp_transaction_new c t params ptp flags sendlen handler).exit = .nullParam ∨
      (ptp_transaction_new c t params ptp flags sendlen handler).exit = .badFlags) →
      (ptp_transaction_new c t params ptp flags sendlen handler).ret = c.PTP_ERROR_BADPARAM) ∧
    ((ptp_transaction_new c t params ptp flags sendlen handler).exit = .seqMismatch →
      (ptp_transaction_new c t params ptp flags sendlen handler).ret ≠ c.PTP_RC_OK ∧
      (ptp_transaction_new c t params ptp flags sendlen handler).ret ≠ c.PTP_ERROR_IO) ∧
    ((ptp_transaction_new c t params ptp flags sendlen handler).exit = .done →
      ∃ resp, (ptp_transaction_new c t params ptp flags sendlen handler).ptp = some resp ∧
        (ptp_transaction_new c t params ptp flags sendlen handler).ret = resp.Code) := by
  obtain ⟨-, h2, h3⟩ := tn_exit_ret c t params ptp flags sendlen handler
  refine ⟨h2, fun h => ?_, h3⟩
  rw [h2 (Or.inl h)]
  exact ⟨hok, hio⟩

/-- Witness for C19, as amended: a response that carries the wrong transaction id. -/
theorem sequence_fault_shares_badparam_witness :
    sampleCodes.PTP_ERROR_BADPARAM ≠ sampleCodes.PTP_RC_OK ∧
    sampleCodes.PTP_ERROR_BADPARAM ≠ sampleCodes.PTP_ERROR_IO ∧
    ((((ptp_transaction_new sampleCodes (scripted outOfStep) (sampleParams 5 1)
          (some PTP_CNT_INIT) PTP_DP_NODATA 0 none).exit = .seqMismatch ∨
      (ptp_transaction_new sampleCodes (scripted outOfStep) (sampleParams 5 1)
          (some PTP_CNT_INIT) PTP_DP_NODATA 0 none).exit = .nullParam ∨
      (ptp_transaction_new sampleCodes (scripted outOfStep) (sampleParams 5 1)
          (some PTP_CNT_INIT) PTP_DP_NODATA 0 none).exit = .badFlags) →
      (ptp_transaction_new sampleCodes (scripted outOfStep) (sampleParams 5 1)
          (some PTP_CNT_INIT) PTP_DP_NODATA 0 none).ret = sampleCodes.PTP_ERROR_BADPARAM) ∧
    ((ptp_transaction_new sampleCodes (scripted outOfStep) (sampleParams 5 1)
          (some PTP_CNT_INIT) PTP_DP_NODATA 0 none).exit = .seqMismatch →
      (ptp_transaction_new sampleCodes (scripted outOfStep) (sampleParams 5 1)
          (some PTP_CNT_INIT) PTP_DP_NODATA 0 none).ret ≠ sampleCodes.PTP_RC_OK ∧
      (ptp_transaction_new sampleCodes (scripted outOfStep) (sampleParams 5 1)
          (some PTP_CNT_INIT) PTP_DP_NODATA 0 none).ret ≠ sampleCodes.PTP_ERROR_IO) ∧
    ((ptp_transaction_new sampleCodes (scripted outOfStep) (sampleParams 5 1)
          (some PTP_CNT_INIT) PTP_DP_NODATA 0 none).exit = .done →
      ∃ resp, (ptp_transaction_new sampleCodes (scripted outOfStep) (sampleParams 5 1)
          (some PTP_CNT_INIT) PTP_DP_NODATA 0 none).ptp = some resp ∧
        (ptp_transaction_new sampleCodes (scripted outOfStep) (sampleParams 5 1)
          (some PTP_CNT_INIT) PTP_DP_NODATA 0 none).ret = resp.Code)) :=
  ⟨by decide, by decide,
   sequence_fault_shares_badparam sampleCodes (scripted outOfStep) (sampleParams 5 1)
     (some PTP_CNT_INIT) PTP_DP_NODATA 0 none (by decide) (by decide)⟩

/-- C19, counterexample.  A transaction whose response carries the wrong transaction
id, a call with a null container, a call with the unknown data-direction flag 3,
and a transaction whose device reports the response code `0x02FC` all return the
same code: the sequencing fault cannot be told from a bad parameter by its code. -/
theorem sequence_fault_code_counterexample :
    (ptp_transaction_new sampleCodes (scripted outOfStep) (sampleParams 5 1)
        (some PTP_CNT_INIT) PTP_DP_NODATA 0 none).exit = TxExit.seqMismatch ∧
    (ptp_transaction_new sampleCodes (scripted allOK) (sampleParams 5 1)
        none PTP_DP_NODATA 0 none).exit = TxExit.nullParam ∧
    (ptp_transaction_new sampleCodes (scripted allOK) (sampleParams 5 1)
        (some PTP_CNT_INIT) 3 0 none).exit = TxExit.badFlags ∧
    (ptp_transaction_new sampleCodes (scripted badparamResponse) (sampleParams 5 1)
        (some PTP_CNT_INIT) PTP_DP_NODATA 0 none).exit = TxExit.done ∧
    (ptp_transaction_new sampleCodes (scripted outOfStep) (sampleParams 5 1)
        (some PTP_CNT_INIT) PTP_DP_NODATA 0 none).ret
      = (ptp_transaction_new sampleCodes (scripted allOK) (sampleParams 5 1)
          none PTP_DP_NODATA 0 none).ret ∧
    (ptp_transaction_new sampleCodes (scripted outOfStep) (sampleParams 5 1)
        (some PTP_CNT_INIT) PTP_DP_NODATA 0 none).ret
      = (ptp_transaction_new sampleCodes (scripted allOK) (sampleParams 5 1)
          (some PTP_CNT_INIT) 3 0 none).ret ∧
    (ptp_transaction_new sampleCodes (scripted outOfStep) (sampleParams 5 1)
        (some PTP_CNT_INIT) PTP_DP_NODATA 0 none).ret
      = (ptp_transaction_new sampleCodes (scripted badparamResponse) (sampleParams 5 1)
          (some PTP_CNT_INIT) PTP_DP_NODATA 0 none).ret := by
  refine ⟨by decide, by decide, by decide, by decide, by decide, by decide, by decide⟩

theorem transaction_getdata_ret {W : Type} (c : PTPCodes) (t : PTPTransport W)
    (params : PTPParams W) (q : Option PTPContainer) (sendlen : Nat)
    (data : Option (List Nat)) :
    (ptp_transaction c t params q PTP_DP_GETDATA sendlen data).ret =
      (ptp_transaction_new c t params q PTP_DP_GETDATA sendlen
        (some ptp_init_recv_memory_handler)).ret := by
  have h1 : ¬ PTP_DP_GETDATA &&& PTP_DP_DATA_MASK = PTP_DP_SENDDATA := by decide
  have h2 : PTP_DP_GETDATA &&& PTP_DP_DATA_MASK = PTP_DP_GETDATA := by decide
  have h3 : ¬ PTP_DP_GETDATA = PTP_DP_SENDDATA := by decide
  simp [ptp_transaction, h1, h2, h3]

/-- C20, as amended.  When the transaction underneath `ptp_getobjecthandles` ends in
a transport failure, a cancellation or a sequencing fault, `ptp_getobjecthandles`
returns that error, and leaves the caller's handle struct alone, for every
parameter combination other than the all-wildcards query; for the all-wildcards
query (storage `0xFFFFFFFF`, format 0, parent 0) it returns OK with zero handles. -/
theorem getobjecthandles_faults {W : Type} (c : PTPCodes) (t : PTPTransport W)
    (pk : PTPPack W) (params : PTPParams W) (storage objectformatcode associationOH : Nat)
    (objecthandles : PTPObjectHandles) (hbad : c.PTP_ERROR_BADPARAM ≠ c.PTP_RC_OK)
    (hfault : (getobjecthandles_transaction c t params storage objectformatcode
        associationOH).exit.fault = true) :
    (¬ (storage = 0xffffffff ∧ objectformatcode = 0 ∧ associationOH = 0) →
      (ptp_getobjecthandles c t pk params storage objectformatcode associationOH
          objecthandles).ret
        = (getobjecthandles_transaction c t params storage objectformatcode associationOH).ret ∧
      (ptp_getobjecthandles c t pk params storage objectformatcode associationOH
          objecthandles).ret ≠ c.PTP_RC_OK ∧
      (ptp_getobjecthandles c t pk params storage objectformatcode associationOH
          objecthandles).objecthandles = objecthandles) ∧
    ((storage = 0xffffffff ∧ objectformatcode = 0 ∧ associationOH = 0) →
      (ptp_getobjecthandles c t pk params storage objectformatcode associationOH
          objecthandles).ret = c.PTP_RC_OK ∧
      (ptp_getobjecthandles c t pk params storage objectformatcode associationOH
          objecthandles).objecthandles = { n := 0, Handler := none }) := by
  have hret : (getobjecthandles_transaction c t params storage objectformatcode
      associationOH).ret ≠ c.PTP_RC_OK := by
    obtain ⟨h1, h2, -⟩ := tn_exit_ret c t params
      (some { PTP_CNT_INIT with Code := c.PTP_OC_GetObjectHandles, Param1 := storage,
                                Param2 := objectformatcode, Param3 := associationOH,
                                Nparam := 3 })
      PTP_DP_GETDATA 0 (some ptp_init_recv_memory_handler)
    unfold getobjecthandles_transaction at hfault ⊢
    generalize ptp_transaction_new c t params _ PTP_DP_GETDATA 0
      (some ptp_init_recv_memory_handler) = r at h1 h2 hfault ⊢
    cases he : r.exit <;> rw [he] at hfault h1 h2 <;> simp [TxExit.fault] at hfault h1 h2
    · exact h1
    · exact h1
    · exact h1
    · rw [h2]; exact hbad
  have htx : (ptp_transaction c t params
      (some { PTP_CNT_INIT with Code := c.PTP_OC_GetObjectHandles, Param1 := storage,
                                Param2 := objectformatcode, Param3 := associationOH,
                                Nparam := 3 })
      PTP_DP_GETDATA 0 none).ret
      = (getobjecthandles_transaction c t params storage objectformatcode associationOH).ret :=
    transaction_getdata_ret c t params _ 0 none
  unfold ptp_getobjecthandles
  simp only []
  rw [htx, if_neg hret]
  refine ⟨fun hw => ?_, fun hw => ?_⟩
  · rw [if_neg hw]
    exact ⟨rfl, hret, rfl⟩
  · rw [if_pos hw]
    exact ⟨rfl, rfl⟩

/-- Witness for C20, as amended: a send-request that fails with `PTP_ERROR_IO`
underneath a query for storage 1. -/
theorem getobjecthandles_faults_witness :
    sampleCodes.PTP_ERROR_BADPARAM ≠ sampleCodes.PTP_RC_OK ∧
    (getobjecthandles_transaction sampleCodes (scripted ioFailure) (sampleParams 0 1)
        1 0 0).exit.fault = true ∧
    ((¬ ((1 : Nat) = 0xffffffff ∧ (0 : Nat) = 0 ∧ (0 : Nat) = 0) →
      (ptp_getobjecthandles sampleCodes (scripted ioFailure) samplePack (sampleParams 0 1)
          1 0 0 { n := 5, Handler := some [1] }).ret
        = (getobjecthandles_transaction sampleCodes (scripted ioFailure) (sampleParams 0 1)
            1 0 0).ret ∧
      (ptp_getobjecthandles sampleCodes (scripted ioFailure) samplePack (sampleParams 0 1)
          1 0 0 { n := 5, Handler := some [1] }).ret ≠ sampleCodes.PTP_RC_OK ∧
      (ptp_getobjecthandles sampleCodes (scripted ioFailure) samplePack (sampleParams 0 1)
          1 0 0 { n := 5, Handler := some [1] }).objecthandles
        = { n := 5, Handler := some [1] }) ∧
    (((1 : Nat) = 0xffffffff ∧ (0 : Nat) = 0 ∧ (0 : Nat) = 0) →
      (ptp_getobjecthandles sampleCodes (scripted ioFailure) samplePack (sampleParams 0 1)
          1 0 0 { n := 5, Handler := some [1] }).ret = sampleCodes.PTP_RC_OK ∧
      (ptp_getobjecthandles sampleCodes (scripted ioFailure) samplePack (sampleParams 0 1)
          1 0 0 { n := 5, Handler := some [1] }).objecthandles
        = { n := 0, Handler := none })) :=
  ⟨by decide, by decide,
   getobjecthandles_faults sampleCodes (scripted ioFailure) samplePack (sampleParams 0 1)
     1 0 0 { n := 5, Handler := some [1] } (by decide) (by decide)⟩

/-- C20, counterexample.  For the all-wildcards query, a send-request that fails
with `PTP_ERROR_IO`, a get-data phase that the caller cancels and a response with
the wrong transaction id each end the underlying transaction with an error, and
`ptp_getobjecthandles` returns OK with zero handles each time. -/
theorem getobjecthandles_coerces_faults_counterexample :
    ((getobjecthandles_transaction sampleCodes (scripted ioFailure) (sampleParams 0 1)
        0xffffffff 0 0).exit = TxExit.sendreqFailed ∧
     (getobjecthandles_transaction sampleCodes (scripted ioFailure) (sampleParams 0 1)
        0xffffffff 0 0).ret = sampleCodes.PTP_ERROR_IO ∧
     (ptp_getobjecthandles sampleCodes (scripted ioFailure) samplePack (sampleParams 0 1)
        0xffffffff 0 0 { n := 5, Handler := some [1] }).ret = sampleCodes.PTP_RC_OK ∧
     (ptp_getobjecthandles sampleCodes (scripted ioFailure) samplePack (sampleParams 0 1)
        0xffffffff 0 0 { n := 5, Handler := some [1] }).objecthandles
       = { n := 0, Handler := none }) ∧
    ((getobjecthandles_transaction sampleCodes (scripted cancelledGet) (sampleParams 0 1)
        0xffffffff 0 0).ret = sampleCodes.PTP_ERROR_CANCEL ∧
     (ptp_getobjecthandles sampleCodes (scripted cancelledGet) samplePack (sampleParams 0 1)
        0xffffffff 0 0 { n := 5, Handler := some [1] }).ret = sampleCodes.PTP_RC_OK) ∧
    ((getobjecthandles_transaction sampleCodes (scripted outOfStep) (sampleParams 0 1)
        0xffffffff 0 0).exit = TxExit.seqMismatch ∧
     (ptp_getobjecthandles sampleCodes (scripted outOfStep) samplePack (sampleParams 0 1)
        0xffffffff 0 0 { n := 5, Handler := some [1] }).ret = sampleCodes.PTP_RC_OK) := by
  refine ⟨⟨by decide, by decide, by decide, by decide⟩, ⟨by decide, by decide⟩,
    ⟨by decide, by decide⟩⟩

/-! ## Lemmas on the cache operations -/

/-- Moving the tail of an array one cell down over index `i` and shrinking by one
cell removes the cell at `i`. -/
theorem realloc_memmove_erase {α : Type} (z : Bool) (xs : List α) (i n : Nat) (fill : α)
    (hlen : xs.length = n) (hi : i < n) :
    (realloc z (some (memmove xs i (i + 1) (n - i - 1))) (n - 1) fill).getD []
      = xs.take i ++ xs.drop (i + 1) := by
  have hm : memmove xs i (i + 1) (n - i - 1) = xs.take i ++ (xs.drop (i + 1) ++ xs.drop (n - 1)) := by
    unfold memmove
    have h1 : (xs.drop (i + 1)).length ≤ n - i - 1 := by
      rw [List.length_drop, hlen]; omega
    have h2 : i + (n - i - 1) = n - 1 := by omega
    rw [List.take_of_length_le h1, h2]
  have hl : (xs.take i ++ xs.drop (i + 1)).length = n - 1 := by
    simp [hlen]; omega
  unfold realloc
  rw [hm]
  split_ifs with h0
  · simp only [Option.getD_none]
    have : (xs.take i ++ xs.drop (i + 1)).length = 0 := by rw [hl]; exact h0.1
    exact (List.length_eq_zero.mp this).symm
  · simp only [Option.getD_some]
    rw [← List.append_assoc, List.append_assoc _ _ (List.replicate _ _),
      List.take_left' hl]

theorem zip_erase_sublist {α β : Type} (xs : List α) (ys : List β) (i : Nat) :
    ((xs.take i ++ xs.drop (i + 1)).zip (ys.take i ++ ys.drop (i + 1))
      ).Sublist (xs.zip ys) ∨ xs.length ≠ ys.length := by
  by_cases h : xs.length = ys.length
  · left
    rw [List.zip_append (by simp [h])]
    have h1 : (xs.take i).zip (ys.take i) = (xs.zip ys).take i := by
      simp only [List.zip]; rw [List.take_zipWith]
    have h2 : (xs.drop (i + 1)).zip (ys.drop (i + 1)) = (xs.zip ys).drop (i + 1) := by
      simp only [List.zip]; rw [List.drop_zipWith]
    rw [h1, h2, ← List.eraseIdx_eq_take_drop_succ]
    exact List.eraseIdx_sublist _ _
  · right; exact h

/-- The first loop of `ptp_remove_object_from_cache` keeps both arrays as long as the
count and keeps the surviving handles, in order, with their own info records. -/
theorem remove_handle_loop_parallel (z : Bool) (handle : Nat) :
    ∀ (fuel i : Nat) (handles : PTPObjectHandles) (objectinfo : Option (List PTPObjectInfo)),
      (handles.Handler.getD []).length = handles.n →
      (objectinfo.getD []).length = handles.n →
      (((remove_handle_loop z handle fuel i handles objectinfo).1.Handler.getD []).length
          = (remove_handle_loop z handle fuel i handles objectinfo).1.n ∧
       ((remove_handle_loop z handle fuel i handles objectinfo).2.getD []).length
          = (remove_handle_loop z handle fuel i handles objectinfo).1.n ∧
       (((remove_handle_loop z handle fuel i handles objectinfo).1.Handler.getD []).zip
          ((remove_handle_loop z handle fuel i handles objectinfo).2.getD [])).Sublist
          ((handles.Handler.getD []).zip (objectinfo.getD []))) := by
  intro fuel
  induction fuel with
  | zero => intro i handles objectinfo h1 h2; exact ⟨h1, h2, List.Sublist.refl _⟩
  | succ f ih =>
    intro i handles objectinfo h1 h2
    unfold remove_handle_loop
    by_cases hi : i < handles.n
    · simp only [hi, if_true]
      split_ifs with hm
      · have e1 := realloc_memmove_erase z (handles.Handler.getD []) i handles.n 0 h1 hi
        have e2 := realloc_memmove_erase z (objectinfo.getD []) i handles.n PTPObjectInfo.zero h2 hi
        have l1 : ((handles.Handler.getD []).take i ++ (handles.Handler.getD []).drop (i + 1)).length
            = handles.n - 1 := by simp [h1]; omega
        have l2 : ((objectinfo.getD []).take i ++ (objectinfo.getD []).drop (i + 1)).length
            = handles.n - 1 := by simp [h2]; omega
        obtain ⟨r1, r2, r3⟩ := ih (i + 1)
          { n := handles.n - 1,
            Handler := realloc z (some (memmove (handles.Handler.getD []) i (i + 1)
              (handles.n - i - 1))) (handles.n - 1) 0 }
          (realloc z (some (memmove (objectinfo.getD []) i (i + 1) (handles.n - i - 1)))
            (handles.n - 1) PTPObjectInfo.zero)
          (by simp only []; rw [e1]; exact l1) (by simp only []; rw [e2]; exact l2)
        refine ⟨r1, r2, r3.trans ?_⟩
        simp only []
        rw [e1, e2]
        rcases zip_erase_sublist (handles.Handler.getD []) (objectinfo.getD []) i with h | h
        · exact h
        · exact absurd (h1.trans h2.symm) h
      · exact ih (i + 1) handles objectinfo h1 h2
    · simp only [hi, if_false]
      exact ⟨h1, h2, List.Sublist.refl _⟩

/-- Moving the tail of an array down over the block of `cnt` cells at `first` and
shrinking by `cnt` cells removes that block. -/
theorem realloc_memmove_block {α : Type} (z : Bool) (xs : List α) (first cnt n : Nat) (fill : α)
    (hlen : xs.length = n) (hb : first + cnt ≤ n) :
    (realloc z (some (memmove xs first (first + cnt) (n - first - cnt))) (n - cnt) fill).getD []
      = xs.take first ++ xs.drop (first + cnt) := by
  have hm : memmove xs first (first + cnt) (n - first - cnt)
      = xs.take first ++ (xs.drop (first + cnt) ++ xs.drop (n - cnt)) := by
    unfold memmove
    have h1 : (xs.drop (first + cnt)).length ≤ n - first - cnt := by
      rw [List.length_drop, hlen]; omega
    have h2 : first + (n - first - cnt) = n - cnt := by omega
    rw [List.take_of_length_le h1, h2]
  have hl : (xs.take first ++ xs.drop (first + cnt)).length = n - cnt := by
    simp [hlen]; omega
  unfold realloc
  rw [hm]
  split_ifs with h0
  · simp only [Option.getD_none]
    have : (xs.take first ++ xs.drop (first + cnt)).length = 0 := by rw [hl]; exact h0.1
    exact (List.length_eq_zero.mp this).symm
  · simp only [Option.getD_some]
    rw [← List.append_assoc, List.append_assoc _ _ (List.replicate _ _),
      List.take_left' hl]

/-- The block counted by the second loop lies inside the scanned cells. -/
theorem count_oldprops_bound (handle : Nat) :
    ∀ (l : List MTPProperties) (i cnt first : Nat), first + cnt ≤ i →
      (count_oldprops handle l i cnt first).2 + (count_oldprops handle l i cnt first).1
        ≤ i + l.length := by
  intro l
  induction l with
  | nil => intro i cnt first h; simpa [count_oldprops] using h
  | cons e rest ih =>
    intro i cnt first h
    unfold count_oldprops
    split_ifs with hm h1
    · have := ih (i + 1) (cnt + 1) i (by omega)
      simp only [List.length_cons]; omega
    · have := ih (i + 1) (cnt + 1) first (by omega)
      simp only [List.length_cons]; omega
    · have := ih (i + 1) cnt first (by omega)
      simp only [List.length_cons]; omega

/-- Without an entry of the handle the second loop counts nothing. -/
theorem count_oldprops_absent (handle : Nat) :
    ∀ (l : List MTPProperties) (i cnt first : Nat),
      (∀ e ∈ l, e.ObjectHandle ≠ handle) →
      count_oldprops handle l i cnt first = (cnt, first) := by
  intro l
  induction l with
  | nil => intro i cnt first _; rfl
  | cons e rest ih =>
    intro i cnt first h
    unfold count_oldprops
    rw [if_neg (h e (List.mem_cons_self _ _))]
    exact ih (i + 1) cnt first (fun x hx => h x (List.mem_cons_of_mem _ hx))

/-- Without a cell equal to the handle the first loop changes nothing. -/
theorem remove_handle_loop_absent (z : Bool) (handle : Nat) :
    ∀ (fuel i : Nat) (handles : PTPObjectHandles) (objectinfo : Option (List PTPObjectInfo)),
      (handles.Handler.getD []).length = handles.n →
      handle ∉ handles.Handler.getD [] →
      remove_handle_loop z handle fuel i handles objectinfo = (handles, objectinfo) := by
  intro fuel
  induction fuel with
  | zero => intro i handles objectinfo _ _; rfl
  | succ f ih =>
    intro i handles objectinfo h1 h2
    unfold remove_handle_loop
    by_cases hi : i < handles.n
    · have hne : ¬ (handles.Handler.getD []).getD i 0 = handle := by
        rw [List.getD_eq_getElem _ _ (by rw [h1]; exact hi)]
        intro he
        exact h2 (he ▸ List.getElem_mem _)
      simp only [hi, if_true, hne, if_false]
      exact ih (i + 1) handles objectinfo h1 h2
    · simp only [hi, if_false]

/-- The property array that `ptp_remove_object_from_cache` leaves, when there is one
of `nrofprops` cells: the old array without the block of counted size at the first
match. -/
theorem remove_props_block {W : Type} (z : Bool) (p : PTPParams W) (handle : Nat)
    (l : List MTPProperties) (hp : p.props = some l) (hlen : l.length = p.nrofprops) :
    (count_oldprops handle l 0 0 0).2 + (count_oldprops handle l 0 0 0).1 ≤ l.length ∧
    ((ptp_remove_object_from_cache z p handle).props.getD [])
      = l.take (count_oldprops handle l 0 0 0).2 ++
        l.drop ((count_oldprops handle l 0 0 0).2 + (count_oldprops handle l 0 0 0).1) ∧
    (ptp_remove_object_from_cache z p handle).nrofprops
      = p.nrofprops - (count_oldprops handle l 0 0 0).1 := by
  have hb := count_oldprops_bound handle l 0 0 0 (le_refl _)
  rw [Nat.zero_add] at hb
  refine ⟨hb, ?_, ?_⟩
  · unfold ptp_remove_object_from_cache
    simp only [hp]
    rw [← hlen, List.take_length]
    exact realloc_memmove_block z l _ _ l.length _ rfl hb
  · unfold ptp_remove_object_from_cache
    simp only [hp]
    rw [← hlen, List.take_length]

theorem remove_props_none {W : Type} (z : Bool) (p : PTPParams W) (handle : Nat)
    (hp : p.props = none) :
    (ptp_remove_object_from_cache z p handle).props = none ∧
    (ptp_remove_object_from_cache z p handle).nrofprops = p.nrofprops := by
  unfold ptp_remove_object_from_cache
  simp [hp]

theorem remove_arrays {W : Type} (z : Bool) (p : PTPParams W) (handle : Nat) :
    (ptp_remove_object_from_cache z p handle).handles
      = (remove_handle_loop z handle (p.handles.n + 1) 0 p.handles p.objectinfo).1 ∧
    (ptp_remove_object_from_cache z p handle).objectinfo
      = (remove_handle_loop z handle (p.handles.n + 1) 0 p.handles p.objectinfo).2 := by
  unfold ptp_remove_object_from_cache
  simp only []
  cases p.props <;> exact ⟨rfl, rfl⟩

theorem getobjectinfo_cache {W : Type} (c : PTPCodes) (t : PTPTransport W) (pk : PTPPack W)
    (hk : t.KeepsCache) (p : PTPParams W) (handle : Nat) (oi : PTPObjectInfo) :
    (ptp_getobjectinfo c t pk p handle oi).params.cache = p.cache := by
  unfold ptp_getobjectinfo
  simp only []
  split_ifs <;> exact transaction_cache c t p _ _ hk _ _

theorem getobjectproplist_cache {W : Type} (c : PTPCodes) (t : PTPTransport W) (pk : PTPPack W)
    (hk : t.KeepsCache) (p : PTPParams W) (handle : Nat) (props : Option (List MTPProperties))
    (n : Nat) :
    (ptp_mtp_getobjectproplist c t pk p handle props n).params.cache = p.cache := by
  unfold ptp_mtp_getobjectproplist
  simp only []
  split_ifs <;> exact transaction_cache c t p _ _ hk _ _

theorem getobjectproplist_fetched {W : Type} (c : PTPCodes) (t : PTPTransport W) (pk : PTPPack W)
    (p : PTPParams W) (handle : Nat)
    (hok : (ptp_mtp_getobjectproplist c t pk p handle none 0).ret = c.PTP_RC_OK) :
    ∃ pp d len, (ptp_mtp_getobjectproplist c t pk p handle none 0).props
        = (pk.ptp_unpack_OPL pp d len).1 ∧
      (ptp_mtp_getobjectproplist c t pk p handle none 0).nrofprops
        = (pk.ptp_unpack_OPL pp d len).2 := by
  unfold ptp_mtp_getobjectproplist at hok ⊢
  simp only [] at hok ⊢
  split_ifs at hok ⊢ with h
  · exact ⟨_, _, _, rfl, rfl⟩
  · exact absurd hok h

theorem cache_fields {W : Type} (p q : PTPParams W) (h : p.cache = q.cache) :
    p.handles = q.handles ∧ p.objectinfo = q.objectinfo ∧ p.props = q.props ∧
    p.nrofprops = q.nrofprops := by
  simpa [PTPParams.cache] using h

/-- The function `ptp_add_object_to_cache` in its stages, when both array growths
find memory. -/
theorem add_stages {W : Type} (c : PTPCodes) (t : PTPTransport W) (pk : PTPPack W)
    (z m1 m2 m3 : Bool) (p : PTPParams W) (handle : Nat)
    (h1 : ¬ (m1 = false ∨ realloc z p.handles.Handler ((p.handles.n + 1) % UINT32_MOD) 0 = none))
    (h2 : ¬ (m2 = false ∨
      realloc z p.objectinfo ((p.handles.n + 1) % UINT32_MOD) PTPObjectInfo.zero = none)) :
    ptp_add_object_to_cache c t pk z m1 m2 m3 p handle =
      add_proplist c t pk z m3 (add_info c t pk z p handle) handle
        (ptp_getobjectinfo c t pk (add_grown z p handle) handle PTPObjectInfo.zero).calls := by
  unfold ptp_add_object_to_cache
  simp only [h1, h2, if_false]
  rfl

/-- When an array growth of `ptp_add_object_to_cache` finds no memory, the property
array and its count stay as they were. -/
theorem add_growth_failed_props {W : Type} (c : PTPCodes) (t : PTPTransport W) (pk : PTPPack W)
    (z m1 m2 m3 : Bool) (p : PTPParams W) (handle : Nat)
    (h : (m1 = false ∨ realloc z p.handles.Handler ((p.handles.n + 1) % UINT32_MOD) 0 = none) ∨
      (m2 = false ∨
        realloc z p.objectinfo ((p.handles.n + 1) % UINT32_MOD) PTPObjectInfo.zero = none)) :
    (ptp_add_object_to_cache c t pk z m1 m2 m3 p handle).params.props = p.props ∧
    (ptp_add_object_to_cache c t pk z m1 m2 m3 p handle).params.nrofprops = p.nrofprops := by
  unfold ptp_add_object_to_cache
  simp only []
  by_cases h1 : m1 = false ∨ realloc z p.handles.Handler ((p.handles.n + 1) % UINT32_MOD) 0 = none
  · rw [if_pos h1]
    exact ⟨rfl, rfl⟩
  · rw [if_neg h1]
    have h2 := h.resolve_left h1
    rw [if_pos h2]
    exact ⟨rfl, rfl⟩

/-- Growing an array of `n` cells by one cell and storing `x` in the new last cell
appends `x`. -/
theorem realloc_grow_set {α : Type} (z : Bool) (xs : Option (List α)) (n : Nat) (fill x : α)
    (hlen : (xs.getD []).length = n) :
    ((realloc z xs (n + 1) fill).getD []).set (n + 1 - 1) x = xs.getD [] ++ [x] ∧
    realloc z xs (n + 1) fill ≠ none := by
  have h0 : ¬ (n + 1 = 0 ∧ z = true) := by simp
  unfold realloc
  rw [if_neg h0]
  refine ⟨?_, by simp⟩
  simp only [Option.getD_some, hlen, Nat.add_sub_cancel_left, Nat.add_sub_cancel]
  rw [List.take_of_length_le (by simp [hlen])]
  rw [List.set_append_right _ _ (by rw [hlen])]
  simp [hlen]

/-- Growing an array of `n` cells by `k` cells keeps the old cells in front. -/
theorem realloc_grow {α : Type} (z : Bool) (old : List α) (n k : Nat) (fill : α)
    (hlen : old.length = n) (hne : realloc z (some old) (n + k) fill ≠ none) :
    (realloc z (some old) (n + k) fill).getD [] = old ++ List.replicate k fill := by
  unfold realloc at hne ⊢
  split_ifs at hne ⊢ with h0
  · exact absurd rfl hne
  · simp only [Option.getD_some, hlen, Nat.add_sub_cancel_left]
    exact List.take_of_length_le (by simp [hlen])

theorem add_grown_arrays {W : Type} (z : Bool) (p : PTPParams W) (handle : Nat)
    (hwf : p.handles_wf) (hn : p.handles.n + 1 < UINT32_MOD) :
    (add_grown z p handle).handles
      = { n := p.handles.n + 1, Handler := some (p.handles.Handler.getD [] ++ [handle]) } ∧
    (add_grown z p handle).objectinfo = some (p.objectinfo.getD [] ++ [PTPObjectInfo.zero]) ∧
    (add_grown z p handle).props = p.props ∧
    (add_grown z p handle).nrofprops = p.nrofprops := by
  obtain ⟨w1, w2⟩ := hwf
  have hm : (p.handles.n + 1) % UINT32_MOD = p.handles.n + 1 := Nat.mod_eq_of_lt hn
  unfold add_grown
  simp only [hm]
  rw [(realloc_grow_set z p.handles.Handler p.handles.n 0 handle w1).1,
    (realloc_grow_set z p.objectinfo p.handles.n PTPObjectInfo.zero PTPObjectInfo.zero w2).1]
  simp

theorem add_info_arrays {W : Type} (c : PTPCodes) (t : PTPTransport W) (pk : PTPPack W)
    (hk : t.KeepsCache) (z : Bool) (p : PTPParams W) (handle : Nat)
    (hwf : p.handles_wf) (hn : p.handles.n + 1 < UINT32_MOD) :
    (add_info c t pk z p handle).handles
      = { n := p.handles.n + 1, Handler := some (p.handles.Handler.getD [] ++ [handle]) } ∧
    (add_info c t pk z p handle).objectinfo = some (p.objectinfo.getD [] ++
      [(ptp_getobjectinfo c t pk (add_grown z p handle) handle PTPObjectInfo.zero).objectinfo]) := by
  obtain ⟨g1, g2, -, -⟩ := add_grown_arrays z p handle hwf hn
  obtain ⟨c1, c2, -, -⟩ := cache_fields _ _
    (getobjectinfo_cache c t pk hk (add_grown z p handle) handle PTPObjectInfo.zero)
  have hm : (p.handles.n + 1) % UINT32_MOD = p.handles.n + 1 := Nat.mod_eq_of_lt hn
  unfold add_info
  simp only [hm]
  rw [c1, c2, g1, g2]
  refine ⟨rfl, ?_⟩
  simp only [Option.map_some', Nat.add_sub_cancel]
  rw [List.set_append_right _ _ (by rw [hwf.2])]
  simp [hwf.2]

theorem add_info_props {W : Type} (c : PTPCodes) (t : PTPTransport W) (pk : PTPPack W)
    (hk : t.KeepsCache) (z : Bool) (p : PTPParams W) (handle : Nat) :
    (add_info c t pk z p handle).props = p.props ∧
    (add_info c t pk z p handle).nrofprops = p.nrofprops := by
  obtain ⟨-, -, c3, c4⟩ := cache_fields _ _
    (getobjectinfo_cache c t pk hk (add_grown z p handle) handle PTPObjectInfo.zero)
  unfold add_info
  simp only []
  rw [c3, c4]
  exact ⟨rfl, rfl⟩

theorem add_proplist_arrays {W : Type} (c : PTPCodes) (t : PTPTransport W) (pk : PTPPack W)
    (hk : t.KeepsCache) (z m3 : Bool) (p4 : PTPParams W) (handle : Nat) (calls : List Call) :
    (add_proplist c t pk z m3 p4 handle calls).params.handles = p4.handles ∧
    (add_proplist c t pk z m3 p4 handle calls).params.objectinfo = p4.objectinfo := by
  unfold add_proplist
  cases hp : p4.props with
  | none => simp [hp]
  | some old =>
    simp only []
    obtain ⟨c1, c2, -, -⟩ := cache_fields _ _
      (getobjectproplist_cache c t pk hk p4 handle none 0)
    split_ifs <;> exact ⟨c1, c2⟩

/-- What `add_proplist` leaves of the property array: it is untouched, or, when the
fetch and the growth succeeded, it is the old array with the first `nrofprops`
fetched entries appended. -/
theorem add_proplist_outcome {W : Type} (c : PTPCodes) (t : PTPTransport W) (pk : PTPPack W)
    (hk : t.KeepsCache) (z m3 : Bool) (p4 : PTPParams W) (handle : Nat) (calls : List Call)
    (hwf : p4.props_wf) :
    ((add_proplist c t pk z m3 p4 handle calls).params.props = p4.props ∧
      (add_proplist c t pk z m3 p4 handle calls).params.nrofprops = p4.nrofprops) ∨
    ((add_proplist c t pk z m3 p4 handle calls).ret = c.PTP_RC_OK ∧
      (ptp_mtp_getobjectproplist c t pk p4 handle none 0).ret = c.PTP_RC_OK ∧
      (add_proplist c t pk z m3 p4 handle calls).params.props
        = some (p4.props.getD [] ++
            ((ptp_mtp_getobjectproplist c t pk p4 handle none 0).props.getD []).take
              (ptp_mtp_getobjectproplist c t pk p4 handle none 0).nrofprops) ∧
      (add_proplist c t pk z m3 p4 handle calls).params.nrofprops
        = p4.nrofprops + (ptp_mtp_getobjectproplist c t pk p4 handle none 0).nrofprops) := by
  unfold add_proplist
  cases hp : p4.props with
  | none => simp [hp]
  | some old =>
    simp only []
    obtain ⟨-, -, c3, c4⟩ := cache_fields _ _
      (getobjectproplist_cache c t pk hk p4 handle none 0)
    have hold : old.length = p4.nrofprops := by
      simpa [PTPParams.props_wf, hp] using hwf
    split_ifs with h1 h2
    · exact Or.inl ⟨c3.trans hp, c4⟩
    · exact Or.inl ⟨c3.trans hp, c4⟩
    · refine Or.inr ⟨rfl, not_not.mp h1, ?_, ?_⟩
      · simp only []
        have hx : realloc z (some old) (p4.nrofprops +
            (ptp_mtp_getobjectproplist c t pk p4 handle none 0).nrofprops)
            { property := 0, datatype := 0, ObjectHandle := 0, propval := [] } ≠ none := by
          intro hn
          apply h2
          right
          rw [c3, c4, hp]
          exact hn
        rw [c3, c4, hp, realloc_grow z old p4.nrofprops _ _ hold hx, List.take_left' hold,
          List.drop_of_length_le (by simp [hold])]
        simp
      · simp only []
        rw [c4]

/-! ## The claims on the cache invariants -/

/-- C11, as amended.  On a cache whose two arrays hold `handles.n` cells each:
after `ptp_remove_object_from_cache (h)` both arrays again hold `handles.n` cells
each, and the surviving handles are, in their original order, paired with the info
records they were paired with before; after a `ptp_add_object_to_cache (h)` whose two
array growths find memory both arrays have grown by one cell, the earlier pairs are
unchanged and the new last pair holds `h`.  The transport callbacks leave the cache
alone and the count stays below `2^32`. -/
theorem arrays_stay_parallel {W : Type} (c : PTPCodes) (t : PTPTransport W) (pk : PTPPack W)
    (z memProps : Bool) (p : PTPParams W) (handle : Nat)
    (hk : t.KeepsCache) (hwf : p.handles_wf) (hn : p.handles.n + 1 < UINT32_MOD) :
    ((ptp_remove_object_from_cache z p handle).handles_wf ∧
     (ptp_remove_object_from_cache z p handle).pairs.Sublist p.pairs) ∧
    ((ptp_add_object_to_cache c t pk z true true memProps p handle).params.handles_wf ∧
     (ptp_add_object_to_cache c t pk z true true memProps p handle).params.handles.n
       = p.handles.n + 1 ∧
     ∃ oi, (ptp_add_object_to_cache c t pk z true true memProps p handle).params.pairs
       = p.pairs ++ [(handle, oi)]) := by
  constructor
  · obtain ⟨a1, a2⟩ := remove_arrays z p handle
    obtain ⟨r1, r2, r3⟩ := remove_handle_loop_parallel z handle (p.handles.n + 1) 0
      p.handles p.objectinfo hwf.1 hwf.2
    unfold PTPParams.handles_wf PTPParams.pairs
    rw [a1, a2]
    exact ⟨⟨r1, r2⟩, r3⟩
  · have hm : (p.handles.n + 1) % UINT32_MOD = p.handles.n + 1 := Nat.mod_eq_of_lt hn
    have h1 : ¬ (true = false ∨
        realloc z p.handles.Handler ((p.handles.n + 1) % UINT32_MOD) 0 = none) := by
      rw [hm]
      simpa using (realloc_grow_set z p.handles.Handler p.handles.n 0 0 hwf.1).2
    have h2 : ¬ (true = false ∨
        realloc z p.objectinfo ((p.handles.n + 1) % UINT32_MOD) PTPObjectInfo.zero = none) := by
      rw [hm]
      simpa using (realloc_grow_set z p.objectinfo p.handles.n PTPObjectInfo.zero
        PTPObjectInfo.zero hwf.2).2
    rw [add_stages c t pk z true true memProps p handle h1 h2]
    obtain ⟨q1, q2⟩ := add_proplist_arrays c t pk hk z memProps (add_info c t pk z p handle)
      handle (ptp_getobjectinfo c t pk (add_grown z p handle) handle PTPObjectInfo.zero).calls
    obtain ⟨i1, i2⟩ := add_info_arrays c t pk hk z p handle hwf hn
    unfold PTPParams.handles_wf PTPParams.pairs
    rw [q1, q2, i1, i2]
    refine ⟨⟨by simp [hwf.1], by simp [hwf.2]⟩, rfl,
      (ptp_getobjectinfo c t pk (add_grown z p handle) handle PTPObjectInfo.zero).objectinfo, ?_⟩
    simp only [Option.getD_some]
    rw [List.zip_append (by rw [hwf.1, hwf.2])]
    rfl

/-- Witness for C11, as amended: handle 7 removed from, and added to, a cache that
holds handles 7 and 3. -/
theorem arrays_stay_parallel_witness :
    (scripted allOK).KeepsCache ∧ (sampleCache [7, 3] none).handles_wf ∧
    (sampleCache [7, 3] none).handles.n + 1 < UINT32_MOD ∧
    (((ptp_remove_object_from_cache true (sampleCache [7, 3] none) 7).handles_wf ∧
     (ptp_remove_object_from_cache true (sampleCache [7, 3] none) 7).pairs.Sublist
       (sampleCache [7, 3] none).pairs) ∧
    ((ptp_add_object_to_cache sampleCodes (scripted allOK) samplePack true true true true
        (sampleCache [7, 3] none) 7).params.handles_wf ∧
     (ptp_add_object_to_cache sampleCodes (scripted allOK) samplePack true true true true
        (sampleCache [7, 3] none) 7).params.handles.n = (sampleCache [7, 3] none).handles.n + 1 ∧
     ∃ oi, (ptp_add_object_to_cache sampleCodes (scripted allOK) samplePack true true true true
        (sampleCache [7, 3] none) 7).params.pairs
       = (sampleCache [7, 3] none).pairs ++ [(7, oi)])) :=
  ⟨scripted_keepsCache allOK, by decide, by decide,
   arrays_stay_parallel sampleCodes (scripted allOK) samplePack true true
     (sampleCache [7, 3] none) 7 (scripted_keepsCache allOK) (by decide) (by decide)⟩

/-- C11, counterexample.  When the second array growth of
`ptp_add_object_to_cache (7)` finds no memory, on a cache that holds handle 3, the
call returns `PTP_ERROR_IO` with the count at 2, two cells in the handle array and
one cell in the object-info array: the two arrays have not both grown by one. -/
theorem add_growth_failure_counterexample :
    (ptp_add_object_to_cache sampleCodes (scripted allOK) samplePack true true false true
        (sampleCache [3] none) 7).ret = sampleCodes.PTP_ERROR_IO ∧
    (ptp_add_object_to_cache sampleCodes (scripted allOK) samplePack true true false true
        (sampleCache [3] none) 7).params.handles = { n := 2, Handler := some [3, 7] } ∧
    (ptp_add_object_to_cache sampleCodes (scripted allOK) samplePack true true false true
        (sampleCache [3] none) 7).params.objectinfo = some [sampleInfo 3] ∧
    ¬ (ptp_add_object_to_cache sampleCodes (scripted allOK) samplePack true true false true
        (sampleCache [3] none) 7).params.handles_wf := by
  refine ⟨by decide, by decide, by decide, by decide⟩

/-- What `ptp_remove_object_from_cache (h)` does when handle `h` occurs neither in the
handle array nor as the `ObjectHandle` of a property entry: the handle set, the
object-info array, the counts and the entries of the property array are as they
were, and every other field of the session too; the property array itself is the
same, except that an array of zero entries is handed back as a null pointer where
`realloc (p, 0)` returns one. -/
theorem remove_absent_is_noop {W : Type} (z : Bool) (p : PTPParams W) (handle : Nat)
    (hlen : (p.handles.Handler.getD []).length = p.handles.n) (hpw : p.props_wf)
    (hh : handle ∉ p.handles.Handler.getD [])
    (hp : ∀ e ∈ p.props.getD [], e.ObjectHandle ≠ handle) :
    ptp_remove_object_from_cache z p handle
      = { p with props := if p.nrofprops = 0 ∧ z = true then none else p.props } ∧
    (ptp_remove_object_from_cache z p handle).handles = p.handles ∧
    (ptp_remove_object_from_cache z p handle).objectinfo = p.objectinfo ∧
    (ptp_remove_object_from_cache z p handle).nrofprops = p.nrofprops ∧
    (ptp_remove_object_from_cache z p handle).props.getD [] = p.props.getD [] ∧
    (¬ (p.nrofprops = 0 ∧ z = true) →
      (ptp_remove_object_from_cache z p handle).props = p.props) := by
  have hmain : ptp_remove_object_from_cache z p handle
      = { p with props := if p.nrofprops = 0 ∧ z = true then none else p.props } := by
    unfold ptp_remove_object_from_cache
    simp only [remove_handle_loop_absent z handle (p.handles.n + 1) 0 p.handles p.objectinfo
      hlen hh]
    cases hprops : p.props with
    | none => simp
    | some l =>
      have hl : l.length = p.nrofprops := by simpa [PTPParams.props_wf, hprops] using hpw
      have hc : count_oldprops handle (l.take p.nrofprops) 0 0 0 = (0, 0) :=
        count_oldprops_absent handle _ 0 0 0
          (fun e he => hp e (by rw [hprops]; exact List.mem_of_mem_take he))
      simp only [hc]
      have hmv : memmove l 0 (0 + 0) (p.nrofprops - 0 - 0) = l := by
        simp [memmove, ← hl]
      rw [hmv]
      simp only [realloc, Nat.sub_zero, Option.getD_some, hl, Nat.sub_self, List.replicate_zero,
        List.append_nil]
      rw [← hl, List.take_length]
  rw [hmain]
  refine ⟨rfl, rfl, rfl, rfl, ?_, fun h => ?_⟩
  · simp only []
    split_ifs with h0
    · cases hprops : p.props with
      | none => rfl
      | some l =>
        have hl : l.length = 0 := by
          have := hpw
          simp only [PTPParams.props_wf, hprops, Option.map_some', Option.getD_some] at this
          rw [this]; exact h0.1
        simp [List.length_eq_zero.mp hl]
    · rfl
  · simp only []
    rw [if_neg h]

/-- C12, failing input.  The cache holds handle 3 and a property array of no
entries, and `realloc (p, 0)` returns the null pointer.  Handle 9 occurs neither in
the handle set nor in the property array, and still
`ptp_remove_object_from_cache (9)` leaves a session that differs from the one before:
the property array is null, so the property cache is gone.  A later
`ptp_add_object_to_cache (7)` then makes 3 transport calls where it made 6 before,
as it no longer fetches the property list.  Where `realloc (p, 0)` does not return
the null pointer the session is as before. -/
theorem remove_absent_drops_empty_property_array :
    (9 ∉ (sampleCache [3] (some [])).handles.Handler.getD [] ∧
     (∀ e ∈ (sampleCache [3] (some [])).props.getD [], e.ObjectHandle ≠ 9) ∧
     (sampleCache [3] (some [])).props = some [] ∧
     (sampleCache [3] (some [])).nrofprops = 0) ∧
    ((ptp_remove_object_from_cache true (sampleCache [3] (some [])) 9).props = none ∧
     ptp_remove_object_from_cache true (sampleCache [3] (some [])) 9
       ≠ sampleCache [3] (some [])) ∧
    ((ptp_add_object_to_cache sampleCodes (scripted oneProperty) samplePack true true true true
        (sampleCache [3] (some [])) 7).calls.length = 6 ∧
     (ptp_add_object_to_cache sampleCodes (scripted oneProperty) samplePack true true true true
        (ptp_remove_object_from_cache true (sampleCache [3] (some [])) 9) 7).calls.length = 3 ∧
     (ptp_add_object_to_cache sampleCodes (scripted oneProperty) samplePack true true true true
        (sampleCache [3] (some [])) 7).params.nrofprops = 1 ∧
     (ptp_add_object_to_cache sampleCodes (scripted oneProperty) samplePack true true true true
        (ptp_remove_object_from_cache true (sampleCache [3] (some [])) 9) 7).params.nrofprops
       = 0) ∧
    ptp_remove_object_from_cache false (sampleCache [3] (some [])) 9
      = sampleCache [3] (some []) := by
  refine ⟨⟨by decide, by decide, by decide, by decide⟩, ⟨by decide, by decide⟩,
    ⟨by decide, by decide, by decide, by decide⟩, by decide⟩

theorem take_append_drop_sublist {α : Type} (l : List α) (a b : Nat) :
    (l.take a ++ l.drop (a + b)).Sublist l := by
  have h : (l.take a ++ l.drop (a + b)).Sublist (l.take a ++ l.drop a) := by
    apply List.Sublist.append_left
    rw [← List.drop_drop]
    exact List.drop_sublist _ _
  rwa [List.take_append_drop] at h

/-- C13, as amended.  If the property array holds at most one entry per
(object handle, property code) pair, it still does after
`ptp_remove_object_from_cache (h)`; and it still does after
`ptp_add_object_to_cache (h)` if the entries that the device returns for `h`,
put after the entries already held, repeat no pair. -/
theorem props_stay_unique {W : Type} (c : PTPCodes) (t : PTPTransport W) (pk : PTPPack W)
    (z m1 m2 m3 : Bool) (p : PTPParams W) (handle : Nat)
    (hk : t.KeepsCache) (hpw : p.props_wf)
    (hu : (prop_keys (p.props.getD [])).Nodup)
    (hfresh : (prop_keys (p.props.getD [] ++
        ((ptp_mtp_getobjectproplist c t pk (add_info c t pk z p handle) handle none 0).props.getD
          []).take
          (ptp_mtp_getobjectproplist c t pk (add_info c t pk z p handle) handle none
            0).nrofprops)).Nodup) :
    (prop_keys ((ptp_remove_object_from_cache z p handle).props.getD [])).Nodup ∧
    (prop_keys ((ptp_add_object_to_cache c t pk z m1 m2 m3 p handle).params.props.getD
      [])).Nodup := by
  constructor
  · cases hprops : p.props with
    | none =>
      rw [(remove_props_none z p handle hprops).1]
      simp [prop_keys]
    | some l =>
      have hl : l.length = p.nrofprops := by simpa [PTPParams.props_wf, hprops] using hpw
      rw [(remove_props_block z p handle l hprops hl).2.1]
      rw [hprops] at hu
      exact List.Nodup.sublist ((take_append_drop_sublist l _ _).map _) hu
  · by_cases h1 : (m1 = false ∨
        realloc z p.handles.Handler ((p.handles.n + 1) % UINT32_MOD) 0 = none)
    · rw [(add_growth_failed_props c t pk z m1 m2 m3 p handle (Or.inl h1)).1]
      exact hu
    · by_cases h2 : (m2 = false ∨
          realloc z p.objectinfo ((p.handles.n + 1) % UINT32_MOD) PTPObjectInfo.zero = none)
      · rw [(add_growth_failed_props c t pk z m1 m2 m3 p handle (Or.inr h2)).1]
        exact hu
      · rw [add_stages c t pk z m1 m2 m3 p handle h1 h2]
        have hi := add_info_props c t pk hk z p handle
        have hwf4 : (add_info c t pk z p handle).props_wf := by
          unfold PTPParams.props_wf
          rw [hi.1, hi.2]
          exact hpw
        rcases add_proplist_outcome c t pk hk z m3 (add_info c t pk z p handle) handle
            (ptp_getobjectinfo c t pk (add_grown z p handle) handle PTPObjectInfo.zero).calls
            hwf4 with h | h
        · rw [h.1, hi.1]
          exact hu
        · rw [h.2.2.1, hi.1]
          exact hfresh

/-- Witness for C13, as amended: a cache that holds property 1 of handle 7 and
property 1 of handle 3; the device returns property 2 for handle 7. -/
theorem props_stay_unique_witness :
    (scripted oneProperty).KeepsCache ∧
    (sampleCache [7, 3] (some [(7, 1), (3, 1)])).props_wf ∧
    (prop_keys ((sampleCache [7, 3] (some [(7, 1), (3, 1)])).props.getD [])).Nodup ∧
    (prop_keys ((sampleCache [7, 3] (some [(7, 1), (3, 1)])).props.getD [] ++
        ((ptp_mtp_getobjectproplist sampleCodes (scripted oneProperty) samplePack
            (add_info sampleCodes (scripted oneProperty) samplePack true
              (sampleCache [7, 3] (some [(7, 1), (3, 1)])) 7) 7 none 0).props.getD []).take
          (ptp_mtp_getobjectproplist sampleCodes (scripted oneProperty) samplePack
            (add_info sampleCodes (scripted oneProperty) samplePack true
              (sampleCache [7, 3] (some [(7, 1), (3, 1)])) 7) 7 none 0).nrofprops)).Nodup ∧
    ((prop_keys ((ptp_remove_object_from_cache true
        (sampleCache [7, 3] (some [(7, 1), (3, 1)])) 7).props.getD [])).Nodup ∧
     (prop_keys ((ptp_add_object_to_cache sampleCodes (scripted oneProperty) samplePack
        true true true true (sampleCache [7, 3] (some [(7, 1), (3, 1)])) 7).params.props.getD
        [])).Nodup) :=
  ⟨scripted_keepsCache oneProperty, by decide, by decide, by decide,
   props_stay_unique sampleCodes (scripted oneProperty) samplePack true true true true
     (sampleCache [7, 3] (some [(7, 1), (3, 1)])) 7 (scripted_keepsCache oneProperty)
     (by decide) (by decide) (by decide)⟩

/-- C13, counterexample.  The cache holds one entry, property 2 of handle 7, and the
device returns property 2 for handle 7: after `ptp_add_object_to_cache (7)`, which
returns OK, the property array holds the pair (7, 2) twice. -/
theorem add_repeats_property_counterexample :
    (prop_keys ((sampleCache [7] (some [(7, 2)])).props.getD [])).Nodup ∧
    (ptp_add_object_to_cache sampleCodes (scripted oneProperty) samplePack true true true true
        (sampleCache [7] (some [(7, 2)])) 7).ret = sampleCodes.PTP_RC_OK ∧
    prop_keys ((ptp_add_object_to_cache sampleCodes (scripted oneProperty) samplePack
        true true true true (sampleCache [7] (some [(7, 2)])) 7).params.props.getD [])
      = [(7, 2), (7, 2)] ∧
    ¬ (prop_keys ((ptp_add_object_to_cache sampleCodes (scripted oneProperty) samplePack
        true true true true (sampleCache [7] (some [(7, 2)])) 7).params.props.getD [])).Nodup := by
  refine ⟨by decide, by decide, by decide, by decide⟩

/-! ## The claims on the decoding of received blocks -/

/-- On a well-formed block of one profile the model of `ptp_nikon_getwifiprofilelist`
returns OK and stores the profile. -/
theorem getwifiprofilelist_sample :
    (ptp_nikon_getwifiprofilelist sampleCodes (scripted wifiOneProfile) sampleWire
      (sampleParams 0 1)).bind
        (fun r => .done (r.ret, r.params.wifi_profiles_number, r.params.wifi_profiles))
      = .done (sampleCodes.PTP_RC_OK, 1,
          some [{ id := 5, valid := 1, profile_name := [97, 98], display_order := 1,
                  device_type := 2, icon_type := 3, creation_date := [],
                  lastusage_date := [], essid := [110] }]) := by
  decide

/-- C17, failing input.  The device answers GetTreeSize with the four-byte block
`01 00 00 00`, which declares one entry and holds none: `ptp_canon_gettreesize` goes
on to read the object id of the entry at offset 4, the length of the block.  On a
block of one byte it reads past the block already for the count, at offset 1.  In
neither case does it report a decode failure. -/
theorem gettreesize_reads_past_block :
    treeWithoutEntries.received.length = 4 ∧
    (ptp_canon_gettreesize sampleCodes (scripted treeWithoutEntries) sampleWire
      (sampleParams 0 1) none 0).fault = some 4 ∧
    (ptp_canon_gettreesize sampleCodes (scripted { allOK with received := [7] }) sampleWire
      (sampleParams 0 1) none 0).fault = some 1 := by
  refine ⟨by decide, by decide, by decide⟩

/-- C18, failing input.  The device answers GetProfileAllData with a block of 13
bytes that holds one profile whose declared profile-name length is 0xFFFFFFF4 and
whose bytes from offset 8 on are the five letters ABCDE.  The check
`pos + n + 4 >= size` is computed in 32 bits, 8 + 0xFFFFFFF4 + 4 = 0, so it lets the
record pass, and `strncpy (profile_name, &data[8], n)` copies the five letters and
then reads the byte at offset 13, the length of the block: `PTP_RC_Undefined` is not
returned.  When the five bytes are zero instead, the same call stops reading at
offset 8 and writes 0xFFFFFFF4 zero bytes over the 17 bytes of `profile_name`. -/
theorem getwifiprofilelist_length_wraps :
    wifiLongName.received.length = 13 ∧
    (8 + 0xFFFFFFF4 + 4) % UINT32_MOD = 0 ∧
    (ptp_nikon_getwifiprofilelist sampleCodes (scripted wifiLongName) sampleWire
      (sampleParams 0 1)).fault = some 13 ∧
    (ptp_nikon_getwifiprofilelist sampleCodes (scripted wifiLongName) sampleWire
      (sampleParams 0 1)).ret ≠ some sampleCodes.PTP_RC_Undefined ∧
    (ptp_nikon_getwifiprofilelist sampleCodes (scripted wifiLongEmptyName) sampleWire
      (sampleParams 0 1)).overflow = some 17 ∧
    (ptp_nikon_getwifiprofilelist sampleCodes (scripted wifiLongEmptyName) sampleWire
      (sampleParams 0 1)).ret ≠ some sampleCodes.PTP_RC_Undefined := by
  refine ⟨by decide, by decide, by decide, by decide, by decide, by decide⟩

/-- The call `strncpy (dst, src, n)` on small inputs, `dst` an array of 4 bytes and
`src` at offset 8 of the block: a string shorter than `n` is copied and the rest
filled with zero bytes; `n` bytes without a zero byte are copied as they are; a
length above 4 writes past `dst`; a source that ends before `n` bytes and before a
zero byte is read past its end. -/
theorem strncpy_samples :
    strncpy [97, 98, 0, 99] 8 4 0 4 = Decoded.done [97, 98] ∧
    strncpy [97, 98, 99, 100] 8 4 0 3 = Decoded.done [97, 98, 99] ∧
    strncpy [97, 98, 99, 100, 101] 8 4 0 5 = Decoded.writePast 4 ∧
    strncpy [97, 0, 99, 100, 101] 8 4 0 5 = Decoded.writePast 4 ∧
    strncpy [97, 98] 8 4 0 3 = Decoded.readPast 10 := by
  refine ⟨by decide, by decide, by decide, by decide, by decide⟩

/-! ## Frame lemmas and the claims on counter and session -/

section frame
variable {W : Type} (c : PTPCodes) (t : PTPTransport W)

theorem scripted_keeps {α : Type} (s : Script) (f : PTPParams Unit → α) :
    (scripted s).Keeps f :=
  ⟨fun _ _ => rfl, fun _ _ _ _ => rfl, fun _ _ _ => rfl, fun _ _ => rfl, fun _ _ => rfl⟩

theorem afterdata_keeps {α : Type} (f : PTPParams W → α) (hk : t.Keeps f) (d : DataResult W)
    (calls : List Call) :
    f (ptp_transaction_new_afterdata c t d calls).params = f d.params := by
  unfold ptp_transaction_new_afterdata cancel_on_cancel
  simp only []
  split_ifs <;> simp [response_params, hk.getresp, hk.cancelreq]

theorem tn_keeps {α : Type} (f : PTPParams W → α) (hk : t.Keeps f)
    (hb : ∀ p : PTPParams W, f (bump p) = f p)
    (params : PTPParams W) (q : Option PTPContainer) (flags sendlen : Nat)
    (handler : Option PTPDataHandler) :
    f (ptp_transaction_new c t params q flags sendlen handler).params = f params := by
  cases q with
  | none => rfl
  | some ptp =>
    have hcases := engine_cases c t params ptp flags sendlen handler
    simp only [] at hcases
    rcases hcases with ⟨-, -, -, hp, -⟩ | ⟨-, -, hr⟩ | ⟨-, -, hr⟩ | ⟨-, -, hr⟩ |
        ⟨-, -, -, -, -, -, hp, -⟩
    · rw [hp, hk.sendreq, hb]
    · rw [hr, afterdata_keeps c t f hk, hk.senddata, hk.sendreq, hb]
    · rw [hr, afterdata_keeps c t f hk, hk.getdata, hk.sendreq, hb]
    · rw [hr, response_params, hk.getresp, hk.sendreq, hb]
    · rw [hp, hk.sendreq, hb]

theorem transaction_keeps {α : Type} (f : PTPParams W → α) (hk : t.Keeps f)
    (hb : ∀ p : PTPParams W, f (bump p) = f p)
    (params : PTPParams W) (q : Option PTPContainer) (flags sendlen : Nat)
    (data : Option (List Nat)) :
    f (ptp_transaction c t params q flags sendlen data).params = f params := by
  unfold ptp_transaction
  simp only []
  split_ifs <;> exact tn_keeps c t f hk hb params q flags sendlen _

theorem keeps_counter_of_keeps (hk : t.Keeps (fun p => p)) : t.KeepsCounter :=
  ⟨fun p q => by rw [hk.sendreq], fun p q n h => by rw [hk.senddata],
   fun p q h => by rw [hk.getdata], fun p q => by rw [hk.getresp],
   fun p n => by rw [hk.cancelreq]⟩

theorem keeps_besides_of_keeps (hk : t.Keeps (fun p => p)) :
    t.Keeps PTPParams.besides_counter :=
  ⟨fun p q => by rw [hk.sendreq], fun p q n h => by rw [hk.senddata],
   fun p q h => by rw [hk.getdata], fun p q => by rw [hk.getresp],
   fun p n => by rw [hk.cancelreq]⟩

theorem eq_of_besides_counter (p q : PTPParams W)
    (h : p.besides_counter = q.besides_counter) (hc : p.transaction_id = q.transaction_id) :
    p = q := by
  cases p; cases q
  simp only [PTPParams.besides_counter, PTPParams.mk.injEq] at h
  simp only at hc
  simp only [PTPParams.mk.injEq]
  tauto

theorem response_checked (p : PTPParams W) (q : PTPContainer)
    (handler : Option PTPDataHandler) (calls : List Call)
    (h : (ptp_transaction_new_response c t p q handler calls).exit = .seqMismatch ∨
      (ptp_transaction_new_response c t p q handler calls).exit = .done) :
    ∃ resp, (ptp_transaction_new_response c t p q handler calls).ptp = some resp ∧
      ((ptp_transaction_new_response c t p q handler calls).exit = .done ↔
        resp.Transaction_ID = prev_transaction_id
          (ptp_transaction_new_response c t p q handler calls).params.transaction_id) := by
  have hc := response_cases c t handler p q calls
  simp only [] at hc
  obtain ⟨hp, hq, -, -, hx⟩ := hc
  refine ⟨_, hq, ?_⟩
  rw [hp]
  rcases hx with ⟨-, -, he⟩ | ⟨-, hne, -, he⟩ | ⟨-, heq, -, he⟩
  · rw [he] at h; simp at h
  · rw [he]; simp [hne]
  · rw [he]; simp [heq]

theorem afterdata_checked (d : DataResult W) (calls : List Call)
    (h : (ptp_transaction_new_afterdata c t d calls).exit = .seqMismatch ∨
      (ptp_transaction_new_afterdata c t d calls).exit = .done) :
    ∃ resp, (ptp_transaction_new_afterdata c t d calls).ptp = some resp ∧
      ((ptp_transaction_new_afterdata c t d calls).exit = .done ↔
        resp.Transaction_ID = prev_transaction_id
          (ptp_transaction_new_afterdata c t d calls).params.transaction_id) := by
  unfold ptp_transaction_new_afterdata at h ⊢
  simp only [] at h ⊢
  split_ifs at h ⊢
  · simp at h
  · exact response_checked c t _ _ _ _ h

theorem tn_checked (params : PTPParams W) (ptp : PTPContainer) (flags sendlen : Nat)
    (handler : Option PTPDataHandler)
    (h : (ptp_transaction_new c t params (some ptp) flags sendlen handler).exit = .seqMismatch ∨
      (ptp_transaction_new c t params (some ptp) flags sendlen handler).exit = .done) :
    ∃ resp, (ptp_transaction_new c t params (some ptp) flags sendlen handler).ptp = some resp ∧
      ((ptp_transaction_new c t params (some ptp) flags sendlen handler).exit = .done ↔
        resp.Transaction_ID = prev_transaction_id
          (ptp_transaction_new c t params (some ptp) flags sendlen
            handler).params.transaction_id) := by
  unfold ptp_transaction_new at h ⊢
  simp only [] at h ⊢
  split_ifs at h ⊢ <;>
    first
      | exact afterdata_checked c t _ _ h
      | exact response_checked c t _ _ _ _ h
      | (simp at h)

end frame

/-- C23.  When the transaction counter is `0xFFFFFFFF` before `ptp_transaction_new`,
the request is sent with transaction id `0xFFFFFFFF`, the counter is 0 afterwards,
and when the call comes to the sequence-number check the response is accepted
exactly when its transaction id is `0xFFFFFFFF`.  The transport callbacks leave the
counter alone. -/
theorem counter_wraps_at_32_bits {W : Type} (c : PTPCodes) (t : PTPTransport W)
    (params : PTPParams W) (ptp : PTPContainer) (flags sendlen : Nat)
    (handler : Option PTPDataHandler)
    (hk : t.KeepsCounter) (hc : params.transaction_id = 0xFFFFFFFF) :
    (ptp_transaction_new c t params (some ptp) flags sendlen handler).request_id
      = some 0xFFFFFFFF ∧
    (ptp_transaction_new c t params (some ptp) flags sendlen handler).params.transaction_id
      = 0 ∧
    prev_transaction_id 0 = 0xFFFFFFFF ∧
    (((ptp_transaction_new c t params (some ptp) flags sendlen handler).exit = .seqMismatch ∨
      (ptp_transaction_new c t params (some ptp) flags sendlen handler).exit = .done) →
      ∃ resp, (ptp_transaction_new c t params (some ptp) flags sendlen handler).ptp
          = some resp ∧
        ((ptp_transaction_new c t params (some ptp) flags sendlen handler).exit = .done ↔
          resp.Transaction_ID = 0xFFFFFFFF)) := by
  have hcnt : (ptp_transaction_new c t params (some ptp) flags sendlen
      handler).params.transaction_id = 0 := by
    rw [tn_counter c t params ptp flags sendlen handler hk, hc]
    decide
  have hprev : prev_transaction_id 0 = 0xFFFFFFFF := by decide
  refine ⟨?_, hcnt, hprev, fun h => ?_⟩
  · rw [tn_request_id, hc]
  · obtain ⟨resp, h1, h2⟩ := tn_checked c t params ptp flags sendlen handler h
    refine ⟨resp, h1, ?_⟩
    rw [h2, hcnt, hprev]

/-- Witness for C23: a session whose counter is `0xFFFFFFFF`, on a device that
answers OK with the id of the request. -/
theorem counter_wraps_at_32_bits_witness :
    (scripted allOK).KeepsCounter ∧ (sampleParams 0xFFFFFFFF 1).transaction_id = 0xFFFFFFFF ∧
    ((ptp_transaction_new sampleCodes (scripted allOK) (sampleParams 0xFFFFFFFF 1)
        (some PTP_CNT_INIT) PTP_DP_NODATA 0 none).request_id = some 0xFFFFFFFF ∧
    (ptp_transaction_new sampleCodes (scripted allOK) (sampleParams 0xFFFFFFFF 1)
        (some PTP_CNT_INIT) PTP_DP_NODATA 0 none).params.transaction_id = 0 ∧
    prev_transaction_id 0 = 0xFFFFFFFF ∧
    (((ptp_transaction_new sampleCodes (scripted allOK) (sampleParams 0xFFFFFFFF 1)
        (some PTP_CNT_INIT) PTP_DP_NODATA 0 none).exit = .seqMismatch ∨
      (ptp_transaction_new sampleCodes (scripted allOK) (sampleParams 0xFFFFFFFF 1)
        (some PTP_CNT_INIT) PTP_DP_NODATA 0 none).exit = .done) →
      ∃ resp, (ptp_transaction_new sampleCodes (scripted allOK) (sampleParams 0xFFFFFFFF 1)
          (some PTP_CNT_INIT) PTP_DP_NODATA 0 none).ptp = some resp ∧
        ((ptp_transaction_new sampleCodes (scripted allOK) (sampleParams 0xFFFFFFFF 1)
          (some PTP_CNT_INIT) PTP_DP_NODATA 0 none).exit = .done ↔
          resp.Transaction_ID = 0xFFFFFFFF))) :=
  ⟨scripted_keepsCounter allOK, by decide,
   counter_wraps_at_32_bits sampleCodes (scripted allOK) (sampleParams 0xFFFFFFFF 1)
     PTP_CNT_INIT PTP_DP_NODATA 0 none (scripted_keepsCounter allOK) (by decide)⟩

/-- C24, as amended.  When no transport callback modifies the session, a call of
`ptp_transaction_new` with a container leaves the session as it was except for the
transaction counter, which has advanced by one modulo 2^32, whatever the outcome;
session id, handle set, object-info array, property cache, Canon property table
and device info are unchanged.  A call with a null container leaves the whole
session as it was, counter included. -/
theorem transaction_changes_counter_only {W : Type} (c : PTPCodes) (t : PTPTransport W)
    (params : PTPParams W) (ptp : PTPContainer) (flags sendlen : Nat)
    (handler : Option PTPDataHandler) (hk : t.Keeps (fun p => p)) :
    ((ptp_transaction_new c t params (some ptp) flags sendlen handler).params
      = { params with transaction_id := (params.transaction_id + 1) % UINT32_MOD } ∧
     (ptp_transaction_new c t params (some ptp) flags sendlen handler).params.session_id
      = params.session_id ∧
     (ptp_transaction_new c t params (some ptp) flags sendlen handler).params.cache
      = params.cache ∧
     (ptp_transaction_new c t params (some ptp) flags sendlen handler).params.canon_props
      = params.canon_props ∧
     (ptp_transaction_new c t params (some ptp) flags sendlen handler).params.deviceinfo
      = params.deviceinfo) ∧
    (ptp_transaction_new c t params none flags sendlen handler).params = params := by
  have hmain : (ptp_transaction_new c t params (some ptp) flags sendlen handler).params
      = { params with transaction_id := (params.transaction_id + 1) % UINT32_MOD } := by
    apply eq_of_besides_counter
    · rw [tn_keeps c t PTPParams.besides_counter (keeps_besides_of_keeps t hk) (fun _ => rfl)]
      rfl
    · rw [tn_counter c t params ptp flags sendlen handler (keeps_counter_of_keeps t hk)]
  refine ⟨⟨hmain, ?_, ?_, ?_, ?_⟩, rfl⟩
  all_goals (rw [hmain]; try rfl)

/-- Witness for C24, as amended: a get-data transaction on a session whose counter
is 5, on a device that answers OK. -/
theorem transaction_changes_counter_only_witness :
    (scripted allOK).Keeps (fun p => p) ∧
    (((ptp_transaction_new sampleCodes (scripted allOK) (sampleCache [7, 3] none)
        (some PTP_CNT_INIT) PTP_DP_GETDATA 0 (some ptp_init_recv_memory_handler)).params
      = { sampleCache [7, 3] none with
          transaction_id := ((sampleCache [7, 3] none).transaction_id + 1) % UINT32_MOD } ∧
     (ptp_transaction_new sampleCodes (scripted allOK) (sampleCache [7, 3] none)
        (some PTP_CNT_INIT) PTP_DP_GETDATA 0 (some ptp_init_recv_memory_handler)).params.session_id
      = (sampleCache [7, 3] none).session_id ∧
     (ptp_transaction_new sampleCodes (scripted allOK) (sampleCache [7, 3] none)
        (some PTP_CNT_INIT) PTP_DP_GETDATA 0 (some ptp_init_recv_memory_handler)).params.cache
      = (sampleCache [7, 3] none).cache ∧
     (ptp_transaction_new sampleCodes (scripted allOK) (sampleCache [7, 3] none)
        (some PTP_CNT_INIT) PTP_DP_GETDATA 0
        (some ptp_init_recv_memory_handler)).params.canon_props
      = (sampleCache [7, 3] none).canon_props ∧
     (ptp_transaction_new sampleCodes (scripted allOK) (sampleCache [7, 3] none)
        (some PTP_CNT_INIT) PTP_DP_GETDATA 0
        (some ptp_init_recv_memory_handler)).params.deviceinfo
      = (sampleCache [7, 3] none).deviceinfo) ∧
    (ptp_transaction_new sampleCodes (scripted allOK) (sampleCache [7, 3] none)
        none PTP_DP_GETDATA 0 (some ptp_init_recv_memory_handler)).params
      = sampleCache [7, 3] none) :=
  ⟨scripted_keeps allOK _,
   transaction_changes_counter_only sampleCodes (scripted allOK) (sampleCache [7, 3] none)
     PTP_CNT_INIT PTP_DP_GETDATA 0 (some ptp_init_recv_memory_handler)
     (scripted_keeps allOK _)⟩

/-- C24, counterexample.  A call with a null container returns `PTP_ERROR_BADPARAM`
without a transport call and with the counter still at 5: for this outcome the
counter has not advanced. -/
theorem null_container_keeps_counter_counterexample :
    (ptp_transaction_new sampleCodes (scripted allOK) (sampleParams 5 1)
        none PTP_DP_NODATA 0 none).ret = sampleCodes.PTP_ERROR_BADPARAM ∧
    (ptp_transaction_new sampleCodes (scripted allOK) (sampleParams 5 1)
        none PTP_DP_NODATA 0 none).calls = [] ∧
    (ptp_transaction_new sampleCodes (scripted allOK) (sampleParams 5 1)
        none PTP_DP_NODATA 0 none).params.transaction_id = 5 ∧
    (ptp_transaction_new sampleCodes (scripted allOK) (sampleParams 5 1)
        none PTP_DP_NODATA 0 none).params.transaction_id
      ≠ ((sampleParams 5 1).transaction_id + 1) % UINT32_MOD := by
  refine ⟨by decide, by decide, by decide, by decide⟩

/-- C27.  When the low 8 bits of `flags` name no known data direction,
`ptp_transaction_new` with a container has consumed a transaction id and called
send-request once, and calls neither a data callback nor get-response: the counter
has advanced by one (modulo 2^32), the call log is the one send-request call, and
the result is `PTP_ERROR_BADPARAM` when send-request returned OK (its own code
otherwise).  With a null container it returns `PTP_ERROR_BADPARAM` with no callback
called and the session, counter included, unchanged. -/
theorem badparam_after_request_sent {W : Type} (c : PTPCodes) (t : PTPTransport W)
    (params : PTPParams W) (ptp : PTPContainer) (flags sendlen : Nat)
    (handler : Option PTPDataHandler) (hk : t.KeepsCounter)
    (h1 : flags &&& PTP_DP_DATA_MASK ≠ PTP_DP_NODATA)
    (h2 : flags &&& PTP_DP_DATA_MASK ≠ PTP_DP_SENDDATA)
    (h3 : flags &&& PTP_DP_DATA_MASK ≠ PTP_DP_GETDATA) :
    ((ptp_transaction_new c t params (some ptp) flags sendlen handler).params.transaction_id
        = (params.transaction_id + 1) % UINT32_MOD ∧
     (ptp_transaction_new c t params (some ptp) flags sendlen handler).calls
        = [Call.sendreq (request_of params ptp)
             (t.sendreq_func (bump params) (request_of params ptp)).ret] ∧
     (ptp_transaction_new c t params (some ptp) flags sendlen handler).request_id
        = some params.transaction_id ∧
     ((t.sendreq_func (bump params) (request_of params ptp)).ret = c.PTP_RC_OK →
       (ptp_transaction_new c t params (some ptp) flags sendlen handler).ret
          = c.PTP_ERROR_BADPARAM ∧
       (ptp_transaction_new c t params (some ptp) flags sendlen handler).exit = .badFlags) ∧
     ((t.sendreq_func (bump params) (request_of params ptp)).ret ≠ c.PTP_RC_OK →
       (ptp_transaction_new c t params (some ptp) flags sendlen handler).ret
          = (t.sendreq_func (bump params) (request_of params ptp)).ret)) ∧
    ((ptp_transaction_new c t params none flags sendlen handler).ret = c.PTP_ERROR_BADPARAM ∧
     (ptp_transaction_new c t params none flags sendlen handler).calls = [] ∧
     (ptp_transaction_new c t params none flags sendlen handler).params = params) := by
  refine ⟨⟨tn_counter c t params ptp flags sendlen handler hk, ?_,
    tn_request_id c t params ptp flags sendlen handler, fun hs => ?_, fun hs => ?_⟩,
    rfl, rfl, rfl⟩
  · by_cases hs : (t.sendreq_func (bump params) (request_of params ptp)).ret = c.PTP_RC_OK
    · rw [tn_badflags c t params ptp flags sendlen handler hs h2 h3 h1, hs]
    · rw [tn_sendreq_fail c t params ptp flags sendlen handler hs]
  · rw [tn_badflags c t params ptp flags sendlen handler hs h2 h3 h1]
    exact ⟨rfl, rfl⟩
  · rw [tn_sendreq_fail c t params ptp flags sendlen handler hs]

/-- Witness for C27: the flag value 3 on a session whose counter is 5. -/
theorem badparam_after_request_sent_witness :
    (scripted allOK).KeepsCounter ∧
    (3 : Nat) &&& PTP_DP_DATA_MASK ≠ PTP_DP_NODATA ∧
    (3 : Nat) &&& PTP_DP_DATA_MASK ≠ PTP_DP_SENDDATA ∧
    (3 : Nat) &&& PTP_DP_DATA_MASK ≠ PTP_DP_GETDATA ∧
    (((ptp_transaction_new sampleCodes (scripted allOK) (sampleParams 5 1)
        (some PTP_CNT_INIT) 3 0 none).params.transaction_id
        = ((sampleParams 5 1).transaction_id + 1) % UINT32_MOD ∧
     (ptp_transaction_new sampleCodes (scripted allOK) (sampleParams 5 1)
        (some PTP_CNT_INIT) 3 0 none).calls
        = [Call.sendreq (request_of (sampleParams 5 1) PTP_CNT_INIT)
             ((scripted allOK).sendreq_func (bump (sampleParams 5 1))
               (request_of (sampleParams 5 1) PTP_CNT_INIT)).ret] ∧
     (ptp_transaction_new sampleCodes (scripted allOK) (sampleParams 5 1)
        (some PTP_CNT_INIT) 3 0 none).request_id = some (sampleParams 5 1).transaction_id ∧
     (((scripted allOK).sendreq_func (bump (sampleParams 5 1))
          (request_of (sampleParams 5 1) PTP_CNT_INIT)).ret = sampleCodes.PTP_RC_OK →
       (ptp_transaction_new sampleCodes (scripted allOK) (sampleParams 5 1)
          (some PTP_CNT_INIT) 3 0 none).ret = sampleCodes.PTP_ERROR_BADPARAM ∧
       (ptp_transaction_new sampleCodes (scripted allOK) (sampleParams 5 1)
          (some PTP_CNT_INIT) 3 0 none).exit = .badFlags) ∧
     (((scripted allOK).sendreq_func (bump (sampleParams 5 1))
          (request_of (sampleParams 5 1) PTP_CNT_INIT)).ret ≠ sampleCodes.PTP_RC_OK →
       (ptp_transaction_new sampleCodes (scripted allOK) (sampleParams 5 1)
          (some PTP_CNT_INIT) 3 0 none).ret
          = ((scripted allOK).sendreq_func (bump (sampleParams 5 1))
              (request_of (sampleParams 5 1) PTP_CNT_INIT)).ret)) ∧
    ((ptp_transaction_new sampleCodes (scripted allOK) (sampleParams 5 1)
        none 3 0 none).ret = sampleCodes.PTP_ERROR_BADPARAM ∧
     (ptp_transaction_new sampleCodes (scripted allOK) (sampleParams 5 1)
        none 3 0 none).calls = [] ∧
     (ptp_transaction_new sampleCodes (scripted allOK) (sampleParams 5 1)
        none 3 0 none).params = sampleParams 5 1)) :=
  ⟨scripted_keepsCounter allOK, by decide, by decide, by decide,
   badparam_after_request_sent sampleCodes (scripted allOK) (sampleParams 5 1)
     PTP_CNT_INIT 3 0 none (scripted_keepsCounter allOK) (by decide) (by decide) (by decide)⟩

/-- C28.  After `ptp_opensession (session)` the session id of the session is
`session` whatever the call returned, and, the transport callbacks leaving the
counter alone, the transaction counter is 1. -/
theorem opensession_sets_session_id {W : Type} (c : PTPCodes) (t : PTPTransport W)
    (params : PTPParams W) (session : Nat) (hk : t.KeepsCounter) :
    (ptp_opensession c t params session).params.session_id = session ∧
    (ptp_opensession c t params session).params.transaction_id = 1 := by
  unfold ptp_opensession
  refine ⟨rfl, ?_⟩
  simp only []
  rw [tn_counter c t _ _ _ _ _ hk]
  rfl

/-- Witness for C28: a device that refuses the OpenSession request, on a session
with counter 9 and session id 4. -/
theorem opensession_sets_session_id_witness :
    (scripted refusing).KeepsCounter ∧
    ((ptp_opensession sampleCodes (scripted refusing) (sampleParams 9 4) 6).params.session_id
        = 6 ∧
     (ptp_opensession sampleCodes (scripted refusing) (sampleParams 9 4)
        6).params.transaction_id = 1) :=
  ⟨scripted_keepsCounter refusing,
   opensession_sets_session_id sampleCodes (scripted refusing) (sampleParams 9 4) 6
     (scripted_keepsCounter refusing)⟩

/-! ## The claims on what the cache operations leave -/

theorem count_oldprops_skip (handle : Nat) (rest : List MTPProperties) :
    ∀ (a : List MTPProperties) (i cnt first : Nat),
      (∀ e ∈ a, e.ObjectHandle ≠ handle) →
      count_oldprops handle (a ++ rest) i cnt first
        = count_oldprops handle rest (i + a.length) cnt first := by
  intro a
  induction a with
  | nil => intro i cnt first _; simp
  | cons x a ih =>
    intro i cnt first h
    have hx : x.ObjectHandle ≠ handle := h x (List.mem_cons_self _ _)
    simp only [List.cons_append, count_oldprops, hx, if_false, List.length_cons, List.append_eq]
    rw [ih (i + 1) cnt first (fun e he => h e (List.mem_cons_of_mem _ he))]
    congr 1
    omega

theorem count_oldprops_run (handle : Nat) (rest : List MTPProperties) :
    ∀ (run : List MTPProperties) (i cnt first : Nat),
      (∀ e ∈ run, e.ObjectHandle = handle) → 1 ≤ cnt →
      count_oldprops handle (run ++ rest) i cnt first
        = count_oldprops handle rest (i + run.length) (cnt + run.length) first := by
  intro run
  induction run with
  | nil => intro i cnt first _ _; simp
  | cons x run ih =>
    intro i cnt first h hc
    have hx : x.ObjectHandle = handle := h x (List.mem_cons_self _ _)
    have hne : ¬ cnt + 1 = 1 := by omega
    simp only [List.cons_append, count_oldprops, hx, if_true, hne, if_false, List.length_cons,
      List.append_eq]
    rw [ih (i + 1) (cnt + 1) first (fun e he => h e (List.mem_cons_of_mem _ he)) (by omega)]
    congr 1 <;> omega

theorem count_oldprops_contiguous (handle : Nat) (a run b : List MTPProperties)
    (hrun : ∀ e ∈ run, e.ObjectHandle = handle)
    (ha : ∀ e ∈ a, e.ObjectHandle ≠ handle) (hb : ∀ e ∈ b, e.ObjectHandle ≠ handle) :
    count_oldprops handle (a ++ run ++ b) 0 0 0
      = (run.length, if run = [] then 0 else a.length) := by
  rw [List.append_assoc, count_oldprops_skip handle (run ++ b) a 0 0 0 ha]
  cases run with
  | nil =>
    simp only [List.nil_append, List.length_nil, if_true]
    exact count_oldprops_absent handle b _ 0 0 hb
  | cons x run =>
    have hx : x.ObjectHandle = handle := hrun x (List.mem_cons_self _ _)
    simp only [List.cons_append, count_oldprops, hx, if_true, List.length_cons, List.append_eq]
    rw [count_oldprops_run handle b run _ _ _
      (fun e he => hrun e (List.mem_cons_of_mem _ he)) (le_refl _),
      count_oldprops_absent handle b _ _ _ hb]
    simp
    omega

/-- C22, failing input.  The cache holds handle 3 and no property array, and the
device refuses GetObjectInfo with the response code `0x2005`:
`ptp_add_object_to_cache (7)` returns OK, and the record stored at the index of
handle 7 is the zeroed record, not a record of the device. -/
theorem add_reports_ok_without_info :
    (ptp_getobjectinfo sampleCodes (scripted refusing) samplePack
        (add_grown true (sampleCache [3] none) 7) 7 PTPObjectInfo.zero).ret = 0x2005 ∧
    (ptp_add_object_to_cache sampleCodes (scripted refusing) samplePack true true true true
        (sampleCache [3] none) 7).ret = sampleCodes.PTP_RC_OK ∧
    (ptp_add_object_to_cache sampleCodes (scripted refusing) samplePack true true true true
        (sampleCache [3] none) 7).params.handles = { n := 2, Handler := some [3, 7] } ∧
    (ptp_add_object_to_cache sampleCodes (scripted refusing) samplePack true true true true
        (sampleCache [3] none) 7).params.objectinfo
      = some [sampleInfo 3, PTPObjectInfo.zero] := by
  refine ⟨by decide, by decide, by decide, by decide⟩

/-- C26.  If the entries of the property array whose `ObjectHandle` is `h` form one
contiguous run (the array is `a ++ run ++ b`, with no entry of `h` in `a` or `b`),
then after `ptp_remove_object_from_cache (h)` the entries of the property array are
`a ++ b` and the entry count has dropped by the length of the run; and for every
property array the block the function removes, from the first match on and as long
as the number of matches, lies within the array. -/
theorem remove_deletes_contiguous_run {W : Type} (z : Bool) (p : PTPParams W) (handle : Nat)
    (a run b : List MTPProperties)
    (hp : p.props = some (a ++ run ++ b)) (hlen : (a ++ run ++ b).length = p.nrofprops)
    (hrun : ∀ e ∈ run, e.ObjectHandle = handle)
    (ha : ∀ e ∈ a, e.ObjectHandle ≠ handle) (hb : ∀ e ∈ b, e.ObjectHandle ≠ handle) :
    (ptp_remove_object_from_cache z p handle).props.getD [] = a ++ b ∧
    (ptp_remove_object_from_cache z p handle).nrofprops = p.nrofprops - run.length ∧
    (ptp_remove_object_from_cache z p handle).nrofprops = (a ++ b).length ∧
    (∀ l : List MTPProperties,
      (count_oldprops handle l 0 0 0).2 + (count_oldprops handle l 0 0 0).1 ≤ l.length) := by
  obtain ⟨-, h2, h3⟩ := remove_props_block z p handle (a ++ run ++ b) hp hlen
  have hc := count_oldprops_contiguous handle a run b hrun ha hb
  rw [hc] at h2 h3
  simp only [] at h2 h3
  refine ⟨?_, h3, ?_, fun l => ?_⟩
  · rw [h2]
    by_cases hr : run = []
    · subst hr; simp
    · simp only [hr, if_false]
      rw [List.append_assoc, List.take_left' rfl, ← List.append_assoc,
        List.drop_left' (by simp)]
  · rw [h3, ← hlen]
    simp only [List.length_append]
    omega
  · have := count_oldprops_bound handle l 0 0 0 (by omega)
    omega

/-- Witness for C26: the property array holds one entry of handle 3, then two
entries of handle 7, then one entry of handle 5; handle 7 is removed. -/
theorem remove_deletes_contiguous_run_witness :
    (sampleCache [3, 7, 5] (some [(3, 1), (7, 1), (7, 2), (5, 1)])).props
      = some ([sampleProp (3, 1)] ++ [sampleProp (7, 1), sampleProp (7, 2)]
          ++ [sampleProp (5, 1)]) ∧
    ([sampleProp (3, 1)] ++ [sampleProp (7, 1), sampleProp (7, 2)]
        ++ [sampleProp (5, 1)]).length
      = (sampleCache [3, 7, 5] (some [(3, 1), (7, 1), (7, 2), (5, 1)])).nrofprops ∧
    (∀ e ∈ [sampleProp (7, 1), sampleProp (7, 2)], e.ObjectHandle = 7) ∧
    (∀ e ∈ [sampleProp (3, 1)], e.ObjectHandle ≠ 7) ∧
    (∀ e ∈ [sampleProp (5, 1)], e.ObjectHandle ≠ 7) ∧
    ((ptp_remove_object_from_cache true
        (sampleCache [3, 7, 5] (some [(3, 1), (7, 1), (7, 2), (5, 1)])) 7).props.getD []
        = [sampleProp (3, 1)] ++ [sampleProp (5, 1)] ∧
     (ptp_remove_object_from_cache true
        (sampleCache [3, 7, 5] (some [(3, 1), (7, 1), (7, 2), (5, 1)])) 7).nrofprops
        = (sampleCache [3, 7, 5] (some [(3, 1), (7, 1), (7, 2), (5, 1)])).nrofprops
          - [sampleProp (7, 1), sampleProp (7, 2)].length ∧
     (ptp_remove_object_from_cache true
        (sampleCache [3, 7, 5] (some [(3, 1), (7, 1), (7, 2), (5, 1)])) 7).nrofprops
        = ([sampleProp (3, 1)] ++ [sampleProp (5, 1)]).length ∧
     (∀ l : List MTPProperties,
       (count_oldprops 7 l 0 0 0).2 + (count_oldprops 7 l 0 0 0).1 ≤ l.length)) :=
  ⟨by decide, by decide, by decide, by decide, by decide,
   remove_deletes_contiguous_run true
     (sampleCache [3, 7, 5] (some [(3, 1), (7, 1), (7, 2), (5, 1)])) 7
     [sampleProp (3, 1)] [sampleProp (7, 1), sampleProp (7, 2)] [sampleProp (5, 1)]
     (by decide) (by decide) (by decide) (by decide) (by decide)⟩

/-- What `push_all` keeps true of a memory handler: the cursor stands at the end, the
buffer holds `size` bytes, and the buffer pointer is null exactly when `size` is 0. -/
theorem memory_putfunc_null (c : PTPCodes) (priv : PTPMemHandlerPrivate) (b : List Nat)
    (hcur : priv.curoff = priv.size) (hnull : priv.data = none ↔ priv.size = 0) :
    (memory_putfunc c priv b.length b).priv.data = none ↔
      (memory_putfunc c priv b.length b).priv.size = 0 := by
  unfold memory_putfunc
  by_cases hb : b.length = 0
  · have hpos : ¬ priv.curoff + b.length > priv.size := by omega
    simp only [hpos, if_false, Option.map_eq_none']
    exact hnull
  · have hpos : priv.curoff + b.length > priv.size := by omega
    simp only [hpos, if_true, Option.map_eq_none']
    have hne : ¬ (priv.curoff + b.length = 0 ∧ false = true) := by simp
    simp only [realloc, hne, if_false]
    constructor
    · intro h; exact absurd h (by simp)
    · intro h; omega

theorem push_all_null (c : PTPCodes) :
    ∀ (bs : List (List Nat)) (priv : PTPMemHandlerPrivate),
      priv.curoff = priv.size → (priv.data.getD []).length = priv.size →
      (priv.data = none ↔ priv.size = 0) →
      ((push_all c priv bs).2.data = none ↔ (push_all c priv bs).2.data.getD [] = []) := by
  intro bs
  induction bs with
  | nil =>
    intro priv _ hlen hnull
    simp only [push_all]
    rw [hnull, ← hlen, List.length_eq_zero]
  | cons b bs ih =>
    intro priv hcur hlen hnull
    obtain ⟨-, -, h3, h4, h5⟩ := memory_putfunc_append c priv b hcur hlen
    simp only [push_all]
    exact ih (memory_putfunc c priv b.length b).priv (by rw [h5, h4])
      (by rw [h3, h4]; simp [hlen]) (memory_putfunc_null c priv b hcur hnull)

theorem afterdata_handler {W : Type} (c : PTPCodes) (t : PTPTransport W) (d : DataResult W)
    (calls : List Call) :
    (ptp_transaction_new_afterdata c t d calls).handler = d.handler := by
  unfold ptp_transaction_new_afterdata
  simp only []
  split_ifs
  · rfl
  · exact (response_cases c t d.handler _ d.ptp _).2.2.1

theorem tn_getdata_handler {W : Type} (c : PTPCodes) (t : PTPTransport W)
    (params : PTPParams W) (ptp : PTPContainer) (sendlen : Nat)
    (handler : Option PTPDataHandler) :
    (ptp_transaction_new c t params (some ptp) PTP_DP_GETDATA sendlen handler).handler = handler ∨
    ∃ p q, (ptp_transaction_new c t params (some ptp) PTP_DP_GETDATA sendlen handler).handler
      = (t.getdata_func p q handler).handler := by
  have hcases := engine_cases c t params ptp PTP_DP_GETDATA sendlen handler
  simp only [] at hcases
  rcases hcases with ⟨-, -, -, -, -, hh, -⟩ | ⟨-, hf, -⟩ | ⟨-, -, hr⟩ | ⟨-, hf, -⟩ |
      ⟨-, -, -, -, -, -, -, -, hh, -⟩
  · exact Or.inl hh
  · exact absurd hf (by decide)
  · right
    exact ⟨(t.sendreq_func (bump params) (request_of params ptp)).params,
      (t.sendreq_func (bump params) (request_of params ptp)).ptp,
      by rw [hr, afterdata_handler]⟩
  · exact absurd hf (by decide)
  · exact Or.inl hh

theorem transaction_getdata_delivered {W : Type} (c : PTPCodes) (t : PTPTransport W)
    (chunks : PTPParams W → PTPContainer → List (List Nat)) (hdel : t.Delivers c chunks)
    (params : PTPParams W) (ptp : PTPContainer)
    (hok : (ptp_transaction c t params (some ptp) PTP_DP_GETDATA 0 none).ret = c.PTP_RC_OK) :
    (ptp_transaction c t params (some ptp) PTP_DP_GETDATA 0 none).data
      = (if (chunks (t.sendreq_func (bump params) (request_of params ptp)).params
            (t.sendreq_func (bump params) (request_of params ptp)).ptp).flatten = [] then none
         else some (chunks (t.sendreq_func (bump params) (request_of params ptp)).params
            (t.sendreq_func (bump params) (request_of params ptp)).ptp).flatten) ∧
    (ptp_transaction c t params (some ptp) PTP_DP_GETDATA 0 none).recvlen
      = some ((chunks (t.sendreq_func (bump params) (request_of params ptp)).params
            (t.sendreq_func (bump params) (request_of params ptp)).ptp).flatten.length
          % UINT32_MOD) := by
  have h1 : ¬ PTP_DP_GETDATA &&& PTP_DP_DATA_MASK = PTP_DP_SENDDATA := by decide
  have h2 : PTP_DP_GETDATA &&& PTP_DP_DATA_MASK = PTP_DP_GETDATA := by decide
  have h3 : ¬ PTP_DP_GETDATA = PTP_DP_SENDDATA := by decide
  unfold ptp_transaction at hok ⊢
  simp only [h1, h2, h3, if_true, if_false] at hok ⊢
  have hcases := engine_cases c t params ptp PTP_DP_GETDATA 0 (some ptp_init_recv_memory_handler)
  simp only [] at hcases
  rcases hcases with ⟨hs, hret, -⟩ | ⟨-, hf, -⟩ | ⟨-, -, hr⟩ | ⟨-, hf, -⟩ |
      ⟨-, -, hf, -⟩
  · rw [hret] at hok
    exact absurd hok hs
  · exact absurd hf (by decide)
  · have hh : (ptp_transaction_new c t params (some ptp) PTP_DP_GETDATA 0
        (some ptp_init_recv_memory_handler)).handler
        = some (.memory (push_all c recv_priv
            (chunks (t.sendreq_func (bump params) (request_of params ptp)).params
              (t.sendreq_func (bump params) (request_of params ptp)).ptp)).2) := by
      rw [hr, afterdata_handler]
      exact hdel _ _ _
    rw [hh]
    simp only [ptp_exit_recv_memory_handler]
    obtain ⟨-, p2, p3⟩ := push_all_spec c
      (chunks (t.sendreq_func (bump params) (request_of params ptp)).params
        (t.sendreq_func (bump params) (request_of params ptp)).ptp) recv_priv rfl rfl
    have pn := push_all_null c
      (chunks (t.sendreq_func (bump params) (request_of params ptp)).params
        (t.sendreq_func (bump params) (request_of params ptp)).ptp) recv_priv rfl rfl
      (by simp [recv_priv])
    simp only [recv_priv, Option.getD_none, List.nil_append, Nat.zero_add] at p2 p3 pn
    simp only [recv_priv]
    refine ⟨?_, ?_⟩
    · by_cases hf : (chunks (t.sendreq_func (bump params) (request_of params ptp)).params
          (t.sendreq_func (bump params) (request_of params ptp)).ptp).flatten = []
      · rw [if_pos hf]
        rw [hf] at p2
        exact pn.mpr p2
      · rw [if_neg hf]
        cases hd : (push_all c { data := none, size := 0, curoff := 0 }
            (chunks (t.sendreq_func (bump params) (request_of params ptp)).params
              (t.sendreq_func (bump params) (request_of params ptp)).ptp)).2.data with
        | none =>
          rw [hd] at p2
          exact absurd p2.symm hf
        | some d =>
          rw [hd] at p2
          simp only [Option.getD_some] at p2
          rw [p2]
    · rw [p3, List.length_flatten]
  · exact absurd hf (by decide)
  · exact absurd h2 hf

theorem set_getD_self {α : Type} (d : α) : ∀ (l : List α) (i : Nat), l.set i (l.getD i d) = l := by
  intro l
  induction l with
  | nil => intro i; rfl
  | cons x l ih =>
    intro i
    cases i with
    | zero => rfl
    | succ i => simp only [List.getD_cons_succ, List.set_cons_succ, ih i]

theorem canon_prop_index_spec (propcode : Nat) (d : PTPCanon_Property) :
    ∀ (l : List PTPCanon_Property) (k : Nat),
      k ≤ canon_prop_index propcode l k ∧ canon_prop_index propcode l k ≤ k + l.length ∧
      (canon_prop_index propcode l k ≠ k + l.length →
        (l.getD (canon_prop_index propcode l k - k) d).proptype = propcode) ∧
      ∀ j, j < canon_prop_index propcode l k - k → (l.getD j d).proptype ≠ propcode := by
  intro l
  induction l with
  | nil =>
    intro k
    simp [canon_prop_index]
  | cons x l ih =>
    intro k
    unfold canon_prop_index
    by_cases hx : x.proptype = propcode
    · simp [hx]
    · simp only [hx, if_false]
      obtain ⟨a1, a2, a3, a4⟩ := ih (k + 1)
      refine ⟨by omega, by simp only [List.length_cons]; omega, fun hne => ?_, fun j hj => ?_⟩
      · have hpos : canon_prop_index propcode l (k + 1) - k
            = (canon_prop_index propcode l (k + 1) - (k + 1)) + 1 := by omega
        rw [hpos]
        simp only [List.getD_cons_succ]
        apply a3
        simp only [List.length_cons] at hne
        omega
      · cases j with
        | zero => simpa using hx
        | succ j =>
          simp only [List.getD_cons_succ]
          apply a4
          omega

/-- C21, as amended.  For a property that is in the Canon property table and a
datatype other than STR, `ptp_canon_eos_setdevicepropvalue` assigns the new value to
the cached current value before it runs the transaction: with transport callbacks
that leave the table alone, the table after the call is the old table with the
member `u8`, `u16` or `u32` of the current value of that entry assigned, for the
datatypes UINT8, UINT16 and UINT32 (for any other datatype the entry is as it was),
whatever the transaction returns, which is also what the call returns.  The entry
is the first one whose property code is the one given.  When the property is not in
the table or the datatype is STR, the call returns `PTP_RC_Undefined` without a
transaction and leaves the session as it was. -/
theorem setdevicepropvalue_writes_before_transaction {W : Type} (c : PTPCodes)
    (t : PTPTransport W) (e : PTPEncode W) (u : PTPPropertyValue) (params : PTPParams W)
    (propcode value datatype : Nat) (hk : t.Keeps (fun p => p.canon_props)) :
    (((params.nrofcanon_props = (canon_prop_index propcode (params.canon_props.take params.nrofcanon_props) 0) ∨
        datatype = c.PTP_DTC_STR) →
      (ptp_canon_eos_setdevicepropvalue c t e u params propcode value datatype).ret = c.PTP_RC_Undefined ∧
      (ptp_canon_eos_setdevicepropvalue c t e u params propcode value datatype).calls = [] ∧
      (ptp_canon_eos_setdevicepropvalue c t e u params propcode value datatype).params = params) ∧
    (params.canon_props.length = params.nrofcanon_props →
      params.nrofcanon_props ≠ (canon_prop_index propcode (params.canon_props.take params.nrofcanon_props) 0) →
      (canon_prop_index propcode (params.canon_props.take params.nrofcanon_props) 0) < params.nrofcanon_props ∧
      (params.canon_props.getD (canon_prop_index propcode (params.canon_props.take params.nrofcanon_props) 0)
              { proptype := 0, CurrentValue := 0 }).proptype = propcode) ∧
    (params.nrofcanon_props ≠ (canon_prop_index propcode (params.canon_props.take params.nrofcanon_props) 0) →
      datatype ≠ c.PTP_DTC_STR →
      (ptp_canon_eos_setdevicepropvalue c t e u params propcode value datatype).params.canon_props
        = params.canon_props.set (canon_prop_index propcode (params.canon_props.take params.nrofcanon_props) 0)
            { proptype := (params.canon_props.getD (canon_prop_index propcode (params.canon_props.take params.nrofcanon_props) 0)
              { proptype := 0, CurrentValue := 0 }).proptype,
              CurrentValue :=
                if datatype = c.PTP_DTC_UINT8 then
                  u.set_u8 (params.canon_props.getD (canon_prop_index propcode (params.canon_props.take params.nrofcanon_props) 0)
              { proptype := 0, CurrentValue := 0 }).CurrentValue (u.get_u8 value)
                else if datatype = c.PTP_DTC_UINT16 then
                  u.set_u16 (params.canon_props.getD (canon_prop_index propcode (params.canon_props.take params.nrofcanon_props) 0)
              { proptype := 0, CurrentValue := 0 }).CurrentValue (u.get_u16 value)
                else if datatype = c.PTP_DTC_UINT32 then
                  u.set_u32 (params.canon_props.getD (canon_prop_index propcode (params.canon_props.take params.nrofcanon_props) 0)
              { proptype := 0, CurrentValue := 0 }).CurrentValue (u.get_u32 value)
                else (params.canon_props.getD (canon_prop_index propcode (params.canon_props.take params.nrofcanon_props) 0)
              { proptype := 0, CurrentValue := 0 }).CurrentValue } ∧
      (ptp_canon_eos_setdevicepropvalue c t e u params propcode value datatype).ret
        = (ptp_transaction c t
            (setdevicepropvalue_prepared c e u params (canon_prop_index propcode (params.canon_props.take params.nrofcanon_props) 0) propcode value datatype).2
            (some { PTP_CNT_INIT with Code := c.PTP_OC_CANON_EOS_SetDevicePropValueEx,
                                      Nparam := 0 })
            PTP_DP_SENDDATA 12
            (some (setdevicepropvalue_prepared c e u params (canon_prop_index propcode (params.canon_props.take params.nrofcanon_props) 0) propcode value
              datatype).1)).ret)) := by
  refine ⟨fun h => ?_, fun hlen hfound => ?_, fun h1 h2 => ?_⟩
  · unfold ptp_canon_eos_setdevicepropvalue
    simp only []
    rcases h with h | h
    · rw [if_pos h]
      exact ⟨rfl, rfl, rfl⟩
    · split_ifs <;> exact ⟨rfl, rfl, rfl⟩
  · obtain ⟨-, a2, a3, -⟩ := canon_prop_index_spec propcode { proptype := 0, CurrentValue := 0 }
      (params.canon_props.take params.nrofcanon_props) 0
    have htake : params.canon_props.take params.nrofcanon_props = params.canon_props := by
      rw [← hlen, List.take_length]
    rw [htake] at a2 a3 ⊢
    rw [htake] at hfound
    simp only [Nat.zero_add, Nat.sub_zero] at a2 a3
    rw [hlen] at a2 a3
    exact ⟨by omega, a3 (fun h => hfound h.symm)⟩
  · unfold ptp_canon_eos_setdevicepropvalue
    simp only []
    rw [if_neg h1, if_neg h2]
    refine ⟨?_, rfl⟩
    simp only []
    rw [transaction_keeps c t (fun p => p.canon_props) hk (fun _ => rfl)]
    unfold setdevicepropvalue_prepared
    simp only []
    split_ifs
    · rfl
    · rfl
    · rfl
    · exact (set_getD_self _ _ _).symm

/-- Witness for C21, as amended.  First property `0xD102`, the second entry of a
table of two, is set to `0x1234` as a UINT16 value on a device that refuses the
request with `0x2005`: the property is found at index 1, the datatype is not STR,
the call returns `0x2005` and the table holds `0x1234` for the property.  Then
property `0xD1FF`, which is not in the table: the call returns `PTP_RC_Undefined`
and makes no transport call. -/
theorem setdevicepropvalue_writes_before_transaction_witness :
    ((scripted refusing).Keeps (fun p => p.canon_props) ∧
     sampleCanon.canon_props.length = sampleCanon.nrofcanon_props ∧
     sampleCanon.nrofcanon_props ≠ (canon_prop_index 0xD102 (sampleCanon.canon_props.take sampleCanon.nrofcanon_props) 0) ∧
     (0x0004 : Nat) ≠ sampleCodes.PTP_DTC_STR ∧
     (ptp_canon_eos_setdevicepropvalue sampleCodes (scripted refusing) sampleEncode sampleValue sampleCanon 0xD102 0x1234 0x0004).ret = 0x2005 ∧
     (ptp_canon_eos_setdevicepropvalue sampleCodes (scripted refusing) sampleEncode sampleValue sampleCanon 0xD102 0x1234 0x0004).params.canon_props
       = [{ proptype := 0xD101, CurrentValue := 0 },
          { proptype := 0xD102, CurrentValue := 0x1234 }] ∧
    (((sampleCanon.nrofcanon_props = (canon_prop_index 0xD102 (sampleCanon.canon_props.take sampleCanon.nrofcanon_props) 0) ∨
        0x0004 = sampleCodes.PTP_DTC_STR) →
      (ptp_canon_eos_setdevicepropvalue sampleCodes (scripted refusing) sampleEncode sampleValue sampleCanon 0xD102 0x1234 0x0004).ret = sampleCodes.PTP_RC_Undefined ∧
      (ptp_canon_eos_setdevicepropvalue sampleCodes (scripted refusing) sampleEncode sampleValue sampleCanon 0xD102 0x1234 0x0004).calls = [] ∧
      (ptp_canon_eos_setdevicepropvalue sampleCodes (scripted refusing) sampleEncode sampleValue sampleCanon 0xD102 0x1234 0x0004).params = sampleCanon) ∧
    (sampleCanon.canon_props.length = sampleCanon.nrofcanon_props →
      sampleCanon.nrofcanon_props ≠ (canon_prop_index 0xD102 (sampleCanon.canon_props.take sampleCanon.nrofcanon_props) 0) →
      (canon_prop_index 0xD102 (sampleCanon.canon_props.take sampleCanon.nrofcanon_props) 0) < sampleCanon.nrofcanon_props ∧
      (sampleCanon.canon_props.getD (canon_prop_index 0xD102 (sampleCanon.canon_props.take sampleCanon.nrofcanon_props) 0)
              { proptype := 0, CurrentValue := 0 }).proptype = 0xD102) ∧
    (sampleCanon.nrofcanon_props ≠ (canon_prop_index 0xD102 (sampleCanon.canon_props.take sampleCanon.nrofcanon_props) 0) →
      0x0004 ≠ sampleCodes.PTP_DTC_STR →
      (ptp_canon_eos_setdevicepropvalue sampleCodes (scripted refusing) sampleEncode sampleValue sampleCanon 0xD102 0x1234 0x0004).params.canon_props
        = sampleCanon.canon_props.set (canon_prop_index 0xD102 (sampleCanon.canon_props.take sampleCanon.nrofcanon_props) 0)
            { proptype := (sampleCanon.canon_props.getD (canon_prop_index 0xD102 (sampleCanon.canon_props.take sampleCanon.nrofcanon_props) 0)
              { proptype := 0, CurrentValue := 0 }).proptype,
              CurrentValue :=
                if 0x0004 = sampleCodes.PTP_DTC_UINT8 then
                  sampleValue.set_u8 (sampleCanon.canon_props.getD (canon_prop_index 0xD102 (sampleCanon.canon_props.take sampleCanon.nrofcanon_props) 0)
              { proptype := 0, CurrentValue := 0 }).CurrentValue (sampleValue.get_u8 0x1234)
                else if 0x0004 = sampleCodes.PTP_DTC_UINT16 then
                  sampleValue.set_u16 (sampleCanon.canon_props.getD (canon_prop_index 0xD102 (sampleCanon.canon_props.take sampleCanon.nrofcanon_props) 0)
              { proptype := 0, CurrentValue := 0 }).CurrentValue (sampleValue.get_u16 0x1234)
                else if 0x0004 = sampleCodes.PTP_DTC_UINT32 then
                  sampleValue.set_u32 (sampleCanon.canon_props.getD (canon_prop_index 0xD102 (sampleCanon.canon_props.take sampleCanon.nrofcanon_props) 0)
              { proptype := 0, CurrentValue := 0 }).CurrentValue (sampleValue.get_u32 0x1234)
                else (sampleCanon.canon_props.getD (canon_prop_index 0xD102 (sampleCanon.canon_props.take sampleCanon.nrofcanon_props) 0)
              { proptype := 0, CurrentValue := 0 }).CurrentValue } ∧
      (ptp_canon_eos_setdevicepropvalue sampleCodes (scripted refusing) sampleEncode sampleValue sampleCanon 0xD102 0x1234 0x0004).ret
        = (ptp_transaction sampleCodes (scripted refusing)
            (setdevicepropvalue_prepared sampleCodes sampleEncode sampleValue sampleCanon (canon_prop_index 0xD102 (sampleCanon.canon_props.take sampleCanon.nrofcanon_props) 0) 0xD102 0x1234 0x0004).2
            (some { PTP_CNT_INIT with Code := sampleCodes.PTP_OC_CANON_EOS_SetDevicePropValueEx,
                                      Nparam := 0 })
            PTP_DP_SENDDATA 12
            (some (setdevicepropvalue_prepared sampleCodes sampleEncode sampleValue sampleCanon (canon_prop_index 0xD102 (sampleCanon.canon_props.take sampleCanon.nrofcanon_props) 0) 0xD102 0x1234
              0x0004).1)).ret))) ∧
    ((scripted allOK).Keeps (fun p => p.canon_props) ∧
     sampleCanon.nrofcanon_props = (canon_prop_index 0xD1FF (sampleCanon.canon_props.take sampleCanon.nrofcanon_props) 0) ∧
     (ptp_canon_eos_setdevicepropvalue sampleCodes (scripted allOK) sampleEncode sampleValue sampleCanon 0xD1FF 5 0x0002).calls = [] ∧
    (((sampleCanon.nrofcanon_props = (canon_prop_index 0xD1FF (sampleCanon.canon_props.take sampleCanon.nrofcanon_props) 0) ∨
        0x0002 = sampleCodes.PTP_DTC_STR) →
      (ptp_canon_eos_setdevicepropvalue sampleCodes (scripted allOK) sampleEncode sampleValue sampleCanon 0xD1FF 5 0x0002).ret = sampleCodes.PTP_RC_Undefined ∧
      (ptp_canon_eos_setdevicepropvalue sampleCodes (scripted allOK) sampleEncode sampleValue sampleCanon 0xD1FF 5 0x0002).calls = [] ∧
      (ptp_canon_eos_setdevicepropvalue sampleCodes (scripted allOK) sampleEncode sampleValue sampleCanon 0xD1FF 5 0x0002).params = sampleCanon) ∧
    (sampleCanon.canon_props.length = sampleCanon.nrofcanon_props →
      sampleCanon.nrofcanon_props ≠ (canon_prop_index 0xD1FF (sampleCanon.canon_props.take sampleCanon.nrofcanon_props) 0) →
      (canon_prop_index 0xD1FF (sampleCanon.canon_props.take sampleCanon.nrofcanon_props) 0) < sampleCanon.nrofcanon_props ∧
      (sampleCanon.canon_props.getD (canon_prop_index 0xD1FF (sampleCanon.canon_props.take sampleCanon.nrofcanon_props) 0)
              { proptype := 0, CurrentValue := 0 }).proptype = 0xD1FF) ∧
    (sampleCanon.nrofcanon_props ≠ (canon_prop_index 0xD1FF (sampleCanon.canon_props.take sampleCanon.nrofcanon_props) 0) →
      0x0002 ≠ sampleCodes.PTP_DTC_STR →
      (ptp_canon_eos_setdevicepropvalue sampleCodes (scripted allOK) sampleEncode sampleValue sampleCanon 0xD1FF 5 0x0002).params.canon_props
        = sampleCanon.canon_props.set (canon_prop_index 0xD1FF (sampleCanon.canon_props.take sampleCanon.nrofcanon_props) 0)
            { proptype := (sampleCanon.canon_props.getD (canon_prop_index 0xD1FF (sampleCanon.canon_props.take sampleCanon.nrofcanon_props) 0)
              { proptype := 0, CurrentValue := 0 }).proptype,
              CurrentValue :=
                if 0x0002 = sampleCodes.PTP_DTC_UINT8 then
                  sampleValue.set_u8 (sampleCanon.canon_props.getD (canon_prop_index 0xD1FF (sampleCanon.canon_props.take sampleCanon.nrofcanon_props) 0)
              { proptype := 0, CurrentValue := 0 }).CurrentValue (sampleValue.get_u8 5)
                else if 0x0002 = sampleCodes.PTP_DTC_UINT16 then
                  sampleValue.set_u16 (sampleCanon.canon_props.getD (canon_prop_index 0xD1FF (sampleCanon.canon_props.take sampleCanon.nrofcanon_props) 0)
              { proptype := 0, CurrentValue := 0 }).CurrentValue (sampleValue.get_u16 5)
                else if 0x0002 = sampleCodes.PTP_DTC_UINT32 then
                  sampleValue.set_u32 (sampleCanon.canon_props.getD (canon_prop_index 0xD1FF (sampleCanon.canon_props.take sampleCanon.nrofcanon_props) 0)
              { proptype := 0, CurrentValue := 0 }).CurrentValue (sampleValue.get_u32 5)
                else (sampleCanon.canon_props.getD (canon_prop_index 0xD1FF (sampleCanon.canon_props.take sampleCanon.nrofcanon_props) 0)
              { proptype := 0, CurrentValue := 0 }).CurrentValue } ∧
      (ptp_canon_eos_setdevicepropvalue sampleCodes (scripted allOK) sampleEncode sampleValue sampleCanon 0xD1FF 5 0x0002).ret
        = (ptp_transaction sampleCodes (scripted allOK)
            (setdevicepropvalue_prepared sampleCodes sampleEncode sampleValue sampleCanon (canon_prop_index 0xD1FF (sampleCanon.canon_props.take sampleCanon.nrofcanon_props) 0) 0xD1FF 5 0x0002).2
            (some { PTP_CNT_INIT with Code := sampleCodes.PTP_OC_CANON_EOS_SetDevicePropValueEx,
                                      Nparam := 0 })
            PTP_DP_SENDDATA 12
            (some (setdevicepropvalue_prepared sampleCodes sampleEncode sampleValue sampleCanon (canon_prop_index 0xD1FF (sampleCanon.canon_props.take sampleCanon.nrofcanon_props) 0) 0xD1FF 5
              0x0002).1)).ret))) :=
  ⟨⟨scripted_keeps refusing _, by decide, by decide, by decide, by decide, by decide,
    setdevicepropvalue_writes_before_transaction sampleCodes (scripted refusing) sampleEncode
      sampleValue sampleCanon 0xD102 0x1234 0x0004 (scripted_keeps refusing _)⟩,
   ⟨scripted_keeps allOK _, by decide, by decide,
    setdevicepropvalue_writes_before_transaction sampleCodes (scripted allOK) sampleEncode
      sampleValue sampleCanon 0xD1FF 5 0x0002 (scripted_keeps allOK _)⟩⟩

/-- The model of `ptp_canon_eos_setdevicepropvalue` on sample inputs, on a device
that answers OK: a UINT8, a UINT16 and a UINT32 value are written into the entry of
the property and sent in a block of 12 bytes; the datatype `0x0008`, which the
`switch` has no case for, leaves the table alone; the datatype STR returns
`PTP_RC_Undefined` without a transport call. -/
theorem setdevicepropvalue_samples :
    (ptp_canon_eos_setdevicepropvalue sampleCodes (scripted allOK) sampleEncode sampleValue
        sampleCanon 0xD101 0x1FF 0x0002).params.canon_props
      = [{ proptype := 0xD101, CurrentValue := 0xFF },
         { proptype := 0xD102, CurrentValue := 0 }] ∧
    (ptp_canon_eos_setdevicepropvalue sampleCodes (scripted allOK) sampleEncode sampleValue
        sampleCanon 0xD102 0x1234 0x0004).params.canon_props
      = [{ proptype := 0xD101, CurrentValue := 0 },
         { proptype := 0xD102, CurrentValue := 0x1234 }] ∧
    (ptp_canon_eos_setdevicepropvalue sampleCodes (scripted allOK) sampleEncode sampleValue
        sampleCanon 0xD102 0x12345678 0x0006).params.canon_props
      = [{ proptype := 0xD101, CurrentValue := 0 },
         { proptype := 0xD102, CurrentValue := 0x12345678 }] ∧
    (setdevicepropvalue_prepared sampleCodes sampleEncode sampleValue sampleCanon 1 0xD102
        0x12345678 0x0006).1
      = [12, 0, 0, 0, 0x02, 0xD1, 0, 0, 0x78, 0x56, 0x34, 0x12] ∧
    (ptp_canon_eos_setdevicepropvalue sampleCodes (scripted allOK) sampleEncode sampleValue
        sampleCanon 0xD102 7 0x0008).params.canon_props = sampleCanon.canon_props ∧
    (ptp_canon_eos_setdevicepropvalue sampleCodes (scripted allOK) sampleEncode sampleValue
        sampleCanon 0xD102 7 0xFFFF).ret = sampleCodes.PTP_RC_Undefined ∧
    (ptp_canon_eos_setdevicepropvalue sampleCodes (scripted allOK) sampleEncode sampleValue
        sampleCanon 0xD102 7 0xFFFF).calls = [] := by
  refine ⟨by decide, by decide, by decide, by decide, by decide, by decide, by decide⟩

/-- C21, counterexample.  The table holds property `0xD101` with current value 0 and
the device refuses the request with the response code `0x2005`: the call returns
that code, and the table holds the value 5 for the property. -/
theorem setdevicepropvalue_failure_counterexample :
    sampleCanon.canon_props
      = [{ proptype := 0xD101, CurrentValue := 0 }, { proptype := 0xD102, CurrentValue := 0 }] ∧
    (ptp_canon_eos_setdevicepropvalue sampleCodes (scripted refusing) sampleEncode sampleValue
        sampleCanon 0xD101 5 0x0002).ret = 0x2005 ∧
    (ptp_canon_eos_setdevicepropvalue sampleCodes (scripted refusing) sampleEncode sampleValue
        sampleCanon 0xD101 5 0x0002).ret ≠ sampleCodes.PTP_RC_OK ∧
    (ptp_canon_eos_setdevicepropvalue sampleCodes (scripted refusing) sampleEncode sampleValue
        sampleCanon 0xD101 5 0x0002).params.canon_props
      = [{ proptype := 0xD101, CurrentValue := 5 }, { proptype := 0xD102, CurrentValue := 0 }] ∧
    (ptp_canon_eos_setdevicepropvalue sampleCodes (scripted refusing) sampleEncode sampleValue
        sampleCanon 0xD101 5 0x0002).params.canon_props ≠ sampleCanon.canon_props := by
  refine ⟨by decide, by decide, by decide, by decide, by decide⟩

/-- C25.  With a transport whose get-data callback pushes the chunks the device
sent through `memory_putfunc`, `ptp_canon_checkevent` returns what the CheckEvent
transaction returned; it sets `*isevent` to 1 exactly when the transaction returned
OK and the chunks the device sent hold at least one byte, and then the event is
decoded from these bytes, in the order sent, and their number; in every other case
it sets `*isevent` to 0 and leaves the event struct alone. -/
theorem checkevent_flags_nonempty_block {W E : Type} (c : PTPCodes) (t : PTPTransport W)
    (ptp_unpack_EC : PTPParams W → List Nat → E → Nat → E) (params : PTPParams W) (event : E)
    (chunks : PTPParams W → PTPContainer → List (List Nat)) (hdel : t.Delivers c chunks) :
    ((ptp_canon_checkevent c t ptp_unpack_EC params event).ret
      = (ptp_transaction c t params
          (some { PTP_CNT_INIT with Code := c.PTP_OC_CANON_CheckEvent, Nparam := 0 })
          PTP_DP_GETDATA 0 none).ret ∧
    ((ptp_canon_checkevent c t ptp_unpack_EC params event).isevent = 1 ↔
      ((ptp_transaction c t params
          (some { PTP_CNT_INIT with Code := c.PTP_OC_CANON_CheckEvent, Nparam := 0 })
          PTP_DP_GETDATA 0 none).ret = c.PTP_RC_OK ∧
       (chunks (t.sendreq_func (bump params)
            (request_of params
              { PTP_CNT_INIT with Code := c.PTP_OC_CANON_CheckEvent, Nparam := 0 })).params
          (t.sendreq_func (bump params)
            (request_of params
              { PTP_CNT_INIT with Code := c.PTP_OC_CANON_CheckEvent, Nparam := 0 })).ptp).flatten ≠ [])) ∧
    ((ptp_canon_checkevent c t ptp_unpack_EC params event).isevent = 1 →
      (ptp_canon_checkevent c t ptp_unpack_EC params event).event
        = ptp_unpack_EC (ptp_transaction c t params
          (some { PTP_CNT_INIT with Code := c.PTP_OC_CANON_CheckEvent, Nparam := 0 })
          PTP_DP_GETDATA 0 none).params
            (chunks (t.sendreq_func (bump params)
            (request_of params
              { PTP_CNT_INIT with Code := c.PTP_OC_CANON_CheckEvent, Nparam := 0 })).params
          (t.sendreq_func (bump params)
            (request_of params
              { PTP_CNT_INIT with Code := c.PTP_OC_CANON_CheckEvent, Nparam := 0 })).ptp).flatten event
            ((chunks (t.sendreq_func (bump params)
            (request_of params
              { PTP_CNT_INIT with Code := c.PTP_OC_CANON_CheckEvent, Nparam := 0 })).params
          (t.sendreq_func (bump params)
            (request_of params
              { PTP_CNT_INIT with Code := c.PTP_OC_CANON_CheckEvent, Nparam := 0 })).ptp).flatten.length % UINT32_MOD)) ∧
    ((ptp_canon_checkevent c t ptp_unpack_EC params event).isevent ≠ 1 →
      (ptp_canon_checkevent c t ptp_unpack_EC params event).isevent = 0 ∧
      (ptp_canon_checkevent c t ptp_unpack_EC params event).event = event)) := by
  have hb := transaction_getdata_delivered c t chunks hdel params
    { PTP_CNT_INIT with Code := c.PTP_OC_CANON_CheckEvent, Nparam := 0 }
  unfold ptp_canon_checkevent
  simp only []
  generalize ptp_transaction c t params
    (some { PTP_CNT_INIT with Code := c.PTP_OC_CANON_CheckEvent, Nparam := 0 })
    PTP_DP_GETDATA 0 none = tx at hb ⊢
  generalize (chunks (t.sendreq_func (bump params)
      (request_of params
        { PTP_CNT_INIT with Code := c.PTP_OC_CANON_CheckEvent, Nparam := 0 })).params
    (t.sendreq_func (bump params)
      (request_of params
        { PTP_CNT_INIT with Code := c.PTP_OC_CANON_CheckEvent, Nparam := 0 })).ptp).flatten
    = sent at hb ⊢
  cases hd : tx.data with
  | none =>
    simp only []
    refine ⟨trivial, ?_, fun h => absurd h (by decide), fun _ => ⟨trivial, trivial⟩⟩
    constructor
    · intro h; exact absurd h (by decide)
    · rintro ⟨hok, hne⟩
      obtain ⟨h1, -⟩ := hb hok
      rw [hd] at h1
      rw [if_neg hne] at h1
      exact absurd h1 (by simp)
  | some evdata =>
    simp only []
    split_ifs with hok
    · obtain ⟨h1, h2⟩ := hb hok
      rw [hd] at h1
      by_cases hs : sent = []
      · rw [if_pos hs] at h1
        exact absurd h1 (by simp)
      · rw [if_neg hs] at h1
        simp only [Option.some.injEq] at h1
        refine ⟨rfl, ⟨fun _ => ⟨hok, hs⟩, fun _ => rfl⟩, fun _ => ?_,
          fun h => absurd rfl h⟩
        show ptp_unpack_EC tx.params evdata event (tx.recvlen.getD 0) = _
        rw [h1, h2]
        rfl
    · refine ⟨rfl, ?_, fun h => absurd h (by simp), fun _ => ⟨rfl, rfl⟩⟩
      constructor
      · intro h; exact absurd h (by simp)
      · rintro ⟨h, -⟩; exact absurd h hok

/-- Witness for C25.  First the device answers OK and sends the event block 9, 8 in
two chunks, which the transport pushes one after the other: `*isevent` is 1.  Then
the device answers OK and sends two empty chunks: `*isevent` is 0. -/
theorem checkevent_flags_nonempty_block_witness :
    ((pushing allOK [[9], [8]]).Delivers sampleCodes (fun _ _ => [[9], [8]]) ∧
     (ptp_canon_checkevent sampleCodes (pushing allOK [[9], [8]]) sample_unpack_EC
        (sampleParams 0 1) []).isevent = 1 ∧
     (ptp_canon_checkevent sampleCodes (pushing allOK [[9], [8]]) sample_unpack_EC
        (sampleParams 0 1) []).event = [9, 8] ∧
    ((ptp_canon_checkevent sampleCodes (pushing allOK [[9], [8]]) sample_unpack_EC (sampleParams 0 1) []).ret
      = (ptp_transaction sampleCodes (pushing allOK [[9], [8]]) (sampleParams 0 1)
          (some { PTP_CNT_INIT with Code := sampleCodes.PTP_OC_CANON_CheckEvent, Nparam := 0 })
          PTP_DP_GETDATA 0 none).ret ∧
    ((ptp_canon_checkevent sampleCodes (pushing allOK [[9], [8]]) sample_unpack_EC (sampleParams 0 1) []).isevent = 1 ↔
      ((ptp_transaction sampleCodes (pushing allOK [[9], [8]]) (sampleParams 0 1)
          (some { PTP_CNT_INIT with Code := sampleCodes.PTP_OC_CANON_CheckEvent, Nparam := 0 })
          PTP_DP_GETDATA 0 none).ret = sampleCodes.PTP_RC_OK ∧
       ((fun _ _ => [[9], [8]]) ((pushing allOK [[9], [8]]).sendreq_func (bump (sampleParams 0 1))
            (request_of (sampleParams 0 1)
              { PTP_CNT_INIT with Code := sampleCodes.PTP_OC_CANON_CheckEvent, Nparam := 0 })).params
          ((pushing allOK [[9], [8]]).sendreq_func (bump (sampleParams 0 1))
            (request_of (sampleParams 0 1)
              { PTP_CNT_INIT with Code := sampleCodes.PTP_OC_CANON_CheckEvent, Nparam := 0 })).ptp).flatten ≠ [])) ∧
    ((ptp_canon_checkevent sampleCodes (pushing allOK [[9], [8]]) sample_unpack_EC (sampleParams 0 1) []).isevent = 1 →
      (ptp_canon_checkevent sampleCodes (pushing allOK [[9], [8]]) sample_unpack_EC (sampleParams 0 1) []).event
        = sample_unpack_EC (ptp_transaction sampleCodes (pushing allOK [[9], [8]]) (sampleParams 0 1)
          (some { PTP_CNT_INIT with Code := sampleCodes.PTP_OC_CANON_CheckEvent, Nparam := 0 })
          PTP_DP_GETDATA 0 none).params
            ((fun _ _ => [[9], [8]]) ((pushing allOK [[9], [8]]).sendreq_func (bump (sampleParams 0 1))
            (request_of (sampleParams 0 1)
              { PTP_CNT_INIT with Code := sampleCodes.PTP_OC_CANON_CheckEvent, Nparam := 0 })).params
          ((pushing allOK [[9], [8]]).sendreq_func (bump (sampleParams 0 1))
            (request_of (sampleParams 0 1)
              { PTP_CNT_INIT with Code := sampleCodes.PTP_OC_CANON_CheckEvent, Nparam := 0 })).ptp).flatten []
            (((fun _ _ => [[9], [8]]) ((pushing allOK [[9], [8]]).sendreq_func (bump (sampleParams 0 1))
            (request_of (sampleParams 0 1)
              { PTP_CNT_INIT with Code := sampleCodes.PTP_OC_CANON_CheckEvent, Nparam := 0 })).params
          ((pushing allOK [[9], [8]]).sendreq_func (bump (sampleParams 0 1))
            (request_of (sampleParams 0 1)
              { PTP_CNT_INIT with Code := sampleCodes.PTP_OC_CANON_CheckEvent, Nparam := 0 })).ptp).flatten.length % UINT32_MOD)) ∧
    ((ptp_canon_checkevent sampleCodes (pushing allOK [[9], [8]]) sample_unpack_EC (sampleParams 0 1) []).isevent ≠ 1 →
      (ptp_canon_checkevent sampleCodes (pushing allOK [[9], [8]]) sample_unpack_EC (sampleParams 0 1) []).isevent = 0 ∧
      (ptp_canon_checkevent sampleCodes (pushing allOK [[9], [8]]) sample_unpack_EC (sampleParams 0 1) []).event = []))) ∧
    ((pushing allOK [[], []]).Delivers sampleCodes (fun _ _ => ([[], []] : List (List Nat))) ∧
     (ptp_canon_checkevent sampleCodes (pushing allOK [[], []]) sample_unpack_EC
        (sampleParams 0 1) []).isevent = 0 ∧
     (ptp_canon_checkevent sampleCodes (pushing allOK [[], []]) sample_unpack_EC
        (sampleParams 0 1) []).ret = sampleCodes.PTP_RC_OK ∧
    ((ptp_canon_checkevent sampleCodes (pushing allOK [[], []]) sample_unpack_EC (sampleParams 0 1) []).ret
      = (ptp_transaction sampleCodes (pushing allOK [[], []]) (sampleParams 0 1)
          (some { PTP_CNT_INIT with Code := sampleCodes.PTP_OC_CANON_CheckEvent, Nparam := 0 })
          PTP_DP_GETDATA 0 none).ret ∧
    ((ptp_canon_checkevent sampleCodes (pushing allOK [[], []]) sample_unpack_EC (sampleParams 0 1) []).isevent = 1 ↔
      ((ptp_transaction sampleCodes (pushing allOK [[], []]) (sampleParams 0 1)
          (some { PTP_CNT_INIT with Code := sampleCodes.PTP_OC_CANON_CheckEvent, Nparam := 0 })
          PTP_DP_GETDATA 0 none).ret = sampleCodes.PTP_RC_OK ∧
       ((fun _ _ => ([[], []] : List (List Nat))) ((pushing allOK [[], []]).sendreq_func (bump (sampleParams 0 1))
            (request_of (sampleParams 0 1)
              { PTP_CNT_INIT with Code := sampleCodes.PTP_OC_CANON_CheckEvent, Nparam := 0 })).params
          ((pushing allOK [[], []]).sendreq_func (bump (sampleParams 0 1))
            (request_of (sampleParams 0 1)
              { PTP_CNT_INIT with Code := sampleCodes.PTP_OC_CANON_CheckEvent, Nparam := 0 })).ptp).flatten ≠ [])) ∧
    ((ptp_canon_checkevent sampleCodes (pushing allOK [[], []]) sample_unpack_EC (sampleParams 0 1) []).isevent = 1 →
      (ptp_canon_checkevent sampleCodes (pushing allOK [[], []]) sample_unpack_EC (sampleParams 0 1) []).event
        = sample_unpack_EC (ptp_transaction sampleCodes (pushing allOK [[], []]) (sampleParams 0 1)
          (some { PTP_CNT_INIT with Code := sampleCodes.PTP_OC_CANON_CheckEvent, Nparam := 0 })
          PTP_DP_GETDATA 0 none).params
            ((fun _ _ => ([[], []] : List (List Nat))) ((pushing allOK [[], []]).sendreq_func (bump (sampleParams 0 1))
            (request_of (sampleParams 0 1)
              { PTP_CNT_INIT with Code := sampleCodes.PTP_OC_CANON_CheckEvent, Nparam := 0 })).params
          ((pushing allOK [[], []]).sendreq_func (bump (sampleParams 0 1))
            (request_of (sampleParams 0 1)
              { PTP_CNT_INIT with Code := sampleCodes.PTP_OC_CANON_CheckEvent, Nparam := 0 })).ptp).flatten []
            (((fun _ _ => ([[], []] : List (List Nat))) ((pushing allOK [[], []]).sendreq_func (bump (sampleParams 0 1))
            (request_of (sampleParams 0 1)
              { PTP_CNT_INIT with Code := sampleCodes.PTP_OC_CANON_CheckEvent, Nparam := 0 })).params
          ((pushing allOK [[], []]).sendreq_func (bump (sampleParams 0 1))
            (request_of (sampleParams 0 1)
              { PTP_CNT_INIT with Code := sampleCodes.PTP_OC_CANON_CheckEvent, Nparam := 0 })).ptp).flatten.length % UINT32_MOD)) ∧
    ((ptp_canon_checkevent sampleCodes (pushing allOK [[], []]) sample_unpack_EC (sampleParams 0 1) []).isevent ≠ 1 →
      (ptp_canon_checkevent sampleCodes (pushing allOK [[], []]) sample_unpack_EC (sampleParams 0 1) []).isevent = 0 ∧
      (ptp_canon_checkevent sampleCodes (pushing allOK [[], []]) sample_unpack_EC (sampleParams 0 1) []).event = []))) :=
  ⟨⟨fun _ _ _ => rfl, by decide, by decide,
    checkevent_flags_nonempty_block sampleCodes (pushing allOK [[9], [8]]) sample_unpack_EC
      (sampleParams 0 1) [] (fun _ _ => [[9], [8]]) (fun _ _ _ => rfl)⟩,
   ⟨fun _ _ _ => rfl, by decide, by decide,
    checkevent_flags_nonempty_block sampleCodes (pushing allOK [[], []]) sample_unpack_EC
      (sampleParams 0 1) [] (fun _ _ => ([[], []] : List (List Nat))) (fun _ _ _ => rfl)⟩⟩

/-- The model of `ptp_canon_checkevent` on sample devices: an event block of two
bytes gives `isevent = 1` and the decoded event; an empty answer and a refused
request give `isevent = 0`. -/
theorem checkevent_samples :
    (ptp_canon_checkevent sampleCodes (pushing allOK [[9], [8]]) sample_unpack_EC
        (sampleParams 0 1) []).isevent = 1 ∧
    (ptp_canon_checkevent sampleCodes (pushing allOK [[9], [8]]) sample_unpack_EC
        (sampleParams 0 1) []).event = [9, 8] ∧
    (ptp_canon_checkevent sampleCodes (pushing allOK []) sample_unpack_EC
        (sampleParams 0 1) []).isevent = 0 ∧
    (ptp_canon_checkevent sampleCodes (pushing allOK [[]]) sample_unpack_EC
        (sampleParams 0 1) []).isevent = 0 ∧
    (ptp_canon_checkevent sampleCodes (pushing refusing [[9], [8]]) sample_unpack_EC
        (sampleParams 0 1) []).isevent = 0 ∧
    (ptp_canon_checkevent sampleCodes (pushing refusing [[9], [8]]) sample_unpack_EC
        (sampleParams 0 1) []).ret = 0x2005 := by
  refine ⟨by decide, by decide, by decide, by decide, by decide, by decide⟩

/-- C30, failing input.  The plug-in exports `getImageSize`, `get_BDCP_API_Revision`
and `getNumberofPics` but not `getImageHeight`, `getPluginVersion` and
`setCurrentPicture`.  After `getSymbols` the flags of the three missing entry points
are not set, and still `getHeight` calls `getImageHeight`, `getVersion` calls
`getPluginVersion` and `setCurrentItem` calls `setCurrentPicture`, each through a
function pointer that was never set, because each tests the flag of another entry
point. -/
theorem accessors_test_wrong_flag :
    (olderPlugin .getImageHeight = false ∧
     (CamInterface.new true olderPlugin).check_imageHeight = false ∧
     (CamInterface.new true olderPlugin).getHeight.calls = [EntryPoint.getImageHeight]) ∧
    (olderPlugin .getPluginVersion = false ∧
     (CamInterface.new true olderPlugin).check_pluginVersion = false ∧
     (CamInterface.new true olderPlugin).getVersion.calls = [EntryPoint.getPluginVersion]) ∧
    (olderPlugin .setCurrentPicture = false ∧
     (CamInterface.new true olderPlugin).check_currentPicture = false ∧
     (CamInterface.new true olderPlugin).setCurrentItem.calls
       = [EntryPoint.setCurrentPicture]) := by
  refine ⟨⟨by decide, by decide, by decide⟩, ⟨by decide, by decide, by decide⟩,
    ⟨by decide, by decide, by decide⟩⟩

end PhotoGrabber
